import Mathlib

/-!
# Des2_Library: the like/dislike vote reconciliation of `server.js`

A shallow embedding of the two vote endpoints of `server.js`
(`POST /books/:id/like`, lines 492-528, and `POST /books/:id/dislike`,
lines 531-567), of the tables they touch (`books`, lines 54-74, and `likes`,
lines 84-90), of the middleware `isAuthenticated` (lines 143-146),
`isSeedAdmin` and `isAdmin` (lines 345-358), and of the other routes that
write table `books`: `POST /addBook` (lines 370-390), `PUT /books/:id`
(lines 429-444) and `DELETE /books/:id` (lines 447-489).

Modelling conventions.

* Integers stored by SQLite are 64-bit; the counters are modelled as unbounded
  `Int` (an overflow needs more than `2^63` votes on one book).
* `req.params.id` is a string; compared with or stored into an INTEGER column
  it takes integer affinity, so the book id of a request is modelled by the
  integer key it denotes.  A key without a row in `books` stands for every id
  that matches no book.
* The `likes` table has an AUTOINCREMENT surrogate column `id` that no query of
  the repository reads; it is left out.  Rows are kept in insertion order.
* Requests do not interleave.  `likeHandler` and `dislikeHandler` are the runs
  in which the statements of a request run in program order on a connection
  without open transaction.  The source does not enforce that order: the
  statements are issued in the callback of `db.get`, outside `db.serialize`.
  `scheduledVote` takes the order in which the library runs them as an input
  and tracks the transaction of the connection; `orderedVote_eq_castVote`
  relates the two.
* A storage error is an input: the three places where a handler receives an
  `err` argument (the first SELECT, COMMIT, the final SELECT) are driven by a
  `StorageErrors` value.  Statements issued without a callback (BEGIN, the
  UPDATEs, INSERT OR REPLACE) are taken to succeed.
-/

namespace Des2Library

/-! ## Data model -/

/-- A row of table `likes` (server.js 84-90): `userId INTEGER, bookId INTEGER,
action TEXT`. -/
structure Vote where
  userId : Int
  bookId : Int
  action : String
deriving DecidableEq, Repr

/-- The columns of a `likes` row constrained by `UNIQUE(userId, bookId)`. -/
def Vote.key (v : Vote) : Int × Int := (v.userId, v.bookId)

/-- A row of table `books` (server.js 54-81): the seven text columns are
nullable, `likes` and `dislikes` are `INTEGER DEFAULT 0`. -/
structure Book where
  id : Int
  title : Option String
  author : Option String
  description : Option String
  genres : Option String
  cover : Option String
  file : Option String
  summary : Option String
  likes : Int
  dislikes : Int
deriving DecidableEq, Repr

/-- The part of the database the vote endpoints read and write.  The field
`likesUnique` is the table constraint `UNIQUE(userId, bookId)` of server.js
line 89, which the storage engine enforces on every state. -/
structure Database where
  books : List Book
  likes : List Vote
  likesUnique : (likes.map Vote.key).Nodup

/-- The object `res.json(row)` serialises after
`SELECT likes, dislikes FROM books WHERE id = ?`. -/
structure Totals where
  likes : Int
  dislikes : Int
deriving DecidableEq, Repr

/-- What a response carries: `res.send(text)`, `res.json(row)` where `row` is
`undefined` when the SELECT matched nothing, or the page Express produces when
a handler throws. -/
inductive Body where
  | text (message : String)
  | json (row : Option Totals)
  | errorPage
deriving DecidableEq, Repr

/-- An HTTP response: status code and body. -/
structure Response where
  status : Nat
  body : Body
deriving DecidableEq, Repr

/-- How `COMMIT` ends.  The handlers never issue `ROLLBACK`: when COMMIT
reports an error the engine has either left the transaction open, its changes
still visible on the single connection (`failedOpen`), or rolled it back
itself (`failedRolledBack`). -/
inductive CommitOutcome where
  | ok
  | failedOpen
  | failedRolledBack
deriving DecidableEq, Repr

/-- The `err` arguments one request receives from the storage engine:
`selectVote` for the SELECT on `likes`, `commit` for COMMIT, `selectBook` for
the final SELECT on `books` (`true` means an error is reported). -/
structure StorageErrors where
  selectVote : Bool
  commit : CommitOutcome
  selectBook : Bool
deriving DecidableEq, Repr

/-- The run in which the storage engine reports no error. -/
def StorageErrors.none : StorageErrors :=
  { selectVote := false, commit := CommitOutcome.ok, selectBook := false }

/-- The database after a handler has run, with the response it sent. -/
structure Result where
  db : Database
  response : Response

/-! ## SQL statements of the vote handlers -/

/-- The query `SELECT action FROM likes WHERE userId = ? AND bookId = ?` run
with `db.get`: the `action` of the first matching row, `none` for
`undefined`. -/
def selectAction (db : Database) (userId bookId : Int) : Option String :=
  (db.likes.find? (fun v => decide (v.userId = userId ∧ v.bookId = bookId))).map Vote.action

/-- The query `SELECT likes, dislikes FROM books WHERE id = ?` run with
`db.get`: the first matching row, `none` for `undefined`. -/
def selectTotals (db : Database) (bookId : Int) : Option Totals :=
  (db.books.find? (fun bk => decide (bk.id = bookId))).map
    (fun bk => { likes := bk.likes, dislikes := bk.dislikes })

/-- The statement `UPDATE books SET likes = likes + delta WHERE id = ?`
(`delta` is `1` or `-1` in the source). -/
def updateLikes (db : Database) (delta : Int) (bookId : Int) : Database :=
  { db with
    books := db.books.map
      (fun bk => if bk.id = bookId then { bk with likes := bk.likes + delta } else bk) }

/-- The statement `UPDATE books SET dislikes = dislikes + delta WHERE id = ?`
(`delta` is `1` or `-1` in the source). -/
def updateDislikes (db : Database) (delta : Int) (bookId : Int) : Database :=
  { db with
    books := db.books.map
      (fun bk => if bk.id = bookId then { bk with dislikes := bk.dislikes + delta } else bk) }

/-- Rows of `INSERT OR REPLACE INTO likes (userId, bookId, action)`: the rows
in conflict with the new one on `UNIQUE(userId, bookId)` are deleted, then the
new row is inserted. -/
def insertOrReplaceRows (rows : List Vote) (userId bookId : Int) (action : String) :
    List Vote :=
  rows.filter (fun v => decide (v.key ≠ (userId, bookId))) ++
    [{ userId := userId, bookId := bookId, action := action }]

/-- The statement
`INSERT OR REPLACE INTO likes (userId, bookId, action) VALUES (?, ?, ?)`. -/
def insertOrReplace (db : Database) (userId bookId : Int) (action : String) : Database :=
  { books := db.books
    likes := insertOrReplaceRows db.likes userId bookId action
    likesUnique := by
      unfold insertOrReplaceRows
      rw [List.map_append, List.nodup_append]
      refine ⟨(db.likesUnique.sublist ((List.filter_sublist _).map _)), by simp, ?_⟩
      intro k hk hk2
      simp only [List.map_cons, List.map_nil, List.mem_singleton] at hk2
      simp only [List.mem_map, List.mem_filter] at hk
      obtain ⟨v, ⟨_, hv⟩, rfl⟩ := hk
      simp [Vote.key] at hv hk2
      rcases hv with h | h
      · exact h hk2.1
      · exact h hk2.2 }

/-! ## The vote handlers -/

/-- Handler of `POST /books/:id/like` (server.js 492-528) once
`bookId = req.params.id` and `userId = req.user.id` are read, in the run in
which the library executes BEGIN, the UPDATEs, INSERT OR REPLACE and COMMIT
in the order they are issued, on a connection without open transaction; `io`
gives what the three callbacks receive.  The other orders are those of
`scheduledVote`. -/
def likeHandler (userId bookId : Int) (io : StorageErrors) (db : Database) : Result :=
  if io.selectVote then
    { db := db, response := { status := 500, body := Body.text "Failed to like book" } }
  else
    let row := selectAction db userId bookId
    if row = some "like" then
      { db := db
        response := { status := 400, body := Body.text "You have already liked this book" } }
    else
      let db1 := if row = some "dislike" then updateDislikes db (-1) bookId else db
      let db2 := updateLikes db1 1 bookId
      let db3 := insertOrReplace db2 userId bookId "like"
      match io.commit with
      | CommitOutcome.failedRolledBack =>
        { db := db, response := { status := 500, body := Body.text "Failed to like book" } }
      | CommitOutcome.failedOpen =>
        { db := db3, response := { status := 500, body := Body.text "Failed to like book" } }
      | CommitOutcome.ok =>
        if io.selectBook then
          { db := db3
            response :=
              { status := 500, body := Body.text "Failed to fetch book likes/dislikes" } }
        else
          { db := db3
            response := { status := 200, body := Body.json (selectTotals db3 bookId) } }

/-- Handler of `POST /books/:id/dislike` (server.js 531-567) once
`bookId = req.params.id` and `userId = req.user.id` are read, in the run in
which the library executes BEGIN, the UPDATEs, INSERT OR REPLACE and COMMIT
in the order they are issued, on a connection without open transaction; `io`
gives what the three callbacks receive.  The other orders are those of
`scheduledVote`. -/
def dislikeHandler (userId bookId : Int) (io : StorageErrors) (db : Database) : Result :=
  if io.selectVote then
    { db := db, response := { status := 500, body := Body.text "Failed to dislike book" } }
  else
    let row := selectAction db userId bookId
    if row = some "dislike" then
      { db := db
        response := { status := 400, body := Body.text "You have already disliked this book" } }
    else
      let db1 := if row = some "like" then updateLikes db (-1) bookId else db
      let db2 := updateDislikes db1 1 bookId
      let db3 := insertOrReplace db2 userId bookId "dislike"
      match io.commit with
      | CommitOutcome.failedRolledBack =>
        { db := db, response := { status := 500, body := Body.text "Failed to dislike book" } }
      | CommitOutcome.failedOpen =>
        { db := db3, response := { status := 500, body := Body.text "Failed to dislike book" } }
      | CommitOutcome.ok =>
        if io.selectBook then
          { db := db3
            response :=
              { status := 500, body := Body.text "Failed to fetch book likes/dislikes" } }
        else
          { db := db3
            response := { status := 200, body := Body.json (selectTotals db3 bookId) } }

/-- The two things a voter can ask for. -/
inductive Intent where
  | like
  | dislike
deriving DecidableEq, Repr

/-- The text a handler stores in column `action` for an intent. -/
def Intent.action : Intent → String
  | Intent.like => "like"
  | Intent.dislike => "dislike"

/-- The operation `castVote(userId, bookId, intent)`: the HTTP layer routes
`/like` to the like handler and `/dislike` to the dislike handler. -/
def castVote (userId bookId : Int) (intent : Intent) (io : StorageErrors) (db : Database) :
    Result :=
  match intent with
  | Intent.like => likeHandler userId bookId io db
  | Intent.dislike => dislikeHandler userId bookId io db

/-! ## The authentication middleware and the two routes -/

/-- The object passport stores in `req.user`. -/
structure User where
  id : Int
  username : String
  role : String
deriving DecidableEq, Repr

/-- What the middleware and the vote handlers read of a request:
the value `req.isAuthenticated()` returns, `req.user` (`none` when it is
`undefined` or `null`) and `req.params.id`. -/
structure Request where
  isAuthenticated : Bool
  user : Option User
  paramsId : Int
deriving DecidableEq, Repr

/-- What a middleware does with a request: call `next()` or send a
response. -/
inductive Middleware where
  | next
  | respond (res : Response)
deriving DecidableEq, Repr

/-- Authentication check middleware (server.js 143-146). -/
def isAuthenticated (req : Request) : Middleware :=
  if req.isAuthenticated then Middleware.next
  else Middleware.respond
    { status := 401, body := Body.text "You must be logged in to perform this action." }

/-- The chain `app.post(path, isAuthenticated, handler)`: the handler runs only
when the middleware calls `next()`; it reads `req.params.id` and
`req.user.id`, and reading `id` of an absent `req.user` throws, which Express
answers with its error page. -/
def guardedRoute (handler : Int → Int → StorageErrors → Database → Result)
    (req : Request) (io : StorageErrors) (db : Database) : Result :=
  match isAuthenticated req with
  | Middleware.respond res => { db := db, response := res }
  | Middleware.next =>
    match req.user with
    | Option.none => { db := db, response := { status := 500, body := Body.errorPage } }
    | Option.some user => handler user.id req.paramsId io db

/-- The route `POST /books/:id/like`, guarded by `isAuthenticated`
(server.js 492). -/
def postBooksLike (req : Request) (io : StorageErrors) (db : Database) : Result :=
  guardedRoute likeHandler req io db

/-- The route `POST /books/:id/dislike`, guarded by `isAuthenticated`
(server.js 531). -/
def postBooksDislike (req : Request) (io : StorageErrors) (db : Database) : Result :=
  guardedRoute dislikeHandler req io db

/-- A vote request sent to the route of its intent. -/
def postVote (intent : Intent) (req : Request) (io : StorageErrors) (db : Database) :
    Result :=
  match intent with
  | Intent.like => postBooksLike req io db
  | Intent.dislike => postBooksDislike req io db

/-! ## Specification vocabulary -/

/-- Number of ledger rows `(_, bookId, action)`. -/
def countVotes (db : Database) (bookId : Int) (action : String) : Nat :=
  db.likes.countP (fun v => decide (v.bookId = bookId ∧ v.action = action))

/-- Counter/ledger consistency: for every book, `likes` is the number of its
`like` rows and its `dislikes` the number of its `dislike` rows. -/
def Consistent (db : Database) : Prop :=
  ∀ bk ∈ db.books,
    bk.likes = (countVotes db bk.id "like" : Int) ∧
    bk.dislikes = (countVotes db bk.id "dislike" : Int)

instance (db : Database) : Decidable (Consistent db) := by
  unfold Consistent
  exact inferInstance

/-- The ledger rows of the pair `(userId, bookId)`. -/
def votesOf (db : Database) (userId bookId : Int) : List Vote :=
  db.likes.filter (fun v => decide (v.userId = userId ∧ v.bookId = bookId))

/-- The ledger holds a row for the pair `(userId, bookId)`. -/
def HasVote (db : Database) (userId bookId : Int) : Prop :=
  ∃ v ∈ db.likes, v.userId = userId ∧ v.bookId = bookId

instance (db : Database) (userId bookId : Int) : Decidable (HasVote db userId bookId) := by
  unfold HasVote
  exact inferInstance

/-- A storage engine that reports no error to this request. -/
def NoStorageError (io : StorageErrors) : Prop :=
  io.selectVote = false ∧ io.commit = CommitOutcome.ok ∧ io.selectBook = false

instance (io : StorageErrors) : Decidable (NoStorageError io) := by
  unfold NoStorageError
  exact inferInstance

/-- One step of the system: one run of the like or of the dislike handler, for
any user, book and behaviour of the storage engine. -/
inductive VoteStep : Database → Database → Prop where
  | vote (userId bookId : Int) (intent : Intent) (io : StorageErrors) (db : Database) :
    VoteStep db (castVote userId bookId intent io db).db

/-- The states reachable by vote requests from a state whose ledger is
empty. -/
inductive Reachable : Database → Prop where
  | init (db : Database) (h : db.likes = []) : Reachable db
  | step (db db2 : Database) (h : Reachable db) (s : VoteStep db db2) : Reachable db2

/-- The writes the like handler issues between BEGIN and COMMIT
(server.js 508-512). -/
def likeWrites (db : Database) (userId bookId : Int) : Database :=
  insertOrReplace
    (updateLikes
      (if selectAction db userId bookId = some "dislike" then updateDislikes db (-1) bookId
        else db)
      1 bookId)
    userId bookId "like"

/-- The writes the dislike handler issues between BEGIN and COMMIT
(server.js 547-551). -/
def dislikeWrites (db : Database) (userId bookId : Int) : Database :=
  insertOrReplace
    (updateDislikes
      (if selectAction db userId bookId = some "like" then updateLikes db (-1) bookId
        else db)
      1 bookId)
    userId bookId "dislike"

/-- The other intent. -/
def Intent.opposite : Intent → Intent
  | Intent.like => Intent.dislike
  | Intent.dislike => Intent.like

/-- What a vote on book `bookId` may do to a row of `books`: it keeps the id and
every column other than the two counters, and keeps the whole row of any
other book. -/
def KeepsBook (bookId : Int) (old new : Book) : Prop :=
  new.id = old.id ∧ new.title = old.title ∧ new.author = old.author ∧
  new.description = old.description ∧ new.genres = old.genres ∧ new.cover = old.cover ∧
  new.file = old.file ∧ new.summary = old.summary ∧ (old.id ≠ bookId → new = old)

/-! ## The statements a vote request sends to the database -/

/-- The SQL statements of the vote handlers, one constructor for each
`db.get` and `db.run` call of server.js 492-567. -/
inductive Stmt where
  | selectVote (userId bookId : Int)
  | beginTransaction
  | updateLikes (delta bookId : Int)
  | updateDislikes (delta bookId : Int)
  | insertOrReplace (userId bookId : Int) (action : String)
  | commit
  | selectBook (bookId : Int)
deriving DecidableEq, Repr

/-- The statements that write a row: the UPDATEs and INSERT OR REPLACE. -/
def Stmt.isWrite : Stmt → Bool
  | Stmt.updateLikes _ _ => true
  | Stmt.updateDislikes _ _ => true
  | Stmt.insertOrReplace _ _ _ => true
  | _ => false

/-- The effect of one statement on the rows the connection sees. -/
def Stmt.exec (stmt : Stmt) (db : Database) : Database :=
  match stmt with
  | Stmt.updateLikes delta bookId => Des2Library.updateLikes db delta bookId
  | Stmt.updateDislikes delta bookId => Des2Library.updateDislikes db delta bookId
  | Stmt.insertOrReplace userId bookId action =>
    Des2Library.insertOrReplace db userId bookId action
  | _ => db

/-- The statements the like handler sends for one request, in program order
(server.js 497-518): the SELECT on `likes`; unless it failed or found a like,
BEGIN, the UPDATEs, INSERT OR REPLACE and COMMIT; and after a COMMIT without
error the SELECT on `books`. -/
def likeStatements (userId bookId : Int) (io : StorageErrors) (db : Database) : List Stmt :=
  Stmt.selectVote userId bookId ::
    (if io.selectVote then []
    else if selectAction db userId bookId = some "like" then []
    else
      [Stmt.beginTransaction] ++
      (if selectAction db userId bookId = some "dislike" then
        [Stmt.updateDislikes (-1) bookId] else []) ++
      [Stmt.updateLikes 1 bookId, Stmt.insertOrReplace userId bookId "like", Stmt.commit] ++
      (match io.commit with
        | CommitOutcome.ok => [Stmt.selectBook bookId]
        | _ => []))

/-- The statements the dislike handler sends for one request, in program
order (server.js 536-557). -/
def dislikeStatements (userId bookId : Int) (io : StorageErrors) (db : Database) :
    List Stmt :=
  Stmt.selectVote userId bookId ::
    (if io.selectVote then []
    else if selectAction db userId bookId = some "dislike" then []
    else
      [Stmt.beginTransaction] ++
      (if selectAction db userId bookId = some "like" then
        [Stmt.updateLikes (-1) bookId] else []) ++
      [Stmt.updateDislikes 1 bookId, Stmt.insertOrReplace userId bookId "dislike",
        Stmt.commit] ++
      (match io.commit with
        | CommitOutcome.ok => [Stmt.selectBook bookId]
        | _ => []))

/-- The statements one vote request sends. -/
def voteStatements (userId bookId : Int) (intent : Intent) (io : StorageErrors)
    (db : Database) : List Stmt :=
  match intent with
  | Intent.like => likeStatements userId bookId io db
  | Intent.dislike => dislikeStatements userId bookId io db

/-- The rows the connection sees after a list of statements has run. -/
def runStatements (stmts : List Stmt) (db : Database) : Database :=
  stmts.foldl (fun d stmt => stmt.exec d) db

/-! ## The admin middleware and the write paths on `books` -/

/-- Seed admin username (server.js 346). -/
def seedAdminUsername : String := "admin"

/-- Seed admin check middleware (server.js 349-352).  The test
`req.isAuthenticated() && req.user.username === seedAdminUsername` reads
`req.user` only for an authenticated request; `none` stands for the TypeError
thrown when `req.user` is absent there. -/
def isSeedAdmin (req : Request) : Option Middleware :=
  if req.isAuthenticated then
    match req.user with
    | Option.none => Option.none
    | Option.some user =>
      if user.username = seedAdminUsername then some Middleware.next
      else some (Middleware.respond
        { status := 403, body := Body.text "Only the seeded admin can perform this action." })
  else some (Middleware.respond
    { status := 403, body := Body.text "Only the seeded admin can perform this action." })

/-- Admin check middleware (server.js 355-358).  The test
`req.isAuthenticated() && req.user.role === "admin"` reads `req.user` only for
an authenticated request; `none` stands for the TypeError thrown when
`req.user` is absent there. -/
def isAdmin (req : Request) : Option Middleware :=
  if req.isAuthenticated then
    match req.user with
    | Option.none => Option.none
    | Option.some user =>
      if user.role = "admin" then some Middleware.next
      else some (Middleware.respond
        { status := 403, body := Body.text "Only admin can perform this action." })
  else some (Middleware.respond
    { status := 403, body := Body.text "Only admin can perform this action." })

/-- The chain `app.METHOD(path, isAdmin, handler)`: the handler runs only when
the middleware calls `next()`; a throwing middleware is answered by Express
with its error page. -/
def adminRoute (handler : Database → Result) (req : Request) (db : Database) : Result :=
  match isAdmin req with
  | Option.none => { db := db, response := { status := 500, body := Body.errorPage } }
  | Option.some (Middleware.respond res) => { db := db, response := res }
  | Option.some Middleware.next => handler db

/-- The fields the edit-book handler reads of `req.body` (server.js 431);
`none` for a field that is absent. -/
structure EditBookBody where
  title : Option String
  author : Option String
  genres : Option String
  summary : Option String
  description : Option String
deriving DecidableEq, Repr

/-- The statement `UPDATE books SET title = ?, author = ?, genres = ?,
summary = ?, description = ? WHERE id = ?` (server.js 433). -/
def updateBook (db : Database) (bookId : Int) (body : EditBookBody) : Database :=
  { db with
    books := db.books.map (fun bk =>
      if bk.id = bookId then
        { bk with
          title := body.title, author := body.author, genres := body.genres,
          summary := body.summary, description := body.description }
      else bk) }

/-- Handler of `PUT /books/:id` (server.js 429-444); `err` is what the
callback of the UPDATE receives. -/
def editBookHandler (bookId : Int) (body : EditBookBody) (err : Bool) (db : Database) :
    Result :=
  if err then
    { db := db, response := { status := 500, body := Body.text "Failed to edit book" } }
  else
    { db := updateBook db bookId body
      response := { status := 200, body := Body.text "Book edited successfully" } }

/-- The route `PUT /books/:id`, guarded by `isAdmin`. -/
def putBooks (req : Request) (body : EditBookBody) (err : Bool) (db : Database) : Result :=
  adminRoute (editBookHandler req.paramsId body err) req db

/-- What the add-book handler reads of a multipart request (server.js
371-374): three text fields, the value of `JSON.parse(req.body.genres)` as a
list of strings (`none` when parsing it or joining it throws), and the
original names of the two uploaded files. -/
structure AddBookForm where
  title : Option String
  author : Option String
  description : Option String
  genres : Option (List String)
  bookCover : Option String
  bookFile : Option String
deriving DecidableEq, Repr

/-- JavaScript `!value` for a text field: absent or the empty string. -/
def isFalsy (value : Option String) : Bool :=
  match value with
  | Option.none => true
  | Option.some text => text = ""

/-- The statement `INSERT INTO books (title, author, description, genres,
cover, file) VALUES (?, ?, ?, ?, ?, ?)` (server.js 382): `rowid` is the id
AUTOINCREMENT assigns, `summary` is left NULL and `likes` and `dislikes` take
their `DEFAULT 0`. -/
def insertBook (db : Database) (rowid : Int)
    (title author description genres cover file : Option String) : Database :=
  { db with
    books := db.books ++
      [{ id := rowid, title := title, author := author, description := description,
         genres := genres, cover := cover, file := file, summary := Option.none,
         likes := 0, dislikes := 0 }] }

/-- Handler of `POST /addBook` (server.js 370-390); `err` is what the callback
of the INSERT receives. -/
def addBookHandler (form : AddBookForm) (rowid : Int) (err : Bool) (db : Database) :
    Result :=
  match form.genres with
  | Option.none => { db := db, response := { status := 500, body := Body.errorPage } }
  | Option.some genres =>
    let genresString := String.intercalate "," genres
    if isFalsy form.title || isFalsy form.author || isFalsy form.description ||
        genresString = "" then
      { db := db, response := { status := 400, body := Body.text "Missing required fields" } }
    else if err then
      { db := db, response := { status := 500, body := Body.text "Failed to add book" } }
    else
      { db := insertBook db rowid form.title form.author form.description
          (some genresString) form.bookCover form.bookFile
        response := { status := 200, body := Body.text "Book added successfully" } }

/-- The route `POST /addBook`, guarded by `isAdmin`. -/
def postAddBook (req : Request) (form : AddBookForm) (rowid : Int) (err : Bool)
    (db : Database) : Result :=
  adminRoute (addBookHandler form rowid err) req db

/-- The statement `DELETE FROM books WHERE id = ?` (server.js 462). -/
def deleteBookRows (db : Database) (bookId : Int) : Database :=
  { db with books := db.books.filter (fun bk => decide (bk.id ≠ bookId)) }

/-- Handler of `DELETE /books/:id` (server.js 447-489) as far as the database
goes; `selectErr` and `deleteErr` are what the two callbacks receive.  No
response (`none`) is sent when the callback throws: destructuring an
`undefined` row, or `path.join` on a NULL `cover` or `file`. -/
def deleteBookHandler (bookId : Int) (selectErr deleteErr : Bool) (db : Database) :
    Database × Option Response :=
  if selectErr then
    (db, some { status := 500, body := Body.text "Failed to fetch book details" })
  else
    match db.books.find? (fun bk => decide (bk.id = bookId)) with
    | Option.none => (db, Option.none)
    | Option.some bk =>
      if bk.cover = Option.none ∨ bk.file = Option.none then (db, Option.none)
      else if deleteErr then
        (db, some { status := 500, body := Body.text "Failed to delete book" })
      else
        (deleteBookRows db bookId,
          some { status := 200, body := Body.text "Book deleted successfully" })

/-- The route `DELETE /books/:id`, guarded by `isAdmin`. -/
def deleteBooks (req : Request) (selectErr deleteErr : Bool) (db : Database) :
    Database × Option Response :=
  match isAdmin req with
  | Option.none => (db, some { status := 500, body := Body.errorPage })
  | Option.some (Middleware.respond res) => (db, some res)
  | Option.some Middleware.next => deleteBookHandler req.paramsId selectErr deleteErr db

/-- One request to a route of server.js that writes table `books` and is not
a vote: edit, add or delete a book. -/
inductive CatalogStep : Database → Database → Prop where
  | edit (req : Request) (body : EditBookBody) (err : Bool) (db : Database) :
    CatalogStep db (putBooks req body err db).db
  | add (req : Request) (form : AddBookForm) (rowid : Int) (err : Bool) (db : Database) :
    CatalogStep db (postAddBook req form rowid err db).db
  | delete (req : Request) (selectErr deleteErr : Bool) (db : Database) :
    CatalogStep db (deleteBooks req selectErr deleteErr db).1

/-- The columns `(id, likes, dislikes)` of table `books`, row by row. -/
def counterColumns (db : Database) : List (Int × Int × Int) :=
  db.books.map (fun bk => (bk.id, bk.likes, bk.dislikes))

/-- An initial state of the vote core: an empty ledger and every book at
likes 0, dislikes 0. -/
def Initial (db : Database) : Prop :=
  db.likes = [] ∧ ∀ bk ∈ db.books, bk.likes = 0 ∧ bk.dislikes = 0

instance (db : Database) : Decidable (Initial db) := by
  unfold Initial
  exact inferInstance

/-! ## The mirror image of a state -/

/-- The action with `like` and `dislike` exchanged. -/
def swapAction (action : String) : String :=
  if action = "like" then "dislike"
  else if action = "dislike" then "like"
  else action

/-- A ledger row with its action exchanged. -/
def swapVote (v : Vote) : Vote :=
  { v with action := swapAction v.action }

/-- A book row with its likes and dislikes exchanged. -/
def swapBook (bk : Book) : Book :=
  { bk with likes := bk.dislikes, dislikes := bk.likes }

/-- The state with the likes and dislikes of every book exchanged and the
actions `like` and `dislike` of every ledger row exchanged. -/
def swapDb (db : Database) : Database :=
  { books := db.books.map swapBook
    likes := db.likes.map swapVote
    likesUnique := by
      rw [List.map_map]
      have hkey : Vote.key ∘ swapVote = Vote.key := rfl
      rw [hkey]
      exact db.likesUnique }

/-- The returned totals with their two fields exchanged. -/
def swapTotals (t : Totals) : Totals :=
  { likes := t.dislikes, dislikes := t.likes }

/-- The texts of the like handler exchanged with those of the dislike
handler (server.js 500, 504, 516 against 539, 543, 555). -/
def swapMessage (message : String) : String :=
  if message = "Failed to like book" then "Failed to dislike book"
  else if message = "Failed to dislike book" then "Failed to like book"
  else if message = "You have already liked this book" then
    "You have already disliked this book"
  else if message = "You have already disliked this book" then
    "You have already liked this book"
  else message

/-- A response body with its totals and its text exchanged. -/
def swapBody : Body → Body
  | Body.text message => Body.text (swapMessage message)
  | Body.json row => Body.json (row.map swapTotals)
  | Body.errorPage => Body.errorPage

/-- A response with the same status and the exchanged body. -/
def swapResponse (res : Response) : Response :=
  { status := res.status, body := swapBody res.body }

/-- The result of a handler, exchanged. -/
def swapResult (r : Result) : Result :=
  { db := swapDb r.db, response := swapResponse r.response }

/-- The counters of the rows of book `bookId` moved by `dLikes` and
`dDislikes`: what the UPDATEs of one vote do to a row of `books`. -/
def bumpBook (bookId dLikes dDislikes : Int) (bk : Book) : Book :=
  if bk.id = bookId then
    { bk with likes := bk.likes + dLikes, dislikes := bk.dislikes + dDislikes }
  else bk

/-- The delta table of a vote: what is added to the likes and to the dislikes
of the voted book, given the action the SELECT on the ledger returned. -/
def voteDeltas (row : Option String) (intent : Intent) : Int × Int :=
  if row = some intent.action then (0, 0)
  else
    match intent with
    | Intent.like => (1, if row = some "dislike" then -1 else 0)
    | Intent.dislike => (if row = some "like" then -1 else 0, 1)

/-! ## The chatbot of `src/routes/chatbot.js` -/

/-- JavaScript white space and line terminators by code point: the class `\s`
of a regular expression and what `String.prototype.trim` removes. -/
def isJsWhiteSpace (c : Char) : Bool :=
  let n := c.toNat
  n = 9 || n = 10 || n = 11 || n = 12 || n = 13 || n = 32 || n = 160 || n = 5760 ||
    (8192 ≤ n && n ≤ 8202) || n = 8232 || n = 8233 || n = 8239 || n = 8287 ||
    n = 12288 || n = 65279

/-- JavaScript line terminators (LF, CR, U+2028, U+2029): what `.` of a
regular expression does not match. -/
def isLineTerminator (c : Char) : Bool :=
  let n := c.toNat
  n = 10 || n = 13 || n = 8232 || n = 8233

/-- The characters left by `trim()`. -/
def trimChars (cs : List Char) : List Char :=
  ((cs.dropWhile isJsWhiteSpace).reverse.dropWhile isJsWhiteSpace).reverse

/-- JavaScript `s.trim()`. -/
def jsTrim (s : String) : String :=
  String.mk (trimChars s.data)

/-- JavaScript `s.length`: the number of UTF-16 code units. -/
def jsLength (s : String) : Nat :=
  (s.data.map (fun c => if c.toNat < 65536 then 1 else 2)).sum

/-- The regular expressions of `getSmartResponse`: literal characters, `.`,
`\s`, sequence, alternative and repetition (`never` matches nothing and is
only produced by derivatives). -/
inductive Regex where
  | never
  | epsilon
  | char (c : Char)
  | dot
  | space
  | seq (r s : Regex)
  | alt (r s : Regex)
  | star (r : Regex)
deriving DecidableEq, Repr

/-- The expression matches the empty string. -/
def Regex.nullable : Regex → Bool
  | Regex.never => false
  | Regex.epsilon => true
  | Regex.char _ => false
  | Regex.dot => false
  | Regex.space => false
  | Regex.seq r s => r.nullable && s.nullable
  | Regex.alt r s => r.nullable || s.nullable
  | Regex.star _ => true

/-- The derivative: what remains to be matched after the character `c`. -/
def Regex.deriv (c : Char) : Regex → Regex
  | Regex.never => Regex.never
  | Regex.epsilon => Regex.never
  | Regex.char d => if c = d then Regex.epsilon else Regex.never
  | Regex.dot => if isLineTerminator c then Regex.never else Regex.epsilon
  | Regex.space => if isJsWhiteSpace c then Regex.epsilon else Regex.never
  | Regex.seq r s =>
    if r.nullable then Regex.alt (Regex.seq (r.deriv c) s) (s.deriv c)
    else Regex.seq (r.deriv c) s
  | Regex.alt r s => Regex.alt (r.deriv c) (s.deriv c)
  | Regex.star r => Regex.seq (r.deriv c) (Regex.star r)

/-- Some start of the text matches the expression. -/
def Regex.matchesStart : Regex → List Char → Bool
  | r, [] => r.nullable
  | r, c :: cs => r.nullable || (r.deriv c).matchesStart cs

/-- Some part of the text matches the expression. -/
def Regex.search (r : Regex) : List Char → Bool
  | [] => r.nullable
  | c :: cs => r.matchesStart (c :: cs) || r.search cs

/-- The expression of a literal word. -/
def Regex.literal : List Char → Regex
  | [] => Regex.epsilon
  | c :: cs => Regex.seq (Regex.char c) (Regex.literal cs)

/-- The expression `first.*second`. -/
def Regex.thenLater (first second : String) : Regex :=
  Regex.seq (Regex.literal first.data)
    (Regex.seq (Regex.star Regex.dot) (Regex.literal second.data))

/-- The expression of an alternative of several expressions. -/
def Regex.anyOf : List Regex → Regex
  | [] => Regex.never
  | [r] => r
  | r :: rest => Regex.alt r (Regex.anyOf rest)

/-- A regular expression literal with or without the anchor `^`, used with
`test`. -/
structure Pattern where
  anchored : Bool
  body : Regex
deriving DecidableEq, Repr

/-- JavaScript `pattern.test(text)`. -/
def Pattern.test (p : Pattern) (text : String) : Bool :=
  if p.anchored then p.body.matchesStart text.data else p.body.search text.data

/-- The expression
`/^(hi|hello|hey|greetings|good\s+(morning|afternoon|evening))/`. -/
def greetingPattern : Pattern :=
  { anchored := true
    body := Regex.anyOf
      [Regex.literal "hi".data, Regex.literal "hello".data, Regex.literal "hey".data,
       Regex.literal "greetings".data,
       Regex.seq (Regex.literal "good".data)
         (Regex.seq (Regex.seq Regex.space (Regex.star Regex.space))
           (Regex.anyOf [Regex.literal "morning".data, Regex.literal "afternoon".data,
             Regex.literal "evening".data]))] }

/-- The expression
`/(recommend|suggest|good book|what.*read|book.*for|looking for)/`. -/
def recommendationPattern : Pattern :=
  { anchored := false
    body := Regex.anyOf
      [Regex.literal "recommend".data, Regex.literal "suggest".data,
       Regex.literal "good book".data, Regex.thenLater "what" "read",
       Regex.thenLater "book" "for", Regex.literal "looking for".data] }

/-- The expression `/(how.*search|find.*book|where.*look|search.*for)/`. -/
def searchPattern : Pattern :=
  { anchored := false
    body := Regex.anyOf
      [Regex.thenLater "how" "search", Regex.thenLater "find" "book",
       Regex.thenLater "where" "look", Regex.thenLater "search" "for"] }

/-- The expression `/(download|get.*book|how.*download)/`. -/
def downloadPattern : Pattern :=
  { anchored := false
    body := Regex.anyOf
      [Regex.literal "download".data, Regex.thenLater "get" "book",
       Regex.thenLater "how" "download"] }

/-- The expression `/(genre|category|type.*book|what.*available|sections)/`. -/
def genrePattern : Pattern :=
  { anchored := false
    body := Regex.anyOf
      [Regex.literal "genre".data, Regex.literal "category".data,
       Regex.thenLater "type" "book", Regex.thenLater "what" "available",
       Regex.literal "sections".data] }

/-- The expression `/(help|what.*do|how.*work|guide|assist)/`. -/
def helpPattern : Pattern :=
  { anchored := false
    body := Regex.anyOf
      [Regex.literal "help".data, Regex.thenLater "what" "do",
       Regex.thenLater "how" "work", Regex.literal "guide".data,
       Regex.literal "assist".data] }

/-- The table `libraryResponses` (chatbot.js 8-35). -/
structure LibraryResponses where
  greeting : List String
  recommendation : List String
  search : List String
  download : List String
  genres : List String
  help : List String

/-- Library-specific knowledge base (chatbot.js 8-35). -/
def libraryResponses : LibraryResponses :=
  { greeting :=
      ["Hello! I'm LibBot, your Des2 Library assistant. How can I help you find books today?",
       "Hi there! Welcome to Des2 Library. What kind of books interest you?",
       "Hey! I'm here to help you discover great books. What are you looking for?"]
    recommendation :=
      ["I'd love to help! What genre interests you? We have Fiction, Mystery, Romance, Sci-Fi, Fantasy, Non-Fiction, Biography, and more!",
       "Great question! Tell me what you enjoy reading and I'll point you to our best titles in that genre.",
       "To recommend books, I need to know your preferences. What genres do you like?"]
    search :=
      ["You can search for books using the search bar on the main page. Enter a title, author name, or genre to find what you're looking for!",
       "Finding books is easy! Use the search filters for title, author, or genre on the books page."]
    download :=
      ["To download a book: 1) Click on the book to view details, 2) Click the green Download button. You must be logged in to download.",
       "Downloading is simple! Find a book you like, click on it, then click the Download button on the details page."]
    genres :=
      ["Our library includes: Fiction, Non-Fiction, Mystery, Romance, Science Fiction, Fantasy, Biography, History, Self-Help, and many more! Which genre would you like to explore?",
       "We have a wide variety! Popular genres include Mystery, Romance, Sci-Fi, Fantasy, Thriller, and Literary Fiction. What's your preference?"]
    help :=
      ["I can help you with: finding books, genre suggestions, search tips, download instructions, and general library navigation. What do you need?",
       "Ask me about book recommendations, how to search, available genres, or how to download books!"] }

/-- Rounding of a rational to the nearest integer, a tie going to the even
one. -/
def roundHalfEven (k : ℚ) : ℤ :=
  if k - (Int.floor k : ℚ) < 1 / 2 then Int.floor k
  else if 1 / 2 < k - (Int.floor k : ℚ) then Int.floor k + 1
  else if Int.floor k % 2 = 0 then Int.floor k
  else Int.floor k + 1

/-- The distance between neighbouring values of the Number type (IEEE 754
binary64) at a positive `q`: 2^(e - 52) where 2^e ≤ q < 2^(e + 1), and
2^(-1074) below 2^(-1022). -/
def ulp (q : ℚ) : ℚ :=
  (2 : ℚ) ^ (max (Int.log 2 q) (-1022) - 52)

/-- The value of the Number type that a JavaScript operation returns for the
exact result `q`: the nearest one, a tie going to the even significand (for
0 ≤ q below 2^1024; the products of the chatbot are below 4). -/
def toDouble (q : ℚ) : ℚ :=
  (roundHalfEven (q / ulp q) : ℚ) * ulp q

/-- The rational is a value of the Number type. -/
def IsDouble (q : ℚ) : Prop :=
  toDouble q = q

instance (q : ℚ) : Decidable (IsDouble q) := by
  unfold IsDouble
  exact inferInstance

/-- The index `Math.floor(Math.random() * length)` for the draw `r`: the
product is rounded to the Number type before the floor is taken. -/
def randomIndex (length : Nat) (r : ℚ) : Nat :=
  (Int.floor (toDouble (r * (length : ℚ)))).toNat

/-- The element `list[Math.floor(Math.random() * list.length)]`, `none` for
`undefined`. -/
def pick (list : List String) (r : ℚ) : Option String :=
  list[randomIndex list.length r]?

/-- Intelligent response matcher (chatbot.js 37-72).  The built-in
`toLowerCase` and the draw `r` of `Math.random()` are parameters; `none`
stands for `null` (and for `undefined`, should the index leave the list). -/
def getSmartResponse (toLowerCase : String → String) (message : String) (r : ℚ) :
    Option String :=
  let msg := jsTrim (toLowerCase message)
  if greetingPattern.test msg then pick libraryResponses.greeting r
  else if recommendationPattern.test msg then pick libraryResponses.recommendation r
  else if searchPattern.test msg then pick libraryResponses.search r
  else if downloadPattern.test msg then pick libraryResponses.download r
  else if genrePattern.test msg then pick libraryResponses.genres r
  else if helpPattern.test msg then pick libraryResponses.help r
  else Option.none

/-- The categories of `getSmartResponse` in the order of its tests. -/
def categories : List (Pattern × List String) :=
  [(greetingPattern, libraryResponses.greeting),
   (recommendationPattern, libraryResponses.recommendation),
   (searchPattern, libraryResponses.search),
   (downloadPattern, libraryResponses.download),
   (genrePattern, libraryResponses.genres),
   (helpPattern, libraryResponses.help)]

/-- Fallback responses (chatbot.js 75-80). -/
def fallbackResponses : List String :=
  ["I'm here to help with book recommendations and library navigation. What would you like to know?",
   "I can help you find books! Try asking about genres, search tips, or recommendations.",
   "As your library assistant, I can guide you to great books. What interests you?",
   "Let me help you explore our collection! What kind of books do you enjoy?"]

/-- The value of `req.body.message`. -/
inductive MessageField where
  | missing
  | notString
  | text (s : String)
deriving DecidableEq, Repr

/-- What one chat request meets outside the handler: the built-in
`toLowerCase`, whether `HUGGINGFACE_API_KEY` is set, the value `Math.random()`
returns (it is called at most once per request; `randomIsNumber` says that it
is a value of the Number type), and the `generated_text` of
the first element of the answer of the AI service (`none` when the request
fails, is not answered OK, or carries no such text). -/
structure ChatEnv where
  toLowerCase : String → String
  apiKeySet : Bool
  random : ℚ
  randomIsNumber : IsDouble random
  generated : Option String

/-- What the chat handler did: the status and the `reply` of its JSON answer
(`none` for `undefined`), whether `getSmartResponse` was called and whether
the AI service was called. -/
structure ChatResult where
  status : Nat
  reply : Option String
  matched : Bool
  aiCalled : Bool
deriving DecidableEq, Repr

/-- JavaScript truthiness of what `getSmartResponse` returns: a non-empty
string. -/
def isTruthy (value : Option String) : Bool :=
  match value with
  | Option.none => false
  | Option.some text => text ≠ ""

/-- The replacement `reply.replace(/^(Assistant:|User:)/i, "")`: a leading
`Assistant:` or `User:`, in any letter case, is removed. -/
def dropRole (cs : List Char) : List Char :=
  if (cs.take 10).map Char.toLower = "assistant:".data then cs.drop 10
  else if (cs.take 5).map Char.toLower = "user:".data then cs.drop 5
  else cs

/-- The first line `reply.split("\n")[0]`. -/
def firstLine (cs : List Char) : List Char :=
  cs.takeWhile (fun c => c.toNat ≠ 10)

/-- The clean-up of the generated text (chatbot.js 146-150). -/
def cleanReply (generated : String) : String :=
  String.mk (firstLine (trimChars (dropRole (trimChars generated.data))))

/-- The final fallback answer (chatbot.js 101-106 and 160-164). -/
def fallbackResult (env : ChatEnv) (aiCalled : Bool) : ChatResult :=
  { status := 200, reply := pick fallbackResponses env.random, matched := true,
    aiCalled := aiCalled }

/-- Chat endpoint `POST /chat` (chatbot.js 83-165). -/
def postChat (env : ChatEnv) (message : MessageField) : ChatResult :=
  match message with
  | MessageField.missing =>
    { status := 400, reply := some "Please send a valid message.", matched := false,
      aiCalled := false }
  | MessageField.notString =>
    { status := 400, reply := some "Please send a valid message.", matched := false,
      aiCalled := false }
  | MessageField.text userMessage =>
    if userMessage = "" ∨ jsLength (jsTrim userMessage) = 0 then
      { status := 400, reply := some "Please send a valid message.", matched := false,
        aiCalled := false }
    else if jsLength userMessage > 500 then
      { status := 200
        reply := some "Your message is too long. Please keep it under 500 characters."
        matched := false, aiCalled := false }
    else
      let smartResponse := getSmartResponse env.toLowerCase userMessage env.random
      if isTruthy smartResponse then
        { status := 200, reply := smartResponse, matched := true, aiCalled := false }
      else if !env.apiKeySet then fallbackResult env false
      else
        match env.generated with
        | Option.none => fallbackResult env true
        | Option.some generated =>
          if jsLength (cleanReply generated) > 10 then
            { status := 200, reply := some (cleanReply generated), matched := true,
              aiCalled := true }
          else fallbackResult env true

/-- Lower-casing of the letters A to Z, which is what `toLowerCase` does on
ASCII text. -/
def asciiLower (s : String) : String :=
  String.mk (s.data.map Char.toLower)

/-- A chat environment without API key, drawing 0. -/
def sampleEnv : ChatEnv :=
  { toLowerCase := asciiLower, apiKeySet := false, random := 0,
    randomIsNumber := by simp [IsDouble, toDouble, roundHalfEven],
    generated := Option.none }

/-- The Number 0.3333333333333333, the double nearest to one third. -/
def oneThird : ℚ := 6004799503160661 / 18014398509481984

/-- A message of exactly 500 characters: `hello` and 495 exclamation marks. -/
def message500 : String :=
  String.mk ("hello".data ++ List.replicate 495 (Char.ofNat 33))

/-! ## The newsletter subscription of server.js 222-243 -/

/-- The value of `req.body.email`: falsy (absent, null, 0, false; the empty
string is `text ""`), a string, or another truthy value, given by the text
that `email + "\n"` writes for it. -/
inductive EmailField where
  | missing
  | text (s : String)
  | other (rendered : String)
deriving DecidableEq, Repr

/-- JavaScript `content.split("\n")`, on characters. -/
def splitLines : List Char → List (List Char)
  | [] => [[]]
  | c :: cs =>
    if c.toNat = 10 then [] :: splitLines cs
    else
      match splitLines cs with
      | [] => [[c]]
      | line :: rest => (c :: line) :: rest

/-- The subscribers read from the file (server.js 232-235): no one when the
file does not exist (`none`), else the non-empty lines of its content. -/
def subscribersOf (file : Option String) : List String :=
  match file with
  | Option.none => []
  | Option.some content =>
    ((splitLines content.data).filter (fun line => line ≠ [])).map String.mk

/-- The file after `fs.appendFileSync(path, text)`, which creates it when it
does not exist. -/
def appendFile (file : Option String) (text : String) : Option String :=
  match file with
  | Option.none => some text
  | Option.some content => some (content ++ text)

/-- The subscribers file after a request, with the response sent. -/
structure SubscribeResult where
  file : Option String
  response : Response
deriving DecidableEq, Repr

/-- Handler of `POST /subscribe` (server.js 226-243); the calls to the file
system are taken to succeed. -/
def subscribeHandler (email : EmailField) (file : Option String) : SubscribeResult :=
  match email with
  | EmailField.missing =>
    { file := file, response := { status := 400, body := Body.text "Email is required" } }
  | EmailField.text address =>
    if address = "" then
      { file := file, response := { status := 400, body := Body.text "Email is required" } }
    else if address ∈ subscribersOf file then
      { file := file
        response := { status := 400, body := Body.text "Email is already subscribed" } }
    else
      { file := appendFile file (address ++ "\n")
        response := { status := 200, body := Body.text "Subscribed successfully" } }
  | EmailField.other rendered =>
    { file := appendFile file (rendered ++ "\n")
      response := { status := 200, body := Body.text "Subscribed successfully" } }

/-- The route `POST /subscribe`, guarded by `isAuthenticated`. -/
def postSubscribe (req : Request) (email : EmailField) (file : Option String) :
    SubscribeResult :=
  match isAuthenticated req with
  | Middleware.respond res => { file := file, response := res }
  | Middleware.next => subscribeHandler email file

/-- The subscribers file after a sequence of requests of logged-in users. -/
def subscribeAll (emails : List EmailField) (file : Option String) : Option String :=
  emails.foldl (fun f email => (subscribeHandler email f).file) file

/-! ## The book list of server.js 245-282 -/

/-- Some end of the text satisfies the test: the wildcard `%` of LIKE. -/
def anySuffix (test : List Char → Bool) : List Char → Bool
  | [] => test []
  | c :: cs => test (c :: cs) || anySuffix test cs

/-- SQLite `text LIKE pattern` on characters: `%` stands for any sequence of
characters, `_` for any one character, and any other character for itself,
the letters A to Z regardless of case. -/
def likeMatch : List Char → List Char → Bool
  | [], text => text.isEmpty
  | p :: ps, text =>
    if p.toNat = 37 then anySuffix (likeMatch ps) text
    else
      match text with
      | [] => false
      | c :: cs =>
        if p.toNat = 95 then likeMatch ps cs
        else p.toLower = c.toLower && likeMatch ps cs

/-- SQLite `column LIKE pattern` for a nullable text column: NULL never
matches. -/
def sqlLike (column : Option String) (pattern : String) : Bool :=
  match column with
  | Option.none => false
  | Option.some value => likeMatch pattern.data value.data

/-- What the handler reads of `req.query`: the three filters (`none` when
absent) and what `parseInt` makes of `page` and `limit` (`none` for NaN). -/
structure BooksQuery where
  title : Option String
  author : Option String
  genre : Option String
  page : Option Int
  limit : Option Int
deriving DecidableEq, Repr

/-- JavaScript `value || ""` for a query text. -/
def orEmpty (value : Option String) : String :=
  match value with
  | Option.none => ""
  | Option.some text => text

/-- JavaScript `parseInt(text) || fallback`: NaN and 0 give the fallback. -/
def orDefault (value : Option Int) (fallback : Int) : Int :=
  match value with
  | Option.none => fallback
  | Option.some n => if n = 0 then fallback else n

/-- The condition `title LIKE ? AND author LIKE ?` with the parameters
`%title%` and `%author%`. -/
def matchesTitleAuthor (title author : String) (bk : Book) : Bool :=
  sqlLike bk.title ("%" ++ title ++ "%") && sqlLike bk.author ("%" ++ author ++ "%")

/-- The condition of the query for the page: title and author and, when a
genre is given, `genres LIKE ?` with the parameter `%genre%`. -/
def matchesPage (title author genre : String) (bk : Book) : Bool :=
  matchesTitleAuthor title author bk &&
    (genre = "" || sqlLike bk.genres ("%" ++ genre ++ "%"))

/-- SQLite `LIMIT limit OFFSET offset`: a negative offset counts as 0 and a
negative limit is no limit. -/
def limitOffset (rows : List Book) (limit offset : Int) : List Book :=
  if limit < 0 then rows.drop offset.toNat
  else (rows.drop offset.toNat).take limit.toNat

/-- The answers of `GET /books`: a text, or the JSON object with the page
(every book with the flag `isAdmin`) and the total. -/
inductive BooksReply where
  | text (status : Nat) (message : String)
  | json (books : List (Book × Bool)) (total : Nat)
  | errorPage
deriving DecidableEq, Repr

/-- Endpoint to fetch books (server.js 246-282); `errRows` and `errCount` are
what the callbacks of the two queries receive. -/
def getBooks (req : Request) (query : BooksQuery) (errRows errCount : Bool) (db : Database) :
    BooksReply :=
  let title := orEmpty query.title
  let author := orEmpty query.author
  let genre := orEmpty query.genre
  let page := orDefault query.page 1
  let limit := orDefault query.limit 10
  let offset := (page - 1) * limit
  match (if req.isAuthenticated then req.user.map (fun user => decide (user.role = "admin"))
      else some false) with
  | Option.none => BooksReply.errorPage
  | Option.some adminFlag =>
    let rows := limitOffset (db.books.filter (matchesPage title author genre)) limit offset
    if errRows then BooksReply.text 500 "Failed to fetch books"
    else
      let total := (db.books.filter (matchesTitleAuthor title author)).length
      if errCount then BooksReply.text 500 "Failed to fetch book count"
      else BooksReply.json (rows.map (fun book => (book, adminFlag))) total

/-- Number of books per page in `fetchBooks` (script.js 337). -/
def clientLimit : Nat := 10

/-- The query string that `fetchBooks` sends (script.js 338): the three
inputs, the page and the limit 10. -/
def clientQuery (title author genre : String) (page : Int) : BooksQuery :=
  { title := some title, author := some author, genre := some genre,
    page := some page, limit := some (clientLimit : Int) }

/-- The client computes `Math.ceil(totalBooks / limit)` (script.js 346), for a
positive limit. -/
def totalPages (totalBooks limit : Nat) : Nat :=
  (totalBooks + limit - 1) / limit

/-- The text has no line feed. -/
def LineFree (text : String) : Prop :=
  ∀ c ∈ text.data, c.toNat ≠ 10

instance (text : String) : Decidable (LineFree text) := by
  unfold LineFree
  exact inferInstance

/-- The file is absent, empty, or ends with a line feed: what the appends of
the handler leave, starting from an absent or empty file. -/
def Terminated (file : Option String) : Prop :=
  match file with
  | Option.none => True
  | Option.some content => content = "" ∨ content.data.getLast? = some (Char.ofNat 10)

instance (file : Option String) : Decidable (Terminated file) := by
  unfold Terminated
  split <;> exact inferInstance

/-- An address with a line feed in it. -/
def twoLineEmail : EmailField :=
  EmailField.text "ann@example.com\nbob@example.com"

/-! ## The order in which the library runs the statements of a request

`db.serialize` (server.js 496, 535) covers only the call of `db.get`.  The
callback of `db.get` runs after `db.serialize` has returned, so BEGIN, the
UPDATEs, INSERT OR REPLACE and COMMIT are issued outside of it, and the
sqlite3 library runs them in an order of its own.  The handlers above are the
runs in program order; here the order is an input. -/

/-- The one connection of the server (server.js 33): the rows it sees, the
committed rows (what any other connection sees and what is left when the
process ends), and whether a transaction is open on it. -/
structure Connection where
  view : Database
  disk : Database
  inTransaction : Bool

/-- The connection a process opens on a database. -/
def Connection.opened (db : Database) : Connection :=
  { view := db, disk := db, inTransaction := false }

/-- A vote request in progress: the connection, the response sent so far,
whether the callback of COMMIT has issued the final SELECT, and whether the
process still runs. -/
structure Progress where
  conn : Connection
  response : Option Response
  selectIssued : Bool
  alive : Bool

/-- The text of the 500 answer to a failed SELECT on `likes` or COMMIT
(server.js 499, 516, 538, 555). -/
def Intent.failureText : Intent → String
  | Intent.like => "Failed to like book"
  | Intent.dislike => "Failed to dislike book"

/-- The text of the 400 answer to a repeated vote (server.js 503, 542). -/
def Intent.duplicateText : Intent → String
  | Intent.like => "You have already liked this book"
  | Intent.dislike => "You have already disliked this book"

/-- One statement of a vote request runs on the connection.
* BEGIN opens a transaction; inside an open transaction it fails, and as
  `db.run("BEGIN TRANSACTION")` has no callback and the server no listener for
  the error event of the database, the error ends the process: the open
  transaction is lost and the next process finds the committed rows.
* An UPDATE or INSERT OR REPLACE changes the rows the connection sees, and the
  committed rows as well when no transaction is open.
* COMMIT commits the open transaction, and its callback issues the final
  SELECT; without an open transaction it fails and its callback answers 500.
* The final SELECT, once issued, reads the rows the connection sees and
  answers 200 with them. -/
def runStmt (intent : Intent) (p : Progress) (stmt : Stmt) : Progress :=
  if p.alive then
    match stmt with
    | Stmt.selectVote _ _ => p
    | Stmt.beginTransaction =>
      if p.conn.inTransaction then
        { conn := Connection.opened p.conn.disk, response := p.response,
          selectIssued := p.selectIssued, alive := false }
      else
        { conn := { view := p.conn.view, disk := p.conn.disk, inTransaction := true }
          response := p.response, selectIssued := p.selectIssued, alive := true }
    | Stmt.commit =>
      if p.conn.inTransaction then
        { conn := Connection.opened p.conn.view, response := p.response,
          selectIssued := true, alive := true }
      else
        { conn := p.conn
          response := some { status := 500, body := Body.text intent.failureText }
          selectIssued := p.selectIssued, alive := true }
    | Stmt.selectBook bookId =>
      if p.selectIssued then
        { conn := p.conn
          response := some { status := 200, body := Body.json (selectTotals p.conn.view bookId) }
          selectIssued := p.selectIssued, alive := true }
      else p
    | write =>
      { conn :=
          { view := write.exec p.conn.view
            disk := if p.conn.inTransaction then p.conn.disk else write.exec p.conn.disk
            inTransaction := p.conn.inTransaction }
        response := p.response, selectIssued := p.selectIssued, alive := true }
  else p

/-- The statements a vote request issues after its SELECT on `likes`, in
program order: those of the callback of `db.get` and the final SELECT of the
callback of COMMIT. -/
def issuedStatements (userId bookId : Int) (intent : Intent) (db : Database) : List Stmt :=
  (voteStatements userId bookId intent StorageErrors.none db).tail

/-- A vote request whose statements the library runs in the order `order`, a
permutation of `issuedStatements` in which the final SELECT comes after
COMMIT; the entry of the final SELECT is skipped when the callback of COMMIT
has not issued it.  The SELECT on `likes` is issued inside `db.serialize` and
runs first; a repeated vote is answered 400 and issues nothing. -/
def scheduledVote (userId bookId : Int) (intent : Intent) (order : List Stmt)
    (conn : Connection) : Progress :=
  if selectAction conn.view userId bookId = some intent.action then
    { conn := conn
      response := some { status := 400, body := Body.text intent.duplicateText }
      selectIssued := false, alive := true }
  else
    order.foldl (runStmt intent)
      { conn := conn, response := Option.none, selectIssued := false, alive := true }

/-- The vote request whose statements run in program order. -/
def orderedVote (userId bookId : Int) (intent : Intent) (conn : Connection) : Progress :=
  scheduledVote userId bookId intent (issuedStatements userId bookId intent conn.view) conn

/-! ## Sample states -/

/-- A book row with the given id and counters. -/
def sampleBook (id likes dislikes : Int) : Book :=
  { id := id, title := some "Dune", author := some "Frank Herbert",
    description := some "A desert planet", genres := some "Science Fiction",
    cover := Option.none, file := Option.none, summary := Option.none,
    likes := likes, dislikes := dislikes }

/-- One book with id 1, no vote cast yet. -/
def freshDb : Database :=
  { books := [sampleBook 1 0 0], likes := [], likesUnique := by decide }

/-- Two books; on book 1 user 1 likes and user 2 dislikes. -/
def votedDb : Database :=
  { books := [sampleBook 1 1 1, sampleBook 2 0 0]
    likes := [{ userId := 1, bookId := 1, action := "like" },
              { userId := 2, bookId := 1, action := "dislike" }]
    likesUnique := by decide }

/-- No book at all and an empty ledger. -/
def emptyDb : Database :=
  { books := [], likes := [], likesUnique := by decide }

/-- A logged-in user whose id is 1, asking for book 1. -/
def sampleRequest : Request :=
  { isAuthenticated := true
    user := some { id := 1, username := "reader", role := "user" }
    paramsId := 1 }

/-- A visitor who is not logged in, asking for book 1. -/
def anonymousRequest : Request :=
  { isAuthenticated := false, user := Option.none, paramsId := 1 }

/-- A logged-in admin (not the seeded one), asking for book 1. -/
def adminRequest : Request :=
  { isAuthenticated := true
    user := some { id := 2, username := "librarian", role := "admin" }
    paramsId := 1 }

/-- The seeded admin, asking for book 1. -/
def seedAdminRequest : Request :=
  { isAuthenticated := true
    user := some { id := 1, username := "admin", role := "admin" }
    paramsId := 1 }

/-- A complete add-book form. -/
def sampleForm : AddBookForm :=
  { title := some "Emma", author := some "Jane Austen", description := some "A novel",
    genres := some ["Classic", "Romance"], bookCover := some "emma.png",
    bookFile := some "emma.pdf" }

/-- A body for the edit-book route. -/
def sampleEdit : EditBookBody :=
  { title := some "Dune (revised)", author := some "Frank Herbert",
    genres := some "Science Fiction", summary := some "Arrakis",
    description := Option.none }

/-- A COMMIT that reports an error and leaves the transaction open. -/
def commitFailsOpen : StorageErrors :=
  { selectVote := false, commit := CommitOutcome.failedOpen, selectBook := false }

/-- A COMMIT that reports an error after the engine rolled the transaction
back. -/
def commitFailsRolledBack : StorageErrors :=
  { selectVote := false, commit := CommitOutcome.failedRolledBack, selectBook := false }

/-- A request that passport has authenticated carries its user: passport
computes `req.isAuthenticated()` from the presence of `req.user`. -/
def CarriesUser (req : Request) : Prop :=
  req.isAuthenticated = true → req.user ≠ Option.none

instance (req : Request) : Decidable (CarriesUser req) := by
  unfold CarriesUser
  exact inferInstance

/-- The request is authenticated and its user has the role admin. -/
def IsAdminRequest (req : Request) : Prop :=
  req.isAuthenticated = true ∧ ∃ user, req.user = some user ∧ user.role = "admin"

/-! ## Lemmas on the SQL statements -/

@[simp] theorem updateLikes_likes (db : Database) (delta bookId : Int) :
    (updateLikes db delta bookId).likes = db.likes := rfl

@[simp] theorem updateDislikes_likes (db : Database) (delta bookId : Int) :
    (updateDislikes db delta bookId).likes = db.likes := rfl

@[simp] theorem insertOrReplace_books (db : Database) (userId bookId : Int) (action : String) :
    (insertOrReplace db userId bookId action).books = db.books := rfl

@[simp] theorem insertOrReplace_likes (db : Database) (userId bookId : Int) (action : String) :
    (insertOrReplace db userId bookId action).likes =
      insertOrReplaceRows db.likes userId bookId action := rfl

@[simp] theorem selectAction_updateLikes (db : Database) (delta bookId u b : Int) :
    selectAction (updateLikes db delta bookId) u b = selectAction db u b := rfl

@[simp] theorem selectAction_updateDislikes (db : Database) (delta bookId u b : Int) :
    selectAction (updateDislikes db delta bookId) u b = selectAction db u b := rfl

@[simp] theorem countVotes_updateLikes (db : Database) (delta bookId b : Int) (a : String) :
    countVotes (updateLikes db delta bookId) b a = countVotes db b a := rfl

@[simp] theorem countVotes_updateDislikes (db : Database) (delta bookId b : Int) (a : String) :
    countVotes (updateDislikes db delta bookId) b a = countVotes db b a := rfl

/-- Without a row of the pair, the deletion of INSERT OR REPLACE removes
nothing. -/
theorem filter_key_of_find_none (rows : List Vote) (u b : Int)
    (h : rows.find? (fun v => decide (v.userId = u ∧ v.bookId = b)) = none) :
    rows.filter (fun v => decide (v.key ≠ (u, b))) = rows := by
  rw [List.filter_eq_self]
  intro v hv
  have h0 := List.find?_eq_none.1 h v hv
  simp only [decide_eq_true_eq, ne_eq]
  intro e
  have e2 : v.userId = u ∧ v.bookId = b := by simpa [Vote.key] using e
  exact h0 (decide_eq_true e2)

/-- Under the uniqueness constraint the deletion of INSERT OR REPLACE removes
exactly the row the SELECT finds. -/
theorem countP_filter_key_of_find_some (p : Vote → Bool) (rows : List Vote)
    (hnd : (rows.map Vote.key).Nodup) (u b : Int) (v : Vote)
    (h : rows.find? (fun v => decide (v.userId = u ∧ v.bookId = b)) = some v) :
    rows.countP p =
      (rows.filter (fun v => decide (v.key ≠ (u, b)))).countP p + (if p v then 1 else 0) := by
  induction rows with
  | nil => simp at h
  | cons w rest ih =>
    rw [List.map_cons, List.nodup_cons] at hnd
    by_cases hw : w.userId = u ∧ w.bookId = b
    · have hv : w = v := by simpa [List.find?_cons, hw] using h
      subst hv
      have hkey : w.key = (u, b) := by simp [Vote.key, hw]
      have hrest : rest.filter (fun v => decide (v.key ≠ (u, b))) = rest := by
        rw [List.filter_eq_self]
        intro x hx
        have hne : x.key ≠ w.key := fun e => hnd.1 (e ▸ List.mem_map_of_mem _ hx)
        simpa [hkey] using hne
      have hdrop : (w :: rest).filter (fun v => decide (v.key ≠ (u, b))) = rest := by
        rw [List.filter_cons, if_neg (by simp [hkey]), hrest]
      rw [hdrop, List.countP_cons]
    · have hfind : rest.find? (fun v => decide (v.userId = u ∧ v.bookId = b)) = some v := by
        simpa [List.find?_cons, hw] using h
      have hkey : w.key ≠ (u, b) := by
        simpa [Vote.key] using hw
      have hkeep : (w :: rest).filter (fun v => decide (v.key ≠ (u, b))) =
          w :: rest.filter (fun v => decide (v.key ≠ (u, b))) := by
        rw [List.filter_cons, if_pos (by simpa using hkey)]
      rw [hkeep, List.countP_cons, List.countP_cons, ih hnd.2 hfind]
      omega

/-- The row counts after INSERT OR REPLACE: the row the SELECT found leaves
its count, the new row joins its own. -/
theorem countVotes_insertOrReplace (db : Database) (u b : Int) (a : String) (b2 : Int)
    (a2 : String) :
    (countVotes (insertOrReplace db u b a) b2 a2 : Int) =
      (countVotes db b2 a2 : Int)
        - (if b = b2 ∧ selectAction db u b = some a2 then 1 else 0)
        + (if b = b2 ∧ a = a2 then 1 else 0) := by
  have hsingle : List.countP (fun v : Vote => decide (v.bookId = b2 ∧ v.action = a2))
      [({ userId := u, bookId := b, action := a } : Vote)] =
        if b = b2 ∧ a = a2 then 1 else 0 := by
    rw [List.countP_cons, List.countP_nil]
    simp only [decide_eq_true_eq, Nat.zero_add]
  unfold countVotes selectAction
  rw [insertOrReplace_likes, insertOrReplaceRows, List.countP_append, hsingle]
  cases hf : db.likes.find? (fun v => decide (v.userId = u ∧ v.bookId = b)) with
  | none =>
    rw [filter_key_of_find_none _ _ _ hf]
    simp only [Option.map_none', and_false, reduceCtorEq, if_false]
    push_cast
    split_ifs <;> simp
  | some v =>
    rw [countP_filter_key_of_find_some _ _ db.likesUnique u b v hf]
    have hv := List.find?_some hf
    simp only [decide_eq_true_eq] at hv
    have hcond : (decide (v.bookId = b2 ∧ v.action = a2) = true) ↔
        (b = b2 ∧ some v.action = some a2) := by
      simp [hv.2]
    simp only [Option.map_some', hcond]
    push_cast
    split_ifs <;> simp

/-! ## Lemmas on the handlers -/

/-- The like handler either leaves the database as it was or has run its three
writes on a request that is not a repeated like. -/
theorem likeHandler_db (u b : Int) (io : StorageErrors) (db : Database) :
    (likeHandler u b io db).db = db ∨
    (selectAction db u b ≠ some "like" ∧
      (likeHandler u b io db).db = likeWrites db u b) := by
  unfold likeHandler likeWrites
  by_cases h1 : io.selectVote = true
  · simp [h1]
  · by_cases h2 : selectAction db u b = some "like"
    · simp [h1, h2]
    · cases hc : io.commit <;> by_cases h3 : io.selectBook = true <;> simp [h1, h2, hc, h3]

/-- The dislike handler either leaves the database as it was or has run its
three writes on a request that is not a repeated dislike. -/
theorem dislikeHandler_db (u b : Int) (io : StorageErrors) (db : Database) :
    (dislikeHandler u b io db).db = db ∨
    (selectAction db u b ≠ some "dislike" ∧
      (dislikeHandler u b io db).db = dislikeWrites db u b) := by
  unfold dislikeHandler dislikeWrites
  by_cases h1 : io.selectVote = true
  · simp [h1]
  · by_cases h2 : selectAction db u b = some "dislike"
    · simp [h1, h2]
    · cases hc : io.commit <;> by_cases h3 : io.selectBook = true <;> simp [h1, h2, hc, h3]

/-- The three writes of an accepted like keep counters and ledger in step. -/
theorem consistent_like_writes (db : Database) (u b : Int) (h : Consistent db)
    (hrow : selectAction db u b ≠ some "like") :
    Consistent (likeWrites db u b) := by
  unfold likeWrites
  intro bk2 hbk2
  by_cases hd : selectAction db u b = some "dislike"
  · rw [if_pos hd] at hbk2 ⊢
    simp only [countVotes_insertOrReplace, countVotes_updateLikes, countVotes_updateDislikes,
      selectAction_updateLikes, selectAction_updateDislikes, hd]
    simp only [insertOrReplace_books, updateLikes, updateDislikes, List.mem_map] at hbk2
    obtain ⟨bk1, ⟨bk, hbk, rfl⟩, rfl⟩ := hbk2
    obtain ⟨hl, hdl⟩ := h bk hbk
    by_cases hid : bk.id = b
    · simp [hid, hl, hdl]
      omega
    · have hid2 : ¬ b = bk.id := fun e => hid e.symm
      simp [hid, hid2, hl, hdl]
  · rw [if_neg hd] at hbk2 ⊢
    simp only [countVotes_insertOrReplace, countVotes_updateLikes, countVotes_updateDislikes,
      selectAction_updateLikes, selectAction_updateDislikes, hd]
    simp only [insertOrReplace_books, updateLikes, List.mem_map] at hbk2
    obtain ⟨bk, hbk, rfl⟩ := hbk2
    obtain ⟨hl, hdl⟩ := h bk hbk
    by_cases hid : bk.id = b
    · simp [hid, hl, hdl, hrow]
    · have hid2 : ¬ b = bk.id := fun e => hid e.symm
      simp [hid, hid2, hl, hdl]

/-- The three writes of an accepted dislike keep counters and ledger in
step. -/
theorem consistent_dislike_writes (db : Database) (u b : Int) (h : Consistent db)
    (hrow : selectAction db u b ≠ some "dislike") :
    Consistent (dislikeWrites db u b) := by
  unfold dislikeWrites
  intro bk2 hbk2
  by_cases hd : selectAction db u b = some "like"
  · rw [if_pos hd] at hbk2 ⊢
    simp only [countVotes_insertOrReplace, countVotes_updateLikes, countVotes_updateDislikes,
      selectAction_updateLikes, selectAction_updateDislikes, hd]
    simp only [insertOrReplace_books, updateLikes, updateDislikes, List.mem_map] at hbk2
    obtain ⟨bk1, ⟨bk, hbk, rfl⟩, rfl⟩ := hbk2
    obtain ⟨hl, hdl⟩ := h bk hbk
    by_cases hid : bk.id = b
    · simp [hid, hl, hdl]
      omega
    · have hid2 : ¬ b = bk.id := fun e => hid e.symm
      simp [hid, hid2, hl, hdl]
  · rw [if_neg hd] at hbk2 ⊢
    simp only [countVotes_insertOrReplace, countVotes_updateLikes, countVotes_updateDislikes,
      selectAction_updateLikes, selectAction_updateDislikes, hd]
    simp only [insertOrReplace_books, updateDislikes, List.mem_map] at hbk2
    obtain ⟨bk, hbk, rfl⟩ := hbk2
    obtain ⟨hl, hdl⟩ := h bk hbk
    by_cases hid : bk.id = b
    · simp [hid, hl, hdl, hrow]
    · have hid2 : ¬ b = bk.id := fun e => hid e.symm
      simp [hid, hid2, hl, hdl]

/-! ## The claims -/

/-- Counter/ledger consistency is preserved by every vote whose statements run
in program order: from a state in which the likes and dislikes of every book
equal the numbers of its like and dislike ledger rows, the state after the
like or the dislike handler has run is again such a state, for every user,
book and intent, whether the request is accepted or rejected and whatever the
three callbacks receive. -/
theorem castVote_preserves_consistent (db : Database) (userId bookId : Int) (intent : Intent)
    (io : StorageErrors) (h : Consistent db) :
    Consistent (castVote userId bookId intent io db).db := by
  cases intent with
  | like =>
    rcases likeHandler_db userId bookId io db with e | ⟨hrow, e⟩
    · simpa [castVote, e] using h
    · simpa [castVote, e] using consistent_like_writes db userId bookId h hrow
  | dislike =>
    rcases dislikeHandler_db userId bookId io db with e | ⟨hrow, e⟩
    · simpa [castVote, e] using h
    · simpa [castVote, e] using consistent_dislike_writes db userId bookId h hrow

/-- Consistency in program order, at a concrete input: user 2, who dislikes
book 1, switches to like. -/
theorem castVote_preserves_consistent_witness :
    Consistent votedDb ∧
      Consistent (castVote 2 1 Intent.like StorageErrors.none votedDb).db :=
  ⟨by decide,
    castVote_preserves_consistent votedDb 2 1 Intent.like StorageErrors.none (by decide)⟩

/-- The SELECT on the ledger returns an action exactly when the ledger holds a
row of the pair with that action. -/
theorem selectAction_eq_some_iff (db : Database) (u b : Int) (a : String) :
    selectAction db u b = some a ↔
      ∃ v ∈ db.likes, v.userId = u ∧ v.bookId = b ∧ v.action = a := by
  unfold selectAction
  constructor
  · intro h
    rw [Option.map_eq_some'] at h
    obtain ⟨v, hv, ha⟩ := h
    have hp := List.find?_some hv
    simp only [decide_eq_true_eq] at hp
    exact ⟨v, List.mem_of_find?_eq_some hv, hp.1, hp.2, ha⟩
  · rintro ⟨v, hv, hu, hb, ha⟩
    cases hf : db.likes.find? (fun v => decide (v.userId = u ∧ v.bookId = b)) with
    | none =>
      have := List.find?_eq_none.1 hf v hv
      simp [hu, hb] at this
    | some w =>
      have hp := List.find?_some hf
      simp only [decide_eq_true_eq] at hp
      have hw := List.mem_of_find?_eq_some hf
      have hkey : w.key = v.key := by simp [Vote.key, hp.1, hp.2, hu, hb]
      have : w = v := List.inj_on_of_nodup_map db.likesUnique hw hv hkey
      simp [this, ha]

/-- The SELECT on the ledger returns nothing exactly when the ledger holds no
row of the pair. -/
theorem selectAction_eq_none_iff (db : Database) (u b : Int) :
    selectAction db u b = none ↔ ¬ HasVote db u b := by
  unfold selectAction HasVote
  rw [Option.map_eq_none', List.find?_eq_none]
  simp

/-- The status of the like handler when the storage engine reports no
error. -/
theorem likeHandler_status (u b : Int) (io : StorageErrors) (db : Database)
    (h : NoStorageError io) :
    (likeHandler u b io db).response.status =
      if selectAction db u b = some "like" then 400 else 200 := by
  obtain ⟨h1, h2, h3⟩ := h
  unfold likeHandler
  by_cases hr : selectAction db u b = some "like" <;> simp [h1, h2, h3, hr]

/-- The status of the dislike handler when the storage engine reports no
error. -/
theorem dislikeHandler_status (u b : Int) (io : StorageErrors) (db : Database)
    (h : NoStorageError io) :
    (dislikeHandler u b io db).response.status =
      if selectAction db u b = some "dislike" then 400 else 200 := by
  obtain ⟨h1, h2, h3⟩ := h
  unfold dislikeHandler
  by_cases hr : selectAction db u b = some "dislike" <;> simp [h1, h2, h3, hr]

/-- The status of a vote when the storage engine reports no error. -/
theorem castVote_status (u b : Int) (intent : Intent) (io : StorageErrors) (db : Database)
    (h : NoStorageError io) :
    (castVote u b intent io db).response.status =
      if selectAction db u b = some intent.action then 400 else 200 := by
  cases intent
  · exact likeHandler_status u b io db h
  · exact dislikeHandler_status u b io db h

/-- C2. Absent a storage error, a vote request is answered 400 if and only if
the ledger already holds a row of the same user and book whose action is the
requested one; a first-time vote (no row of the pair) and a switch (a row of
the pair with the opposite action) are answered 200. -/
theorem castVote_rejected_iff_duplicate (db : Database) (userId bookId : Int)
    (intent : Intent) (io : StorageErrors) (h : NoStorageError io) :
    ((castVote userId bookId intent io db).response.status = 400 ↔
      ∃ v ∈ db.likes, v.userId = userId ∧ v.bookId = bookId ∧ v.action = intent.action) ∧
    (¬ HasVote db userId bookId →
      (castVote userId bookId intent io db).response.status = 200) ∧
    ((∃ v ∈ db.likes, v.userId = userId ∧ v.bookId = bookId ∧
        v.action = intent.opposite.action) →
      (castVote userId bookId intent io db).response.status = 200) := by
  rw [castVote_status userId bookId intent io db h, ← selectAction_eq_some_iff,
    ← selectAction_eq_some_iff, ← selectAction_eq_none_iff]
  refine ⟨?_, ?_, ?_⟩
  · by_cases hr : selectAction db userId bookId = some intent.action <;> simp [hr]
  · intro hn
    simp [hn]
  · intro ho
    cases intent <;> simp [ho, Intent.opposite, Intent.action]

/-- C2, at concrete inputs: in `votedDb` user 1 likes book 1; a second like is
the duplicate. -/
theorem castVote_rejected_iff_duplicate_witness :
    NoStorageError StorageErrors.none ∧
    (((castVote 1 1 Intent.like StorageErrors.none votedDb).response.status = 400 ↔
      ∃ v ∈ votedDb.likes, v.userId = 1 ∧ v.bookId = 1 ∧ v.action = Intent.like.action) ∧
    (¬ HasVote votedDb 1 1 →
      (castVote 1 1 Intent.like StorageErrors.none votedDb).response.status = 200) ∧
    ((∃ v ∈ votedDb.likes, v.userId = 1 ∧ v.bookId = 1 ∧
        v.action = Intent.like.opposite.action) →
      (castVote 1 1 Intent.like StorageErrors.none votedDb).response.status = 200)) :=
  ⟨by decide,
    castVote_rejected_iff_duplicate votedDb 1 1 Intent.like StorageErrors.none (by decide)⟩

/-- After INSERT OR REPLACE the SELECT of the same pair returns the action just
written. -/
theorem selectAction_insertOrReplace_same (db : Database) (u b : Int) (a : String) :
    selectAction (insertOrReplace db u b a) u b = some a := by
  unfold selectAction
  rw [insertOrReplace_likes, insertOrReplaceRows, List.find?_append]
  have hnone : (db.likes.filter (fun v => decide (v.key ≠ (u, b)))).find?
      (fun v => decide (v.userId = u ∧ v.bookId = b)) = none := by
    rw [List.find?_eq_none]
    intro v hv
    have hk := (List.mem_filter.1 hv).2
    simp only [decide_eq_true_eq, ne_eq, Vote.key, Prod.mk.injEq] at hk
    simpa using hk
  rw [hnone]
  simp

/-- After the writes of the like handler the ledger entry of the voter is
`like`. -/
theorem selectAction_likeWrites_same (db : Database) (u b : Int) :
    selectAction (likeWrites db u b) u b = some "like" :=
  selectAction_insertOrReplace_same _ u b "like"

/-- After the writes of the dislike handler the ledger entry of the voter is
`dislike`. -/
theorem selectAction_dislikeWrites_same (db : Database) (u b : Int) :
    selectAction (dislikeWrites db u b) u b = some "dislike" :=
  selectAction_insertOrReplace_same _ u b "dislike"

/-- A vote that meets no storage error changes the database exactly when it
is not a duplicate, and then by the writes of its handler. -/
theorem castVote_db (u b : Int) (intent : Intent) (io : StorageErrors) (db : Database)
    (h : NoStorageError io) :
    (castVote u b intent io db).db =
      if selectAction db u b = some intent.action then db
      else match intent with
        | Intent.like => likeWrites db u b
        | Intent.dislike => dislikeWrites db u b := by
  obtain ⟨h1, h2, h3⟩ := h
  cases intent
  · unfold castVote likeHandler likeWrites
    by_cases hr : selectAction db u b = some "like" <;>
      simp [h1, h2, h3, hr, Intent.action]
  · unfold castVote dislikeHandler dislikeWrites
    by_cases hr : selectAction db u b = some "dislike" <;>
      simp [h1, h2, h3, hr, Intent.action]

/-- After a vote that met no storage error the ledger entry of the voter is the
requested action, whether the vote was accepted or was a duplicate. -/
theorem selectAction_castVote_same (u b : Int) (intent : Intent) (io : StorageErrors)
    (db : Database) (h : NoStorageError io) :
    selectAction (castVote u b intent io db).db u b = some intent.action := by
  rw [castVote_db u b intent io db h]
  by_cases hr : selectAction db u b = some intent.action
  · rw [if_pos hr]
    exact hr
  · rw [if_neg hr]
    cases intent
    · exact selectAction_likeWrites_same db u b
    · exact selectAction_dislikeWrites_same db u b

/-- C3. Repeating a vote changes nothing: when the same user casts the same
vote on the same book twice in a row (no storage error), the second call is
answered 400 and it leaves the whole database, hence the ledger and the likes
and dislikes of every book, as the first call left it. -/
theorem castVote_twice_rejected (db : Database) (userId bookId : Int) (intent : Intent)
    (io1 io2 : StorageErrors) (h1 : NoStorageError io1) (h2 : NoStorageError io2) :
    (castVote userId bookId intent io2
        (castVote userId bookId intent io1 db).db).response.status = 400 ∧
    (castVote userId bookId intent io2 (castVote userId bookId intent io1 db).db).db =
      (castVote userId bookId intent io1 db).db := by
  have hsel := selectAction_castVote_same userId bookId intent io1 db h1
  constructor
  · rw [castVote_status _ _ _ _ _ h2, if_pos hsel]
  · rw [castVote_db _ _ _ io2 _ h2, if_pos hsel]

/-- C3, at scenario B: user 1 likes the fresh book 1 twice; the
second call is answered 400 and the counters stay at likes 1, dislikes 0. -/
theorem castVote_twice_rejected_witness :
    NoStorageError StorageErrors.none ∧
    ((castVote 1 1 Intent.like StorageErrors.none
        (castVote 1 1 Intent.like StorageErrors.none freshDb).db).response.status = 400 ∧
    (castVote 1 1 Intent.like StorageErrors.none
        (castVote 1 1 Intent.like StorageErrors.none freshDb).db).db =
      (castVote 1 1 Intent.like StorageErrors.none freshDb).db) ∧
    selectTotals (castVote 1 1 Intent.like StorageErrors.none
        (castVote 1 1 Intent.like StorageErrors.none freshDb).db).db 1 =
      some { likes := 1, dislikes := 0 } :=
  ⟨by decide,
    castVote_twice_rejected freshDb 1 1 Intent.like StorageErrors.none StorageErrors.none
      (by decide) (by decide),
    by decide⟩

/-- INSERT OR REPLACE does not change what the SELECT of another pair
returns. -/
theorem selectAction_insertOrReplace_other (db : Database) (u b : Int) (a : String)
    (u2 b2 : Int) (hne : (u2, b2) ≠ (u, b)) :
    selectAction (insertOrReplace db u b a) u2 b2 = selectAction db u2 b2 := by
  unfold selectAction
  rw [insertOrReplace_likes, insertOrReplaceRows, List.find?_append, List.find?_filter]
  have hfun : (fun v : Vote => decide (decide (v.key ≠ (u, b)) = true ∧
        decide (v.userId = u2 ∧ v.bookId = b2) = true))
      = (fun v : Vote => decide (v.userId = u2 ∧ v.bookId = b2)) := by
    funext v
    by_cases hv : v.userId = u2 ∧ v.bookId = b2
    · have : v.key ≠ (u, b) := by
        intro e
        apply hne
        simp only [Vote.key, Prod.mk.injEq] at e
        simp [← hv.1, ← hv.2, e.1, e.2]
      simp [hv, this]
    · simp [hv]
  have hnew : List.find? (fun v : Vote => decide (v.userId = u2 ∧ v.bookId = b2))
      [({ userId := u, bookId := b, action := a } : Vote)] = none := by
    rw [List.find?_eq_none]
    intro v hv
    rw [List.mem_singleton] at hv
    subst hv
    simp only [decide_eq_true_eq]
    intro e
    exact hne (by simp [e.1, e.2])
  rw [hfun, hnew, Option.or_none]

/-- Searching a book by id commutes with an update that keeps ids. -/
theorem find_bookId_map (f : Book → Book) (hf : ∀ bk, (f bk).id = bk.id) (l : List Book)
    (b : Int) :
    (l.map f).find? (fun bk => decide (bk.id = b)) =
      (l.find? (fun bk => decide (bk.id = b))).map f := by
  induction l with
  | nil => rfl
  | cons bk rest ih =>
    by_cases hb : bk.id = b
    · simp [List.find?_cons, hf, hb]
    · simp [List.find?_cons, hf, hb, ih]

/-- The totals a book shows after `UPDATE books SET likes = likes + delta`. -/
theorem selectTotals_updateLikes (db : Database) (delta b b2 : Int) :
    selectTotals (updateLikes db delta b) b2 =
      (selectTotals db b2).map
        (fun t => if b2 = b then { likes := t.likes + delta, dislikes := t.dislikes } else t) := by
  unfold selectTotals updateLikes
  simp only
  rw [find_bookId_map _ (by intro bk; split <;> rfl)]
  cases hf : db.books.find? (fun bk => decide (bk.id = b2)) with
  | none => rfl
  | some bk =>
    have hid := List.find?_some hf
    simp only [decide_eq_true_eq] at hid
    by_cases hb : b2 = b <;> simp [hid, hb]

/-- The totals a book shows after
`UPDATE books SET dislikes = dislikes + delta`. -/
theorem selectTotals_updateDislikes (db : Database) (delta b b2 : Int) :
    selectTotals (updateDislikes db delta b) b2 =
      (selectTotals db b2).map
        (fun t => if b2 = b then { likes := t.likes, dislikes := t.dislikes + delta } else t) := by
  unfold selectTotals updateDislikes
  simp only
  rw [find_bookId_map _ (by intro bk; split <;> rfl)]
  cases hf : db.books.find? (fun bk => decide (bk.id = b2)) with
  | none => rfl
  | some bk =>
    have hid := List.find?_some hf
    simp only [decide_eq_true_eq] at hid
    by_cases hb : b2 = b <;> simp [hid, hb]

@[simp] theorem selectTotals_insertOrReplace (db : Database) (u b : Int) (a : String)
    (b2 : Int) :
    selectTotals (insertOrReplace db u b a) b2 = selectTotals db b2 := rfl

/-- The totals of the voted book after the writes of the like handler. -/
theorem selectTotals_likeWrites (db : Database) (u b : Int) :
    selectTotals (likeWrites db u b) b =
      (selectTotals db b).map (fun t =>
        { likes := t.likes + 1
          dislikes := if selectAction db u b = some "dislike" then t.dislikes - 1
            else t.dislikes }) := by
  unfold likeWrites
  rw [selectTotals_insertOrReplace, selectTotals_updateLikes]
  by_cases hd : selectAction db u b = some "dislike"
  · rw [if_pos hd, selectTotals_updateDislikes]
    cases selectTotals db b <;> simp [hd, sub_eq_add_neg]
  · rw [if_neg hd]
    cases selectTotals db b <;> simp [hd]

/-- The totals of the voted book after the writes of the dislike handler. -/
theorem selectTotals_dislikeWrites (db : Database) (u b : Int) :
    selectTotals (dislikeWrites db u b) b =
      (selectTotals db b).map (fun t =>
        { likes := if selectAction db u b = some "like" then t.likes - 1 else t.likes
          dislikes := t.dislikes + 1 }) := by
  unfold dislikeWrites
  rw [selectTotals_insertOrReplace, selectTotals_updateDislikes]
  by_cases hd : selectAction db u b = some "like"
  · rw [if_pos hd, selectTotals_updateLikes]
    cases selectTotals db b <;> simp [hd, sub_eq_add_neg]
  · rw [if_neg hd]
    cases selectTotals db b <;> simp [hd]

theorem castVote_like (u b : Int) (io : StorageErrors) (db : Database) :
    castVote u b Intent.like io db = likeHandler u b io db := rfl

theorem castVote_dislike (u b : Int) (io : StorageErrors) (db : Database) :
    castVote u b Intent.dislike io db = dislikeHandler u b io db := rfl

/-- A like answered 200 was not a duplicate, has run its writes and returns
the totals read back from the written database. -/
theorem likeHandler_accepted (u b : Int) (io : StorageErrors) (db : Database)
    (h : (likeHandler u b io db).response.status = 200) :
    selectAction db u b ≠ some "like" ∧
    (likeHandler u b io db).db = likeWrites db u b ∧
    (likeHandler u b io db).response.body = Body.json (selectTotals (likeWrites db u b) b) := by
  unfold likeHandler at h ⊢
  unfold likeWrites
  by_cases h1 : io.selectVote = true
  · simp [h1] at h
  · by_cases h2 : selectAction db u b = some "like"
    · simp [h1, h2] at h
    · cases hc : io.commit <;> by_cases h3 : io.selectBook = true <;>
        simp [h1, h2, hc, h3] at h ⊢

/-- A dislike answered 200 was not a duplicate, has run its writes and returns
the totals read back from the written database. -/
theorem dislikeHandler_accepted (u b : Int) (io : StorageErrors) (db : Database)
    (h : (dislikeHandler u b io db).response.status = 200) :
    selectAction db u b ≠ some "dislike" ∧
    (dislikeHandler u b io db).db = dislikeWrites db u b ∧
    (dislikeHandler u b io db).response.body =
      Body.json (selectTotals (dislikeWrites db u b) b) := by
  unfold dislikeHandler at h ⊢
  unfold dislikeWrites
  by_cases h1 : io.selectVote = true
  · simp [h1] at h
  · by_cases h2 : selectAction db u b = some "dislike"
    · simp [h1, h2] at h
    · cases hc : io.commit <;> by_cases h3 : io.selectBook = true <;>
        simp [h1, h2, hc, h3] at h ⊢

/-- C4. The counter deltas of an accepted vote (answered 200) on an existing
book follow the table: existing like and intent dislike give likes - 1 and
dislikes + 1; existing dislike and intent like give likes + 1 and
dislikes - 1; with no existing vote only the counter of the intent grows by 1
and the other one is unchanged. -/
theorem castVote_counter_deltas (db : Database) (userId bookId : Int) (intent : Intent)
    (io : StorageErrors) (t : Totals) (hbook : selectTotals db bookId = some t)
    (hacc : (castVote userId bookId intent io db).response.status = 200) :
    (selectAction db userId bookId = some "like" → intent = Intent.dislike →
      selectTotals (castVote userId bookId intent io db).db bookId =
        some { likes := t.likes - 1, dislikes := t.dislikes + 1 }) ∧
    (selectAction db userId bookId = some "dislike" → intent = Intent.like →
      selectTotals (castVote userId bookId intent io db).db bookId =
        some { likes := t.likes + 1, dislikes := t.dislikes - 1 }) ∧
    (selectAction db userId bookId = none → intent = Intent.like →
      selectTotals (castVote userId bookId intent io db).db bookId =
        some { likes := t.likes + 1, dislikes := t.dislikes }) ∧
    (selectAction db userId bookId = none → intent = Intent.dislike →
      selectTotals (castVote userId bookId intent io db).db bookId =
        some { likes := t.likes, dislikes := t.dislikes + 1 }) := by
  refine ⟨?_, ?_, ?_, ?_⟩
  · intro hrow hi
    subst hi
    rw [castVote_dislike] at hacc ⊢
    rw [(dislikeHandler_accepted userId bookId io db hacc).2.1, selectTotals_dislikeWrites,
      hbook]
    simp [hrow]
  · intro hrow hi
    subst hi
    rw [castVote_like] at hacc ⊢
    rw [(likeHandler_accepted userId bookId io db hacc).2.1, selectTotals_likeWrites, hbook]
    simp [hrow]
  · intro hrow hi
    subst hi
    rw [castVote_like] at hacc ⊢
    rw [(likeHandler_accepted userId bookId io db hacc).2.1, selectTotals_likeWrites, hbook]
    simp [hrow]
  · intro hrow hi
    subst hi
    rw [castVote_dislike] at hacc ⊢
    rw [(dislikeHandler_accepted userId bookId io db hacc).2.1, selectTotals_dislikeWrites,
      hbook]
    simp [hrow]

/-- C4, at a concrete input: in `votedDb` user 2 dislikes book 1 (likes 1,
dislikes 1) and switches to like. -/
theorem castVote_counter_deltas_witness :
    (selectTotals votedDb 1 = some { likes := 1, dislikes := 1 } ∧
      (castVote 2 1 Intent.like StorageErrors.none votedDb).response.status = 200 ∧
      selectAction votedDb 2 1 = some "dislike") ∧
    selectTotals (castVote 2 1 Intent.like StorageErrors.none votedDb).db 1 =
      some { likes := 1 + 1, dislikes := 1 - 1 } :=
  ⟨by decide,
    (castVote_counter_deltas votedDb 2 1 Intent.like StorageErrors.none
      { likes := 1, dislikes := 1 } (by decide) (by decide)).2.1 (by decide) rfl⟩

/-- The writes of the like handler do not change what the SELECT of another
pair returns. -/
theorem selectAction_likeWrites_other (db : Database) (u b u2 b2 : Int)
    (hne : (u2, b2) ≠ (u, b)) :
    selectAction (likeWrites db u b) u2 b2 = selectAction db u2 b2 := by
  unfold likeWrites
  rw [selectAction_insertOrReplace_other _ _ _ _ _ _ hne, selectAction_updateLikes]
  split <;> simp

/-- The writes of the dislike handler do not change what the SELECT of another
pair returns. -/
theorem selectAction_dislikeWrites_other (db : Database) (u b u2 b2 : Int)
    (hne : (u2, b2) ≠ (u, b)) :
    selectAction (dislikeWrites db u b) u2 b2 = selectAction db u2 b2 := by
  unfold dislikeWrites
  rw [selectAction_insertOrReplace_other _ _ _ _ _ _ hne, selectAction_updateDislikes]
  split <;> simp

/-- The response to a vote that is no duplicate and meets no storage error:
200 with the row read back from `books`. -/
theorem castVote_response (u b : Int) (intent : Intent) (io : StorageErrors) (db : Database)
    (h : NoStorageError io) (hnd : selectAction db u b ≠ some intent.action) :
    (castVote u b intent io db).response =
      { status := 200, body := Body.json (selectTotals (castVote u b intent io db).db b) } := by
  obtain ⟨h1, h2, h3⟩ := h
  cases intent
  · have hnd2 : selectAction db u b ≠ some "like" := hnd
    unfold castVote likeHandler
    simp [h1, h2, h3, hnd2]
  · have hnd2 : selectAction db u b ≠ some "dislike" := hnd
    unfold castVote dislikeHandler
    simp [h1, h2, h3, hnd2]

/-- C5, as amended. A like followed by a dislike of the same user on the same
book (no storage error) leaves the book with 1 like less and 1 dislike more
than it had between the two calls; for a user who had no vote on the book
before the first call, the likes end as they were before the first call and
the dislikes 1 higher. -/
theorem like_then_dislike_switch (db : Database) (userId bookId : Int)
    (io1 io2 : StorageErrors) (h1 : NoStorageError io1) (h2 : NoStorageError io2) :
    (∀ t1, selectTotals (castVote userId bookId Intent.like io1 db).db bookId = some t1 →
      selectTotals (castVote userId bookId Intent.dislike io2
          (castVote userId bookId Intent.like io1 db).db).db bookId =
        some { likes := t1.likes - 1, dislikes := t1.dislikes + 1 }) ∧
    (∀ t0, selectTotals db bookId = some t0 → selectAction db userId bookId = none →
      selectTotals (castVote userId bookId Intent.dislike io2
          (castVote userId bookId Intent.like io1 db).db).db bookId =
        some { likes := t0.likes, dislikes := t0.dislikes + 1 }) := by
  have hsel := selectAction_castVote_same userId bookId Intent.like io1 db h1
  have hsecond : (castVote userId bookId Intent.dislike io2
      (castVote userId bookId Intent.like io1 db).db).db =
      dislikeWrites (castVote userId bookId Intent.like io1 db).db userId bookId := by
    rw [castVote_db _ _ _ io2 _ h2, if_neg (by rw [hsel]; decide)]
  have hlike : selectAction (castVote userId bookId Intent.like io1 db).db userId bookId =
      some "like" := hsel
  constructor
  · intro t1 ht1
    rw [hsecond, selectTotals_dislikeWrites, ht1]
    simp [hlike]
  · intro t0 ht0 hnone
    have hfirst : (castVote userId bookId Intent.like io1 db).db =
        likeWrites db userId bookId := by
      rw [castVote_db _ _ _ io1 _ h1, if_neg (by rw [hnone]; simp)]
    have ht1 : selectTotals (castVote userId bookId Intent.like io1 db).db bookId =
        some { likes := t0.likes + 1, dislikes := t0.dislikes } := by
      rw [hfirst, selectTotals_likeWrites, ht0]
      simp [hnone]
    rw [hsecond, selectTotals_dislikeWrites, ht1]
    simp [hlike]

/-- C5, at a concrete input: user 3 has no vote on book 1 of `votedDb`. -/
theorem like_then_dislike_switch_witness :
    (NoStorageError StorageErrors.none ∧
      selectTotals votedDb 1 = some { likes := 1, dislikes := 1 } ∧
      selectAction votedDb 3 1 = none) ∧
    selectTotals (castVote 3 1 Intent.dislike StorageErrors.none
        (castVote 3 1 Intent.like StorageErrors.none votedDb).db).db 1 =
      some { likes := 1, dislikes := 1 + 1 } :=
  ⟨by decide,
    (like_then_dislike_switch votedDb 3 1 StorageErrors.none StorageErrors.none
      (by decide) (by decide)).2 { likes := 1, dislikes := 1 } (by decide) (by decide)⟩

/-- C5 as stated fails: on the fresh book 1 (likes 0, dislikes 0) a like then a
dislike of user 1 end with likes 0, not with 1 like less than before the first
call. -/
theorem like_then_dislike_counterexample :
    selectTotals freshDb 1 = some { likes := 0, dislikes := 0 } ∧
    selectTotals (castVote 1 1 Intent.dislike StorageErrors.none
        (castVote 1 1 Intent.like StorageErrors.none freshDb).db).db 1 =
      some { likes := 0, dislikes := 1 } ∧
    selectTotals (castVote 1 1 Intent.dislike StorageErrors.none
        (castVote 1 1 Intent.like StorageErrors.none freshDb).db).db 1 ≠
      some { likes := 0 - 1, dislikes := 0 + 1 } := by
  decide

/-- With an empty ledger the SELECT on the ledger returns nothing. -/
theorem selectAction_of_likes_nil (db : Database) (u b : Int) (h : db.likes = []) :
    selectAction db u b = none := by
  unfold selectAction
  rw [h]
  rfl

/-- Scenario A in the run in which the statements of every request run in
program order and no callback receives an error: from a book with likes 0,
dislikes 0 and an empty ledger, the like of a first user returns likes 1,
dislikes 0; then the dislike of a second user returns likes 1, dislikes 1;
then the dislike of the first user returns likes 0, dislikes 2. -/
theorem scenario_A (db : Database) (bookId user1 user2 : Int) (hledger : db.likes = [])
    (hbook : selectTotals db bookId = some { likes := 0, dislikes := 0 })
    (husers : user1 ≠ user2) :
    (castVote user1 bookId Intent.like StorageErrors.none db).response =
      { status := 200, body := Body.json (some { likes := 1, dislikes := 0 }) } ∧
    (castVote user2 bookId Intent.dislike StorageErrors.none
        (castVote user1 bookId Intent.like StorageErrors.none db).db).response =
      { status := 200, body := Body.json (some { likes := 1, dislikes := 1 }) } ∧
    (castVote user1 bookId Intent.dislike StorageErrors.none
        (castVote user2 bookId Intent.dislike StorageErrors.none
          (castVote user1 bookId Intent.like StorageErrors.none db).db).db).response =
      { status := 200, body := Body.json (some { likes := 0, dislikes := 2 }) } := by
  have hio : NoStorageError StorageErrors.none := by decide
  have hne : (user2, bookId) ≠ (user1, bookId) := by
    intro e
    exact husers (Prod.mk.inj e).1.symm
  have hne2 : (user1, bookId) ≠ (user2, bookId) := by
    intro e
    exact husers (Prod.mk.inj e).1
  -- first request
  have hs1 : selectAction db user1 bookId = none := selectAction_of_likes_nil db _ _ hledger
  have hd1 : (castVote user1 bookId Intent.like StorageErrors.none db).db =
      likeWrites db user1 bookId := by
    rw [castVote_db _ _ _ _ _ hio, if_neg (by rw [hs1]; simp)]
  have ht1 : selectTotals (likeWrites db user1 bookId) bookId =
      some { likes := 1, dislikes := 0 } := by
    rw [selectTotals_likeWrites, hbook]
    simp [hs1]
  have hr1 := castVote_response user1 bookId Intent.like StorageErrors.none db hio
    (by rw [hs1]; simp)
  rw [hd1] at hr1 ⊢
  rw [ht1] at hr1
  -- second request
  have hs2 : selectAction (likeWrites db user1 bookId) user2 bookId = none := by
    rw [selectAction_likeWrites_other _ _ _ _ _ hne]
    exact selectAction_of_likes_nil db _ _ hledger
  have hd2 : (castVote user2 bookId Intent.dislike StorageErrors.none
      (likeWrites db user1 bookId)).db =
      dislikeWrites (likeWrites db user1 bookId) user2 bookId := by
    rw [castVote_db _ _ _ _ _ hio, if_neg (by rw [hs2]; simp)]
  have ht2 : selectTotals (dislikeWrites (likeWrites db user1 bookId) user2 bookId) bookId =
      some { likes := 1, dislikes := 1 } := by
    rw [selectTotals_dislikeWrites, ht1]
    simp [hs2]
  have hr2 := castVote_response user2 bookId Intent.dislike StorageErrors.none
    (likeWrites db user1 bookId) hio (by rw [hs2]; simp)
  rw [hd2] at hr2 ⊢
  rw [ht2] at hr2
  -- third request
  have hs3 : selectAction (dislikeWrites (likeWrites db user1 bookId) user2 bookId)
      user1 bookId = some "like" := by
    rw [selectAction_dislikeWrites_other _ _ _ _ _ hne2]
    exact selectAction_likeWrites_same db user1 bookId
  have hnd3 : selectAction (dislikeWrites (likeWrites db user1 bookId) user2 bookId)
      user1 bookId ≠ some Intent.dislike.action := by
    rw [hs3]
    decide
  have hd3 : (castVote user1 bookId Intent.dislike StorageErrors.none
      (dislikeWrites (likeWrites db user1 bookId) user2 bookId)).db =
      dislikeWrites (dislikeWrites (likeWrites db user1 bookId) user2 bookId)
        user1 bookId := by
    rw [castVote_db _ _ _ _ _ hio, if_neg hnd3]
  have ht3 : selectTotals (dislikeWrites (dislikeWrites (likeWrites db user1 bookId)
      user2 bookId) user1 bookId) bookId = some { likes := 0, dislikes := 2 } := by
    rw [selectTotals_dislikeWrites, ht2]
    simp [hs3]
  have hr3 := castVote_response user1 bookId Intent.dislike StorageErrors.none
    (dislikeWrites (likeWrites db user1 bookId) user2 bookId) hio hnd3
  rw [hd3, ht3] at hr3
  exact ⟨hr1, hr2, hr3⟩

/-- Scenario A in program order, on the fresh book 1 with users 1 and 2. -/
theorem scenario_A_witness :
    (freshDb.likes = [] ∧ selectTotals freshDb 1 = some { likes := 0, dislikes := 0 } ∧
      (1 : Int) ≠ 2) ∧
    ((castVote 1 1 Intent.like StorageErrors.none freshDb).response =
      { status := 200, body := Body.json (some { likes := 1, dislikes := 0 }) } ∧
    (castVote 2 1 Intent.dislike StorageErrors.none
        (castVote 1 1 Intent.like StorageErrors.none freshDb).db).response =
      { status := 200, body := Body.json (some { likes := 1, dislikes := 1 }) } ∧
    (castVote 1 1 Intent.dislike StorageErrors.none
        (castVote 2 1 Intent.dislike StorageErrors.none
          (castVote 1 1 Intent.like StorageErrors.none freshDb).db).db).response =
      { status := 200, body := Body.json (some { likes := 0, dislikes := 2 }) }) :=
  ⟨by decide, scenario_A freshDb 1 1 2 (by decide) (by decide) (by decide)⟩

/-- An authenticated request whose `req.user` is set reaches the handler of
its route with `req.user.id` and `req.params.id`. -/
theorem postVote_authenticated (intent : Intent) (req : Request) (user : User)
    (io : StorageErrors) (db : Database) (hauth : req.isAuthenticated = true)
    (huser : req.user = some user) :
    postVote intent req io db = castVote user.id req.paramsId intent io db := by
  cases intent <;>
    simp [postVote, postBooksLike, postBooksDislike, guardedRoute, isAuthenticated, hauth,
      huser, castVote]

/-- A book row with the id exists exactly when the SELECT on `books` returns a
row. -/
theorem selectTotals_isSome_iff (db : Database) (b : Int) :
    (∃ t, selectTotals db b = some t) ↔ ∃ bk ∈ db.books, bk.id = b := by
  unfold selectTotals
  constructor
  · rintro ⟨t, ht⟩
    rw [Option.map_eq_some'] at ht
    obtain ⟨bk, hbk, _⟩ := ht
    have hp := List.find?_some hbk
    simp only [decide_eq_true_eq] at hp
    exact ⟨bk, List.mem_of_find?_eq_some hbk, hp⟩
  · rintro ⟨bk, hbk, hid⟩
    cases hf : db.books.find? (fun bk => decide (bk.id = b)) with
    | none =>
      have := List.find?_eq_none.1 hf bk hbk
      simp [hid] at this
    | some w => exact ⟨_, rfl⟩

/-- C7, as amended. For every authenticated vote request that is not a
duplicate and meets no storage error, on the id of a book that has a row in
`books`, the response is 200 with a JSON body carrying the likes and dislikes
stored for the book after the update. -/
theorem postVote_success_response (db : Database) (req : Request) (user : User)
    (intent : Intent) (io : StorageErrors)
    (hauth : req.isAuthenticated = true) (huser : req.user = some user)
    (hio : NoStorageError io)
    (hnew : ¬ ∃ v ∈ db.likes, v.userId = user.id ∧ v.bookId = req.paramsId ∧
      v.action = intent.action)
    (hbook : ∃ bk ∈ db.books, bk.id = req.paramsId) :
    ∃ t : Totals,
      selectTotals (postVote intent req io db).db req.paramsId = some t ∧
      (postVote intent req io db).response =
        { status := 200, body := Body.json (some t) } := by
  rw [postVote_authenticated intent req user io db hauth huser]
  have hnd : selectAction db user.id req.paramsId ≠ some intent.action := by
    rw [Ne, selectAction_eq_some_iff]
    exact hnew
  obtain ⟨t0, ht0⟩ := (selectTotals_isSome_iff db req.paramsId).2 hbook
  have hresp := castVote_response user.id req.paramsId intent io db hio hnd
  have hdb := castVote_db user.id req.paramsId intent io db hio
  rw [if_neg hnd] at hdb
  cases intent with
  | like =>
    simp only at hdb
    have ht := selectTotals_likeWrites db user.id req.paramsId
    rw [ht0] at ht
    rw [hdb] at hresp ⊢
    rw [ht] at hresp
    exact ⟨_, ht, hresp⟩
  | dislike =>
    simp only at hdb
    have ht := selectTotals_dislikeWrites db user.id req.paramsId
    rw [ht0] at ht
    rw [hdb] at hresp ⊢
    rw [ht] at hresp
    exact ⟨_, ht, hresp⟩

/-- C7, at a concrete input: the logged-in user 1 likes the fresh book 1. -/
theorem postVote_success_response_witness :
    (NoStorageError StorageErrors.none ∧
      (¬ ∃ v ∈ freshDb.likes, v.userId = 1 ∧ v.bookId = sampleRequest.paramsId ∧
        v.action = Intent.like.action) ∧
      ∃ bk ∈ freshDb.books, bk.id = sampleRequest.paramsId) ∧
    ∃ t : Totals,
      selectTotals (postVote Intent.like sampleRequest StorageErrors.none freshDb).db
        sampleRequest.paramsId = some t ∧
      (postVote Intent.like sampleRequest StorageErrors.none freshDb).response =
        { status := 200, body := Body.json (some t) } :=
  ⟨by decide,
    postVote_success_response freshDb sampleRequest
      { id := 1, username := "reader", role := "user" } Intent.like StorageErrors.none
      rfl rfl (by decide) (by decide) (by decide)⟩

/-- C7 as stated fails: the logged-in user 1 likes book id 1 on a database
without any book row, no storage error and no earlier vote; the answer is 200
with a body that carries no likes and dislikes. -/
theorem postVote_missing_book_counterexample :
    sampleRequest.isAuthenticated = true ∧
    NoStorageError StorageErrors.none ∧
    ¬ HasVote emptyDb 1 sampleRequest.paramsId ∧
    (postVote Intent.like sampleRequest StorageErrors.none emptyDb).response =
      { status := 200, body := Body.json Option.none } ∧
    ¬ ∃ t : Totals,
      (postVote Intent.like sampleRequest StorageErrors.none emptyDb).response =
        { status := 200, body := Body.json (some t) } := by
  have hresp : (postVote Intent.like sampleRequest StorageErrors.none emptyDb).response =
      { status := 200, body := Body.json Option.none } := by decide
  refine ⟨rfl, by decide, by decide, hresp, ?_⟩
  rintro ⟨t, ht⟩
  rw [hresp] at ht
  cases ht

/-- After INSERT OR REPLACE the rows of the written pair are the new row
alone. -/
theorem votesOf_insertOrReplace_same (db : Database) (u b : Int) (a : String) :
    votesOf (insertOrReplace db u b a) u b = [{ userId := u, bookId := b, action := a }] := by
  unfold votesOf
  rw [insertOrReplace_likes, insertOrReplaceRows, List.filter_append, List.filter_filter]
  have hnil : db.likes.filter (fun v => decide (v.userId = u ∧ v.bookId = b) &&
      decide (v.key ≠ (u, b))) = [] := by
    rw [List.filter_eq_nil_iff]
    intro v _
    by_cases hv : v.userId = u ∧ v.bookId = b <;> simp [Vote.key, hv]
  rw [hnil]
  simp

/-- Under the uniqueness constraint a pair has at most one row. -/
theorem votesOf_length_le_one (db : Database) (u b : Int) : (votesOf db u b).length ≤ 1 := by
  have hnd : ((votesOf db u b).map Vote.key).Nodup :=
    db.likesUnique.sublist ((List.filter_sublist _).map _)
  have hkey : ∀ v ∈ votesOf db u b, v.key = (u, b) := by
    intro v hv
    have hp := (List.mem_filter.1 hv).2
    simp only [decide_eq_true_eq] at hp
    simp [Vote.key, hp.1, hp.2]
  cases hl : votesOf db u b with
  | nil => simp
  | cons x rest =>
    cases rest with
    | nil => simp
    | cons y rest2 =>
      rw [hl] at hnd hkey
      have hx := hkey x (by simp)
      have hy := hkey y (by simp)
      rw [List.map_cons, List.map_cons, List.nodup_cons] at hnd
      exact absurd (by simp [hx, hy]) hnd.1

/-- A vote step keeps the ledger or replaces it by INSERT OR REPLACE of the
row of the voter with action `like` or `dislike`. -/
theorem castVote_likes (u b : Int) (intent : Intent) (io : StorageErrors) (db : Database) :
    (castVote u b intent io db).db.likes = db.likes ∨
    (castVote u b intent io db).db.likes = insertOrReplaceRows db.likes u b intent.action := by
  cases intent with
  | like =>
    rcases likeHandler_db u b io db with e | ⟨_, e⟩
    · left
      rw [castVote_like, e]
    · right
      rw [castVote_like, e]
      unfold likeWrites
      rw [insertOrReplace_likes, updateLikes_likes]
      split <;> rfl
  | dislike =>
    rcases dislikeHandler_db u b io db with e | ⟨_, e⟩
    · left
      rw [castVote_dislike, e]
    · right
      rw [castVote_dislike, e]
      unfold dislikeWrites
      rw [insertOrReplace_likes, updateDislikes_likes]
      split <;> rfl

/-- In every reachable state the action of every ledger row is `like` or
`dislike`. -/
theorem reachable_actions (db : Database) (h : Reachable db) :
    ∀ v ∈ db.likes, v.action = "like" ∨ v.action = "dislike" := by
  induction h with
  | init db h0 =>
    intro v hv
    rw [h0] at hv
    cases hv
  | step db db2 _ s ih =>
    cases s with
    | vote u b intent io =>
      intro v hv
      rcases castVote_likes u b intent io db with e | e
      · rw [e] at hv
        exact ih v hv
      · rw [e, insertOrReplaceRows, List.mem_append] at hv
        rcases hv with hv | hv
        · exact ih v (List.mem_filter.1 hv).1
        · rw [List.mem_singleton] at hv
          subst hv
          cases intent
          · left
            rfl
          · right
            rfl

/-- INSERT OR REPLACE keeps the key columns `(userId, bookId)` of the ledger
free of duplicates. -/
theorem insertOrReplaceRows_unique (rows : List Vote) (u b : Int) (a : String)
    (h : (rows.map Vote.key).Nodup) :
    ((insertOrReplaceRows rows u b a).map Vote.key).Nodup := by
  unfold insertOrReplaceRows
  rw [List.map_append, List.nodup_append]
  refine ⟨h.sublist ((List.filter_sublist _).map _), by simp, ?_⟩
  intro k hk hk2
  simp only [List.map_cons, List.map_nil, List.mem_singleton] at hk2
  simp only [List.mem_map, List.mem_filter] at hk
  obtain ⟨v, ⟨_, hv⟩, rfl⟩ := hk
  simp only [decide_eq_true_eq] at hv
  exact hv hk2

/-- C8. Ledger upsert: after an accepted vote of a user on a book the ledger
holds exactly one row of the pair and its action is the intent, whatever it
held before; INSERT OR REPLACE keeps the pairs of the ledger free of
duplicates; and in every state reachable from an empty ledger each pair has
at most one row and the action of every row is like or dislike. -/
theorem ledger_upsert :
    (∀ (db : Database) (userId bookId : Int) (intent : Intent) (io : StorageErrors),
      (castVote userId bookId intent io db).response.status = 200 →
      votesOf (castVote userId bookId intent io db).db userId bookId =
        [{ userId := userId, bookId := bookId, action := intent.action }]) ∧
    (∀ (rows : List Vote) (userId bookId : Int) (action : String),
      (rows.map Vote.key).Nodup →
      ((insertOrReplaceRows rows userId bookId action).map Vote.key).Nodup) ∧
    (∀ db : Database, Reachable db →
      (∀ userId bookId : Int, (votesOf db userId bookId).length ≤ 1) ∧
      (∀ v ∈ db.likes, v.action = "like" ∨ v.action = "dislike")) := by
  refine ⟨?_, insertOrReplaceRows_unique, ?_⟩
  · intro db u b intent io hacc
    cases intent with
    | like =>
      rw [castVote_like] at hacc ⊢
      rw [(likeHandler_accepted u b io db hacc).2.1]
      exact votesOf_insertOrReplace_same _ u b "like"
    | dislike =>
      rw [castVote_dislike] at hacc ⊢
      rw [(dislikeHandler_accepted u b io db hacc).2.1]
      exact votesOf_insertOrReplace_same _ u b "dislike"
  · intro db hreach
    exact ⟨fun u b => votesOf_length_le_one db u b, reachable_actions db hreach⟩

/-- C8, at concrete inputs: user 1 switches to dislike on book 1 of `votedDb`,
and the state reached from the fresh database by one like. -/
theorem ledger_upsert_witness :
    ((castVote 1 1 Intent.dislike StorageErrors.none votedDb).response.status = 200 ∧
      votesOf (castVote 1 1 Intent.dislike StorageErrors.none votedDb).db 1 1 =
        [{ userId := 1, bookId := 1, action := "dislike" }]) ∧
    (Reachable (castVote 1 1 Intent.like StorageErrors.none freshDb).db ∧
      (votesOf (castVote 1 1 Intent.like StorageErrors.none freshDb).db 1 1).length ≤ 1 ∧
      ∀ v ∈ (castVote 1 1 Intent.like StorageErrors.none freshDb).db.likes,
        v.action = "like" ∨ v.action = "dislike") :=
  have hreach : Reachable (castVote 1 1 Intent.like StorageErrors.none freshDb).db :=
    Reachable.step freshDb _ (Reachable.init freshDb rfl)
      (VoteStep.vote 1 1 Intent.like StorageErrors.none freshDb)
  ⟨⟨by decide, ledger_upsert.1 votedDb 1 1 Intent.dislike StorageErrors.none (by decide)⟩,
    hreach, (ledger_upsert.2.2 _ hreach).1 1 1, (ledger_upsert.2.2 _ hreach).2⟩

/-- One vote step never removes the row of a pair without writing another row
of that pair. -/
theorem hasVote_step (db db2 : Database) (u b : Int) (s : VoteStep db db2)
    (h : HasVote db u b) : HasVote db2 u b := by
  cases s with
  | vote u2 b2 intent io =>
    obtain ⟨v, hv, hu, hb⟩ := h
    rcases castVote_likes u2 b2 intent io db with e | e
    · exact ⟨v, by rw [e]; exact hv, hu, hb⟩
    · unfold HasVote
      rw [e, insertOrReplaceRows]
      by_cases hk : v.key = (u2, b2)
      · refine ⟨{ userId := u2, bookId := b2, action := intent.action }, by simp, ?_, ?_⟩
        · simp only [Vote.key, Prod.mk.injEq] at hk
          rw [← hu, hk.1]
        · simp only [Vote.key, Prod.mk.injEq] at hk
          rw [← hb, hk.2]
      · refine ⟨v, ?_, hu, hb⟩
        rw [List.mem_append]
        left
        rw [List.mem_filter]
        exact ⟨hv, by simpa using hk⟩

/-- C9. A vote is never retracted: once the ledger holds a row of a user and a
book, it holds a row of that user and book after every sequence of like and
dislike requests by any users on any books, whatever the storage engine
reports. -/
theorem vote_never_retracted (db db2 : Database) (userId bookId : Int)
    (hsteps : Relation.ReflTransGen VoteStep db db2) (h : HasVote db userId bookId) :
    HasVote db2 userId bookId := by
  induction hsteps with
  | refl => exact h
  | tail _ s ih => exact hasVote_step _ _ userId bookId s ih

/-- C9, at a concrete input: in `votedDb` user 1 has voted on book 1; user 1
then switches to dislike and user 2 to like. -/
theorem vote_never_retracted_witness :
    (Relation.ReflTransGen VoteStep votedDb
        (castVote 2 1 Intent.like StorageErrors.none
          (castVote 1 1 Intent.dislike StorageErrors.none votedDb).db).db ∧
      HasVote votedDb 1 1) ∧
    HasVote (castVote 2 1 Intent.like StorageErrors.none
      (castVote 1 1 Intent.dislike StorageErrors.none votedDb).db).db 1 1 :=
  have hsteps : Relation.ReflTransGen VoteStep votedDb
      (castVote 2 1 Intent.like StorageErrors.none
        (castVote 1 1 Intent.dislike StorageErrors.none votedDb).db).db :=
    Relation.ReflTransGen.tail
      (Relation.ReflTransGen.single
        (VoteStep.vote 1 1 Intent.dislike StorageErrors.none votedDb))
      (VoteStep.vote 2 1 Intent.like StorageErrors.none _)
  ⟨⟨hsteps, by decide⟩, vote_never_retracted _ _ 1 1 hsteps (by decide)⟩

/-- C10. The middleware `isAuthenticated` calls `next()` (and sends nothing)
if and only if `req.isAuthenticated()` is true; otherwise it answers 401 with
the body `You must be logged in to perform this action.` and does not call
`next()`, so that an unauthenticated request to the like or the dislike route
never reaches a handler: whatever the handler is, the database is unchanged
and the answer is the 401 of the middleware. -/
theorem isAuthenticated_guard (req : Request) :
    (isAuthenticated req = Middleware.next ↔ req.isAuthenticated = true) ∧
    (req.isAuthenticated = false →
      isAuthenticated req = Middleware.respond
        { status := 401, body := Body.text "You must be logged in to perform this action." } ∧
      (∀ (handler : Int → Int → StorageErrors → Database → Result) (io : StorageErrors)
          (db : Database),
        (guardedRoute handler req io db).db = db ∧
        (guardedRoute handler req io db).response =
          { status := 401,
            body := Body.text "You must be logged in to perform this action." }) ∧
      (∀ (intent : Intent) (io : StorageErrors) (db : Database),
        (postVote intent req io db).db = db ∧
        (postVote intent req io db).response =
          { status := 401,
            body := Body.text "You must be logged in to perform this action." })) := by
  constructor
  · unfold isAuthenticated
    by_cases h : req.isAuthenticated = true <;> simp [h]
  · intro h
    have hmw : isAuthenticated req = Middleware.respond
        { status := 401, body := Body.text "You must be logged in to perform this action." } := by
      simp [isAuthenticated, h]
    have hroute : ∀ (handler : Int → Int → StorageErrors → Database → Result)
        (io : StorageErrors) (db : Database),
        (guardedRoute handler req io db).db = db ∧
        (guardedRoute handler req io db).response =
          { status := 401,
            body := Body.text "You must be logged in to perform this action." } := by
      intro handler io db
      simp [guardedRoute, hmw]
    refine ⟨hmw, hroute, ?_⟩
    intro intent io db
    cases intent
    · exact hroute likeHandler io db
    · exact hroute dislikeHandler io db

/-- C10, at a concrete input: a visitor who is not logged in likes book 1 of
`votedDb`. -/
theorem isAuthenticated_guard_witness :
    anonymousRequest.isAuthenticated = false ∧
    (postVote Intent.like anonymousRequest StorageErrors.none votedDb).db = votedDb ∧
    (postVote Intent.like anonymousRequest StorageErrors.none votedDb).response =
      { status := 401, body := Body.text "You must be logged in to perform this action." } :=
  ⟨rfl, ((isAuthenticated_guard anonymousRequest).2 rfl).2.2 Intent.like StorageErrors.none
    votedDb⟩

/-! ## Failures of the vote transaction -/

/-- No statement is sent twice by the like handler. -/
theorem likeStatements_nodup (u b : Int) (io : StorageErrors) (db : Database) :
    (likeStatements u b io db).Nodup := by
  unfold likeStatements
  by_cases h1 : io.selectVote = true
  · simp [h1]
  · by_cases h2 : selectAction db u b = some "like"
    · simp [h1, h2]
    · by_cases h3 : selectAction db u b = some "dislike" <;> cases hc : io.commit <;>
        simp [h1, h2, h3]

/-- No statement is sent twice by the dislike handler. -/
theorem dislikeStatements_nodup (u b : Int) (io : StorageErrors) (db : Database) :
    (dislikeStatements u b io db).Nodup := by
  unfold dislikeStatements
  by_cases h1 : io.selectVote = true
  · simp [h1]
  · by_cases h2 : selectAction db u b = some "dislike"
    · simp [h1, h2]
    · by_cases h3 : selectAction db u b = some "like" <;> cases hc : io.commit <;>
        simp [h1, h2, h3]

/-- No statement is sent twice by a vote request. -/
theorem voteStatements_nodup (u b : Int) (intent : Intent) (io : StorageErrors)
    (db : Database) : (voteStatements u b intent io db).Nodup := by
  cases intent
  · exact likeStatements_nodup u b io db
  · exact dislikeStatements_nodup u b io db

/-- Running the statements a request sent gives the database the handler
leaves, unless the engine rolled the transaction back at COMMIT. -/
theorem runStatements_voteStatements (u b : Int) (intent : Intent) (io : StorageErrors)
    (db : Database) (hc : io.commit ≠ CommitOutcome.failedRolledBack) :
    runStatements (voteStatements u b intent io db) db = (castVote u b intent io db).db := by
  cases intent
  · unfold voteStatements castVote likeStatements likeHandler runStatements
    by_cases h1 : io.selectVote = true
    · simp [h1, Stmt.exec]
    · by_cases h2 : selectAction db u b = some "like"
      · simp [h1, h2, Stmt.exec]
      · by_cases h3 : selectAction db u b = some "dislike" <;> cases hcm : io.commit <;>
          by_cases h4 : io.selectBook = true <;>
          simp_all [Stmt.exec]
  · unfold voteStatements castVote dislikeStatements dislikeHandler runStatements
    by_cases h1 : io.selectVote = true
    · simp [h1, Stmt.exec]
    · by_cases h2 : selectAction db u b = some "dislike"
      · simp [h1, h2, Stmt.exec]
      · by_cases h3 : selectAction db u b = some "like" <;> cases hcm : io.commit <;>
          by_cases h4 : io.selectBook = true <;>
          simp_all [Stmt.exec]

/-- C11, at the failing input: user 1 likes the fresh book 1 and COMMIT reports
an error that leaves the transaction open.  The handler answers 500 with
`Failed to like book` and sends no further statement, so the like and the
ledger row stay in the database the connection sees. -/
theorem commit_error_keeps_writes :
    selectTotals freshDb 1 = some { likes := 0, dislikes := 0 } ∧
    ¬ HasVote freshDb 1 1 ∧
    (castVote 1 1 Intent.like commitFailsOpen freshDb).response =
      { status := 500, body := Body.text "Failed to like book" } ∧
    selectTotals (castVote 1 1 Intent.like commitFailsOpen freshDb).db 1 =
      some { likes := 1, dislikes := 0 } ∧
    HasVote (castVote 1 1 Intent.like commitFailsOpen freshDb).db 1 1 ∧
    voteStatements 1 1 Intent.like commitFailsOpen freshDb =
      [Stmt.selectVote 1 1, Stmt.beginTransaction, Stmt.updateLikes 1 1,
        Stmt.insertOrReplace 1 1 "like", Stmt.commit] := by
  decide

/-- The response of a vote whose SELECT on the ledger succeeded, which is no
duplicate and whose COMMIT reported an error: 500 with a text. -/
theorem castVote_commit_error (u b : Int) (intent : Intent) (io : StorageErrors)
    (db : Database) (h1 : io.selectVote = false)
    (h2 : selectAction db u b ≠ some intent.action) (h3 : io.commit ≠ CommitOutcome.ok) :
    ∃ msg, (castVote u b intent io db).response = { status := 500, body := Body.text msg } := by
  cases intent
  · have h2b : selectAction db u b ≠ some "like" := h2
    unfold castVote likeHandler
    cases hc : io.commit
    · exact absurd hc h3
    · exact ⟨"Failed to like book", by simp [h1, h2b]⟩
    · exact ⟨"Failed to like book", by simp [h1, h2b]⟩
  · have h2b : selectAction db u b ≠ some "dislike" := h2
    unfold castVote dislikeHandler
    cases hc : io.commit
    · exact absurd hc h3
    · exact ⟨"Failed to dislike book", by simp [h1, h2b]⟩
    · exact ⟨"Failed to dislike book", by simp [h1, h2b]⟩

/-- A vote is answered 200 only if COMMIT reported no error. -/
theorem castVote_accepted_commit_ok (u b : Int) (intent : Intent) (io : StorageErrors)
    (db : Database) (h : (castVote u b intent io db).response.status = 200) :
    io.commit = CommitOutcome.ok := by
  cases intent
  · unfold castVote likeHandler at h
    by_cases h1 : io.selectVote = true
    · simp [h1] at h
    · by_cases h2 : selectAction db u b = some "like"
      · simp [h1, h2] at h
      · cases hc : io.commit <;> simp [h1, h2, hc] at h ⊢
  · unfold castVote dislikeHandler at h
    by_cases h1 : io.selectVote = true
    · simp [h1] at h
    · by_cases h2 : selectAction db u b = some "dislike"
      · simp [h1, h2] at h
      · cases hc : io.commit <;> simp [h1, h2, hc] at h ⊢

/-- C12, as amended. A vote request never re-runs its transaction: it sends
BEGIN at most once and COMMIT at most once, and when COMMIT reports an error
the request is answered 500 (never with success), whatever a second attempt
would have done. -/
theorem vote_transaction_not_retried (db : Database) (userId bookId : Int)
    (intent : Intent) (io : StorageErrors) :
    (voteStatements userId bookId intent io db).count Stmt.beginTransaction ≤ 1 ∧
    (voteStatements userId bookId intent io db).count Stmt.commit ≤ 1 ∧
    (io.commit ≠ CommitOutcome.ok →
      (castVote userId bookId intent io db).response.status ≠ 200) ∧
    (io.selectVote = false → selectAction db userId bookId ≠ some intent.action →
      io.commit ≠ CommitOutcome.ok →
      (castVote userId bookId intent io db).response.status = 500) := by
  have hnd := voteStatements_nodup userId bookId intent io db
  refine ⟨List.nodup_iff_count_le_one.1 hnd _, List.nodup_iff_count_le_one.1 hnd _, ?_, ?_⟩
  · intro hc h200
    exact hc (castVote_accepted_commit_ok userId bookId intent io db h200)
  · intro h1 h2 h3
    obtain ⟨msg, hmsg⟩ := castVote_commit_error userId bookId intent io db h1 h2 h3
    rw [hmsg]

/-- C12, at a concrete input: user 1 likes the fresh book 1 and COMMIT reports
an error. -/
theorem vote_transaction_not_retried_witness :
    (commitFailsRolledBack.selectVote = false ∧
      selectAction freshDb 1 1 ≠ some Intent.like.action ∧
      commitFailsRolledBack.commit ≠ CommitOutcome.ok) ∧
    (castVote 1 1 Intent.like commitFailsRolledBack freshDb).response.status = 500 :=
  ⟨by decide,
    (vote_transaction_not_retried freshDb 1 1 Intent.like commitFailsRolledBack).2.2.2
      (by decide) (by decide) (by decide)⟩

/-- C12 as stated fails: user 1 likes the fresh book 1, COMMIT of the first
attempt reports a conflict and the engine rolls the transaction back; a second
attempt would be answered 200, but the handler sends one BEGIN and one COMMIT
only and answers 500. -/
theorem vote_retry_counterexample :
    (castVote 1 1 Intent.like commitFailsRolledBack freshDb).response =
      { status := 500, body := Body.text "Failed to like book" } ∧
    (castVote 1 1 Intent.like StorageErrors.none
      (castVote 1 1 Intent.like commitFailsRolledBack freshDb).db).response.status = 200 ∧
    (voteStatements 1 1 Intent.like commitFailsRolledBack freshDb).count
      Stmt.beginTransaction = 1 ∧
    (voteStatements 1 1 Intent.like commitFailsRolledBack freshDb).count Stmt.commit = 1 := by
  decide

/-- C13. Storage errors surface as 500 and are not retried: when the SELECT on
the ledger reports an error the answer is 500 with a text, the database is
unchanged and that SELECT is the only statement sent (no write at all); when
COMMIT or the final SELECT on `books` reports an error the answer is 500 with
a text; and no statement of a request is sent a second time. -/
theorem storage_errors_surface_as_500 (db : Database) (userId bookId : Int)
    (intent : Intent) (io : StorageErrors) :
    (io.selectVote = true →
      (∃ msg, (castVote userId bookId intent io db).response =
        { status := 500, body := Body.text msg }) ∧
      (castVote userId bookId intent io db).db = db ∧
      voteStatements userId bookId intent io db = [Stmt.selectVote userId bookId] ∧
      ∀ stmt ∈ voteStatements userId bookId intent io db, stmt.isWrite = false) ∧
    (io.selectVote = false → selectAction db userId bookId ≠ some intent.action →
      io.commit ≠ CommitOutcome.ok →
      ∃ msg, (castVote userId bookId intent io db).response =
        { status := 500, body := Body.text msg }) ∧
    (io.selectVote = false → selectAction db userId bookId ≠ some intent.action →
      io.commit = CommitOutcome.ok → io.selectBook = true →
      ∃ msg, (castVote userId bookId intent io db).response =
        { status := 500, body := Body.text msg }) ∧
    (voteStatements userId bookId intent io db).Nodup := by
  refine ⟨?_, castVote_commit_error userId bookId intent io db, ?_,
    voteStatements_nodup userId bookId intent io db⟩
  · intro h1
    cases intent
    · refine ⟨⟨"Failed to like book", by simp [castVote, likeHandler, h1]⟩,
        by simp [castVote, likeHandler, h1],
        by simp [voteStatements, likeStatements, h1], ?_⟩
      simp [voteStatements, likeStatements, h1, Stmt.isWrite]
    · refine ⟨⟨"Failed to dislike book", by simp [castVote, dislikeHandler, h1]⟩,
        by simp [castVote, dislikeHandler, h1],
        by simp [voteStatements, dislikeStatements, h1], ?_⟩
      simp [voteStatements, dislikeStatements, h1, Stmt.isWrite]
  · intro h1 h2 h3 h4
    cases intent
    · have h2b : selectAction db userId bookId ≠ some "like" := h2
      exact ⟨"Failed to fetch book likes/dislikes",
        by simp [castVote, likeHandler, h1, h2b, h3, h4]⟩
    · have h2b : selectAction db userId bookId ≠ some "dislike" := h2
      exact ⟨"Failed to fetch book likes/dislikes",
        by simp [castVote, dislikeHandler, h1, h2b, h3, h4]⟩

/-- C13, at a concrete input: the first SELECT of a like of user 2 on book 1 of
`votedDb` reports an error. -/
theorem storage_errors_surface_as_500_witness :
    (∃ msg, (castVote 2 1 Intent.like
        { selectVote := true, commit := CommitOutcome.ok, selectBook := false }
        votedDb).response = { status := 500, body := Body.text msg }) ∧
    (castVote 2 1 Intent.like
      { selectVote := true, commit := CommitOutcome.ok, selectBook := false } votedDb).db =
      votedDb ∧
    voteStatements 2 1 Intent.like
      { selectVote := true, commit := CommitOutcome.ok, selectBook := false } votedDb =
      [Stmt.selectVote 2 1] :=
  have h := (storage_errors_surface_as_500 votedDb 2 1 Intent.like
    { selectVote := true, commit := CommitOutcome.ok, selectBook := false }).1 rfl
  ⟨h.1, h.2.1, h.2.2.1⟩

/-! ## Frame of a vote -/

/-- INSERT OR REPLACE leaves the rows of every other pair as they were. -/
theorem votesOf_insertOrReplace_other (db : Database) (u b : Int) (a : String)
    (u2 b2 : Int) (hne : (u2, b2) ≠ (u, b)) :
    votesOf (insertOrReplace db u b a) u2 b2 = votesOf db u2 b2 := by
  unfold votesOf
  rw [insertOrReplace_likes, insertOrReplaceRows, List.filter_append, List.filter_filter]
  have hnew : List.filter (fun v : Vote => decide (v.userId = u2 ∧ v.bookId = b2))
      [({ userId := u, bookId := b, action := a } : Vote)] = [] := by
    rw [List.filter_eq_nil_iff]
    intro v hv
    rw [List.mem_singleton] at hv
    subst hv
    simp only [decide_eq_true_eq]
    intro e
    exact hne (by simp [e.1, e.2])
  rw [hnew, List.append_nil]
  apply List.filter_congr
  intro v _
  by_cases hv : v.userId = u2 ∧ v.bookId = b2
  · have hk : v.key ≠ (u, b) := by
      intro e
      apply hne
      simp only [Vote.key, Prod.mk.injEq] at e
      simp [← hv.1, ← hv.2, e.1, e.2]
    simp [hv, hk]
  · simp [hv]

/-- The writes of the like handler keep every row of `books` but for the
counters of the voted book. -/
theorem likeWrites_books (db : Database) (u b : Int) :
    List.Forall₂ (KeepsBook b) db.books (likeWrites db u b).books := by
  unfold likeWrites
  rw [insertOrReplace_books]
  by_cases hd : selectAction db u b = some "dislike"
  · rw [if_pos hd]
    simp only [updateLikes, updateDislikes, List.map_map]
    rw [List.forall₂_map_right_iff, List.forall₂_same]
    intro bk _
    by_cases hid : bk.id = b <;> simp [KeepsBook, hid]
  · rw [if_neg hd]
    simp only [updateLikes]
    rw [List.forall₂_map_right_iff, List.forall₂_same]
    intro bk _
    by_cases hid : bk.id = b <;> simp [KeepsBook, hid]

/-- The writes of the dislike handler keep every row of `books` but for the
counters of the voted book. -/
theorem dislikeWrites_books (db : Database) (u b : Int) :
    List.Forall₂ (KeepsBook b) db.books (dislikeWrites db u b).books := by
  unfold dislikeWrites
  rw [insertOrReplace_books]
  by_cases hd : selectAction db u b = some "like"
  · rw [if_pos hd]
    simp only [updateLikes, updateDislikes, List.map_map]
    rw [List.forall₂_map_right_iff, List.forall₂_same]
    intro bk _
    by_cases hid : bk.id = b <;> simp [KeepsBook, hid]
  · rw [if_neg hd]
    simp only [updateDislikes]
    rw [List.forall₂_map_right_iff, List.forall₂_same]
    intro bk _
    by_cases hid : bk.id = b <;> simp [KeepsBook, hid]

/-- Every row of `books` is kept by doing nothing. -/
theorem keepsBook_refl (b : Int) (books : List Book) :
    List.Forall₂ (KeepsBook b) books books := by
  rw [List.forall₂_same]
  intro bk _
  simp [KeepsBook]

/-- The rows of another pair after the writes of the like handler. -/
theorem votesOf_likeWrites_other (db : Database) (u b u2 b2 : Int)
    (hne : (u2, b2) ≠ (u, b)) :
    votesOf (likeWrites db u b) u2 b2 = votesOf db u2 b2 := by
  unfold likeWrites
  rw [votesOf_insertOrReplace_other _ _ _ _ _ _ hne]
  unfold votesOf
  rw [updateLikes_likes]
  split <;> rfl

/-- The rows of another pair after the writes of the dislike handler. -/
theorem votesOf_dislikeWrites_other (db : Database) (u b u2 b2 : Int)
    (hne : (u2, b2) ≠ (u, b)) :
    votesOf (dislikeWrites db u b) u2 b2 = votesOf db u2 b2 := by
  unfold dislikeWrites
  rw [votesOf_insertOrReplace_other _ _ _ _ _ _ hne]
  unfold votesOf
  rw [updateDislikes_likes]
  split <;> rfl

/-- C15. A vote touches one book and one ledger pair only: whatever the
outcome of a like or dislike of a user on a book, every row of `books` keeps
its id and its columns other than likes and dislikes, the rows of every other
book are unchanged altogether, and the ledger rows of every other pair, hence
its ledger entry, are unchanged. -/
theorem castVote_frame (db : Database) (userId bookId : Int) (intent : Intent)
    (io : StorageErrors) :
    List.Forall₂ (KeepsBook bookId) db.books (castVote userId bookId intent io db).db.books ∧
    ∀ u2 b2 : Int, (u2, b2) ≠ (userId, bookId) →
      votesOf (castVote userId bookId intent io db).db u2 b2 = votesOf db u2 b2 ∧
      selectAction (castVote userId bookId intent io db).db u2 b2 = selectAction db u2 b2 := by
  cases intent with
  | like =>
    rw [castVote_like]
    rcases likeHandler_db userId bookId io db with e | ⟨_, e⟩
    · rw [e]
      exact ⟨keepsBook_refl bookId db.books, fun _ _ _ => ⟨rfl, rfl⟩⟩
    · rw [e]
      exact ⟨likeWrites_books db userId bookId, fun u2 b2 hne =>
        ⟨votesOf_likeWrites_other db userId bookId u2 b2 hne,
          selectAction_likeWrites_other db userId bookId u2 b2 hne⟩⟩
  | dislike =>
    rw [castVote_dislike]
    rcases dislikeHandler_db userId bookId io db with e | ⟨_, e⟩
    · rw [e]
      exact ⟨keepsBook_refl bookId db.books, fun _ _ _ => ⟨rfl, rfl⟩⟩
    · rw [e]
      exact ⟨dislikeWrites_books db userId bookId, fun u2 b2 hne =>
        ⟨votesOf_dislikeWrites_other db userId bookId u2 b2 hne,
          selectAction_dislikeWrites_other db userId bookId u2 b2 hne⟩⟩

/-- C15, at a concrete input: user 2 switches to like on book 1 of `votedDb`;
the row of book 2 and the ledger rows of user 1 on book 1 are as before. -/
theorem castVote_frame_witness :
    (2 : Int) ≠ 1 ∧ ((1 : Int), (1 : Int)) ≠ (2, 1) ∧
    List.Forall₂ (KeepsBook 1) votedDb.books
      (castVote 2 1 Intent.like StorageErrors.none votedDb).db.books ∧
    votesOf (castVote 2 1 Intent.like StorageErrors.none votedDb).db 1 1 = votesOf votedDb 1 1 :=
  ⟨by decide, by decide,
    (castVote_frame votedDb 2 1 Intent.like StorageErrors.none).1,
    ((castVote_frame votedDb 2 1 Intent.like StorageErrors.none).2 1 1 (by decide)).1⟩

/-! ## The other write paths on `books` -/

/-- A route guarded by `isAdmin` leaves the database as it was or runs its
handler. -/
theorem adminRoute_cases (handler : Database → Result) (req : Request) (db : Database) :
    (adminRoute handler req db).db = db ∨ adminRoute handler req db = handler db := by
  unfold adminRoute
  cases h : isAdmin req with
  | none => left; rfl
  | some mw =>
    cases mw with
    | next => right; rfl
    | respond res => left; rfl

/-- The UPDATE of the edit-book handler keeps the ledger. -/
theorem updateBook_likes (db : Database) (bookId : Int) (body : EditBookBody) :
    (updateBook db bookId body).likes = db.likes := rfl

/-- The UPDATE of the edit-book handler keeps the id, the likes and the
dislikes of every row. -/
theorem counterColumns_updateBook (db : Database) (bookId : Int) (body : EditBookBody) :
    counterColumns (updateBook db bookId body) = counterColumns db := by
  unfold counterColumns updateBook
  simp only [List.map_map]
  apply List.map_congr_left
  intro bk _
  by_cases hid : bk.id = bookId <;> simp [hid]

/-- The edit-book route keeps the counter columns and the ledger. -/
theorem putBooks_counters (req : Request) (body : EditBookBody) (err : Bool)
    (db : Database) :
    counterColumns (putBooks req body err db).db = counterColumns db ∧
    (putBooks req body err db).db.likes = db.likes := by
  unfold putBooks
  rcases adminRoute_cases (editBookHandler req.paramsId body err) req db with e | e
  · rw [e]
    exact ⟨rfl, rfl⟩
  · rw [e]
    unfold editBookHandler
    by_cases herr : err = true
    · simp [herr]
    · simp [herr, counterColumns_updateBook, updateBook_likes]

/-- The totals the SELECT on `books` returns are read off the counter
columns. -/
theorem selectTotals_of_counterColumns (db db2 : Database)
    (h : counterColumns db2 = counterColumns db) (id : Int) :
    selectTotals db2 id = selectTotals db id := by
  unfold selectTotals
  unfold counterColumns at h
  generalize db.books = l1 at h
  generalize db2.books = l2 at h
  induction l2 generalizing l1 with
  | nil =>
    cases l1 with
    | nil => rfl
    | cons a l => simp at h
  | cons bk2 rest ih =>
    cases l1 with
    | nil => simp at h
    | cons bk1 rest1 =>
      simp only [List.map_cons, List.cons.injEq, Prod.mk.injEq] at h
      obtain ⟨⟨hid, hl, hd⟩, hrest⟩ := h
      by_cases hb : bk1.id = id
      · simp [List.find?_cons, hid, hb, hl, hd]
      · simp [List.find?_cons, hid, hb, ih rest1 hrest]

/-- The add-book route keeps the table or appends one row whose counters
are 0, and keeps the ledger. -/
theorem postAddBook_books (req : Request) (form : AddBookForm) (rowid : Int) (err : Bool)
    (db : Database) :
    ((postAddBook req form rowid err db).db.books = db.books ∨
      ∃ bk : Book, (postAddBook req form rowid err db).db.books = db.books ++ [bk] ∧
        bk.id = rowid ∧ bk.likes = 0 ∧ bk.dislikes = 0) ∧
    (postAddBook req form rowid err db).db.likes = db.likes := by
  unfold postAddBook
  rcases adminRoute_cases (addBookHandler form rowid err) req db with e | e
  · rw [e]
    exact ⟨Or.inl rfl, rfl⟩
  · rw [e]
    unfold addBookHandler
    cases hg : form.genres with
    | none => exact ⟨Or.inl rfl, rfl⟩
    | some genres =>
      simp only
      split
      · exact ⟨Or.inl rfl, rfl⟩
      · split
        · exact ⟨Or.inl rfl, rfl⟩
        · exact ⟨Or.inr ⟨_, rfl, rfl, rfl, rfl⟩, rfl⟩

/-- The delete-book route keeps the table or deletes the rows of one id, and
keeps the ledger. -/
theorem deleteBooks_books (req : Request) (selectErr deleteErr : Bool) (db : Database) :
    ((deleteBooks req selectErr deleteErr db).1 = db ∨
      (deleteBooks req selectErr deleteErr db).1 = deleteBookRows db req.paramsId) := by
  unfold deleteBooks
  cases h : isAdmin req with
  | none => left; rfl
  | some mw =>
    cases mw with
    | respond res => left; rfl
    | next =>
      simp only
      unfold deleteBookHandler
      by_cases hs : selectErr = true
      · simp [hs]
      · cases hf : db.books.find? (fun bk => decide (bk.id = req.paramsId)) with
        | none => simp [hs]
        | some bk =>
          by_cases hc : bk.cover = Option.none ∨ bk.file = Option.none
          · simp [hs, hc]
          · by_cases hd : deleteErr = true
            · simp [hs, hc, hd]
            · simp [hs, hc, hd]

/-- After `DELETE FROM books WHERE id = ?` the books that remain show the
totals they had. -/
theorem selectTotals_deleteBookRows (db : Database) (bookId id : Int) :
    selectTotals (deleteBookRows db bookId) id =
      if id = bookId then none else selectTotals db id := by
  unfold selectTotals deleteBookRows
  simp only
  rw [List.find?_filter]
  by_cases hid : id = bookId
  · rw [if_pos hid]
    have hnone : db.books.find? (fun bk => decide (decide (bk.id ≠ bookId) = true ∧
        decide (bk.id = id) = true)) = none := by
      rw [List.find?_eq_none]
      intro bk _
      simp only [decide_eq_true_eq, ne_eq, not_and]
      intro h1 h2
      exact h1 (h2.trans hid)
    rw [hnone]
    rfl
  · rw [if_neg hid]
    have hfun : (fun bk : Book => decide (decide (bk.id ≠ bookId) = true ∧
        decide (bk.id = id) = true)) = (fun bk : Book => decide (bk.id = id)) := by
      funext bk
      by_cases hb : bk.id = id
      · simp [hb, hid]
      · simp [hb]
    rw [hfun]

/-- A request that edits, adds or deletes a book keeps the ledger, and every
book that existed before it either shows the same likes and dislikes after it
or is gone. -/
theorem catalogStep_counters (db db2 : Database) (step : CatalogStep db db2) :
    db2.likes = db.likes ∧
    ∀ (id : Int) (t : Totals), selectTotals db id = some t →
      selectTotals db2 id = some t ∨ selectTotals db2 id = none := by
  cases step with
  | edit req body err =>
    have h := putBooks_counters req body err db
    refine ⟨h.2, fun id t ht => Or.inl ?_⟩
    rw [selectTotals_of_counterColumns db _ h.1 id, ht]
  | add req form rowid err =>
    have h := postAddBook_books req form rowid err db
    refine ⟨h.2, fun id t ht => Or.inl ?_⟩
    rcases h.1 with e | ⟨bk, e, _⟩
    · unfold selectTotals at ht ⊢
      rw [e]
      exact ht
    · unfold selectTotals at ht ⊢
      rw [e, List.find?_append]
      cases hf : db.books.find? (fun bk => decide (bk.id = id)) with
      | none => simp [hf] at ht
      | some old =>
        rw [hf] at ht
        simpa using ht
  | delete req selectErr deleteErr =>
    rcases deleteBooks_books req selectErr deleteErr db with e | e
    · rw [e]
      exact ⟨rfl, fun id t ht => Or.inl ht⟩
    · rw [e]
      refine ⟨rfl, fun id t ht => ?_⟩
      rw [selectTotals_deleteBookRows]
      by_cases hid : id = req.paramsId
      · right
        rw [if_pos hid]
      · left
        rw [if_neg hid]
        exact ht

/-- C16. Only the vote handlers mutate the aggregates: the edit-book route
leaves the id, likes and dislikes of every row of `books` unchanged for every
request body; the add-book route adds nothing or one book whose likes and
dislikes are 0; and after any request that edits, adds or deletes a book,
every book that existed before shows the same likes and dislikes or is
gone, and the ledger is unchanged. -/
theorem only_votes_change_counters :
    (∀ (req : Request) (body : EditBookBody) (err : Bool) (db : Database),
      counterColumns (putBooks req body err db).db = counterColumns db) ∧
    (∀ (req : Request) (form : AddBookForm) (rowid : Int) (err : Bool) (db : Database),
      (postAddBook req form rowid err db).db.books = db.books ∨
      ∃ bk : Book, (postAddBook req form rowid err db).db.books = db.books ++ [bk] ∧
        bk.id = rowid ∧ bk.likes = 0 ∧ bk.dislikes = 0) ∧
    (∀ db db2 : Database, CatalogStep db db2 →
      db2.likes = db.likes ∧
      ∀ (id : Int) (t : Totals), selectTotals db id = some t →
        selectTotals db2 id = some t ∨ selectTotals db2 id = none) :=
  ⟨fun req body err db => (putBooks_counters req body err db).1,
    fun req form rowid err db => (postAddBook_books req form rowid err db).1,
    catalogStep_counters⟩

/-- C16, at concrete inputs: an admin edits book 1 of `votedDb` (likes 1,
dislikes 1) and an admin adds a book that gets id 3. -/
theorem only_votes_change_counters_witness :
    counterColumns (putBooks adminRequest sampleEdit false votedDb).db =
      [(1, 1, 1), (2, 0, 0)] ∧
    (putBooks adminRequest sampleEdit false votedDb).response.status = 200 ∧
    selectTotals (postAddBook adminRequest sampleForm 3 false votedDb).db 3 =
      some { likes := 0, dislikes := 0 } ∧
    (selectTotals (putBooks adminRequest sampleEdit false votedDb).db 1 =
        some { likes := 1, dislikes := 1 } ∨
      selectTotals (putBooks adminRequest sampleEdit false votedDb).db 1 = none) :=
  ⟨(only_votes_change_counters.1 adminRequest sampleEdit false votedDb).trans (by decide),
    by decide, by decide,
    (only_votes_change_counters.2.2 votedDb _
      (CatalogStep.edit adminRequest sampleEdit false votedDb)).2 1
      { likes := 1, dislikes := 1 } (by decide)⟩

/-! ## Counters stay non-negative -/

/-- In an initial state counters and ledger agree. -/
theorem initial_consistent (db : Database) (h : Initial db) : Consistent db := by
  intro bk hbk
  obtain ⟨hl, hz⟩ := h
  have hcount : ∀ a, countVotes db bk.id a = 0 := by
    intro a
    unfold countVotes
    rw [hl]
    rfl
  rw [hcount, hcount]
  simpa using hz bk hbk

/-- One vote step keeps counters and ledger in agreement. -/
theorem voteStep_consistent (db db2 : Database) (s : VoteStep db db2) (h : Consistent db) :
    Consistent db2 := by
  cases s with
  | vote u b intent io =>
    cases intent with
    | like =>
      rw [castVote_like]
      rcases likeHandler_db u b io db with e | ⟨hrow, e⟩
      · rw [e]
        exact h
      · rw [e]
        exact consistent_like_writes db u b h hrow
    | dislike =>
      rw [castVote_dislike]
      rcases dislikeHandler_db u b io db with e | ⟨hrow, e⟩
      · rw [e]
        exact h
      · rw [e]
        exact consistent_dislike_writes db u b h hrow

/-- Counters are never negative while the statements of every request run in
program order: in every state reached from an initial state (empty ledger,
every book at likes 0 and dislikes 0) by any finite sequence of such like and
dislike requests of any users on any books, whatever the three callbacks
receive, every book has likes and dislikes at least 0. -/
theorem counters_never_negative (db0 db : Database) (h0 : Initial db0)
    (hsteps : Relation.ReflTransGen VoteStep db0 db) :
    ∀ bk ∈ db.books, 0 ≤ bk.likes ∧ 0 ≤ bk.dislikes := by
  have hcons : Consistent db := by
    induction hsteps with
    | refl => exact initial_consistent db0 h0
    | tail _ s ih => exact voteStep_consistent _ _ s ih
  intro bk hbk
  obtain ⟨hl, hd⟩ := hcons bk hbk
  rw [hl, hd]
  exact ⟨Int.natCast_nonneg _, Int.natCast_nonneg _⟩

/-- Counters in program order, at a concrete input: from the fresh database
user 1 likes book 1 and
then switches to dislike. -/
theorem counters_never_negative_witness :
    (Initial freshDb ∧
      Relation.ReflTransGen VoteStep freshDb
        (castVote 1 1 Intent.dislike StorageErrors.none
          (castVote 1 1 Intent.like StorageErrors.none freshDb).db).db) ∧
    ∀ bk ∈ (castVote 1 1 Intent.dislike StorageErrors.none
        (castVote 1 1 Intent.like StorageErrors.none freshDb).db).db.books,
      0 ≤ bk.likes ∧ 0 ≤ bk.dislikes :=
  have hsteps : Relation.ReflTransGen VoteStep freshDb
      (castVote 1 1 Intent.dislike StorageErrors.none
        (castVote 1 1 Intent.like StorageErrors.none freshDb).db).db :=
    Relation.ReflTransGen.tail
      (Relation.ReflTransGen.single
        (VoteStep.vote 1 1 Intent.like StorageErrors.none freshDb))
      (VoteStep.vote 1 1 Intent.dislike StorageErrors.none _)
  ⟨⟨by decide, hsteps⟩, counters_never_negative freshDb _ (by decide) hsteps⟩

/-! ## The admin middleware -/

/-- C18. The middleware `isAdmin` calls `next()` if and only if
`req.isAuthenticated()` is true and the role of `req.user` is admin; in every
other case it answers 403 with the body `Only admin can perform this action.`,
neither calling `next()` nor throwing, in particular for an unauthenticated
request whose `req.user` is null.  Requests are those passport delivers:
`req.user` is set whenever `req.isAuthenticated()` is true. -/
theorem isAdmin_guard (req : Request) (hpassport : CarriesUser req) :
    (isAdmin req = some Middleware.next ↔ IsAdminRequest req) ∧
    (¬ IsAdminRequest req →
      isAdmin req = some (Middleware.respond
        { status := 403, body := Body.text "Only admin can perform this action." })) ∧
    (req.isAuthenticated = false → req.user = Option.none →
      isAdmin req = some (Middleware.respond
        { status := 403, body := Body.text "Only admin can perform this action." })) := by
  unfold isAdmin IsAdminRequest
  unfold CarriesUser at hpassport
  by_cases hauth : req.isAuthenticated = true
  · cases huser : req.user with
    | none => exact absurd huser (hpassport hauth)
    | some user =>
      by_cases hrole : user.role = "admin"
      · simp [hauth, hrole]
      · simp [hauth, hrole]
  · simp [hauth]

/-- C18, at concrete inputs: an admin passes, a visitor without `req.user` is
answered 403. -/
theorem isAdmin_guard_witness :
    (CarriesUser adminRequest ∧ isAdmin adminRequest = some Middleware.next) ∧
    (CarriesUser anonymousRequest ∧ anonymousRequest.isAuthenticated = false ∧
      anonymousRequest.user = Option.none ∧
      isAdmin anonymousRequest = some (Middleware.respond
        { status := 403, body := Body.text "Only admin can perform this action." })) :=
  ⟨⟨by decide, (isAdmin_guard adminRequest (by decide)).1.2 ⟨rfl, _, rfl, rfl⟩⟩,
    by decide, rfl, rfl, (isAdmin_guard anonymousRequest (by decide)).2.2 rfl rfl⟩

/-- C19. For every authenticated request (with its user), `isSeedAdmin` calls
`next()`, setting no status, if and only if the username of `req.user` is the
seed admin username `admin`; for any other username it answers 403 with the
body `Only the seeded admin can perform this action.` and does not call
`next()`. -/
theorem isSeedAdmin_authenticated (req : Request) (user : User)
    (hauth : req.isAuthenticated = true) (huser : req.user = some user) :
    seedAdminUsername = "admin" ∧
    (isSeedAdmin req = some Middleware.next ↔ user.username = "admin") ∧
    (user.username ≠ "admin" →
      isSeedAdmin req = some (Middleware.respond
        { status := 403,
          body := Body.text "Only the seeded admin can perform this action." })) := by
  unfold isSeedAdmin seedAdminUsername
  by_cases hname : user.username = "admin"
  · simp [hauth, huser, hname]
  · simp [hauth, huser, hname]

/-- C19, at concrete inputs: the seeded admin passes, another admin is
answered 403. -/
theorem isSeedAdmin_authenticated_witness :
    isSeedAdmin seedAdminRequest = some Middleware.next ∧
    isSeedAdmin adminRequest = some (Middleware.respond
      { status := 403, body := Body.text "Only the seeded admin can perform this action." }) :=
  ⟨(isSeedAdmin_authenticated seedAdminRequest
      { id := 1, username := "admin", role := "admin" } rfl rfl).2.1.2 rfl,
    (isSeedAdmin_authenticated adminRequest
      { id := 2, username := "librarian", role := "admin" } rfl rfl).2.2 (by decide)⟩

/-- C20, at the failing input: a request that is not authenticated is answered
by `isSeedAdmin` of server.js with 403 and the body `Only the seeded admin can
perform this action.`, not with 401 and `Authentication required.`. -/
theorem isSeedAdmin_unauthenticated :
    anonymousRequest.isAuthenticated = false ∧
    isSeedAdmin anonymousRequest = some (Middleware.respond
      { status := 403, body := Body.text "Only the seeded admin can perform this action." }) ∧
    isSeedAdmin anonymousRequest ≠ some (Middleware.respond
      { status := 401, body := Body.text "Authentication required." }) := by
  decide

/-! ## Votes on a book id without a row -/

/-- Without a row of the id in `books`, the UPDATE of likes changes
nothing. -/
theorem updateLikes_of_no_book (db : Database) (delta b : Int)
    (h : ∀ bk ∈ db.books, bk.id ≠ b) : (updateLikes db delta b).books = db.books := by
  unfold updateLikes
  simp only
  conv_rhs => rw [← List.map_id db.books]
  apply List.map_congr_left
  intro bk hbk
  simp [h bk hbk]

/-- Without a row of the id in `books`, the UPDATE of dislikes changes
nothing. -/
theorem updateDislikes_of_no_book (db : Database) (delta b : Int)
    (h : ∀ bk ∈ db.books, bk.id ≠ b) : (updateDislikes db delta b).books = db.books := by
  unfold updateDislikes
  simp only
  conv_rhs => rw [← List.map_id db.books]
  apply List.map_congr_left
  intro bk hbk
  simp [h bk hbk]

/-- Without a row of the id in `books`, the SELECT on `books` returns
nothing. -/
theorem selectTotals_of_no_book (db : Database) (b : Int)
    (h : ∀ bk ∈ db.books, bk.id ≠ b) : selectTotals db b = none := by
  unfold selectTotals
  rw [Option.map_eq_none', List.find?_eq_none]
  intro bk hbk
  simpa using h bk hbk

/-- C27. A vote on a book id that has no row in `books` is still recorded:
for a user with no prior vote on such an id and no storage error, the like
handler leaves every row of `books` as it was, appends the ledger row
(user, id, like), and answers 200 with a JSON body that carries no likes and
no dislikes; a repeat of the same vote is answered 400. -/
theorem like_on_missing_book (db : Database) (userId bookId : Int)
    (io io2 : StorageErrors) (hio : NoStorageError io) (hio2 : NoStorageError io2)
    (hbook : ∀ bk ∈ db.books, bk.id ≠ bookId) (hnew : ¬ HasVote db userId bookId) :
    (likeHandler userId bookId io db).db.books = db.books ∧
    (likeHandler userId bookId io db).db.likes =
      db.likes ++ [{ userId := userId, bookId := bookId, action := "like" }] ∧
    (likeHandler userId bookId io db).response =
      { status := 200, body := Body.json Option.none } ∧
    (likeHandler userId bookId io2 (likeHandler userId bookId io db).db).response.status =
      400 := by
  have hsel : selectAction db userId bookId = none :=
    (selectAction_eq_none_iff db userId bookId).2 hnew
  have hnd : selectAction db userId bookId ≠ some Intent.like.action := by
    rw [hsel]
    simp
  have hdb : (likeHandler userId bookId io db).db = likeWrites db userId bookId := by
    have h := castVote_db userId bookId Intent.like io db hio
    rw [if_neg hnd] at h
    exact h
  have hbooks : (likeWrites db userId bookId).books = db.books := by
    unfold likeWrites
    rw [insertOrReplace_books, if_neg (by rw [hsel]; simp)]
    exact updateLikes_of_no_book db 1 bookId hbook
  have hlikes : (likeWrites db userId bookId).likes =
      db.likes ++ [{ userId := userId, bookId := bookId, action := "like" }] := by
    unfold likeWrites
    rw [insertOrReplace_likes, updateLikes_likes, if_neg (by rw [hsel]; simp),
      insertOrReplaceRows]
    unfold selectAction at hsel
    rw [Option.map_eq_none'] at hsel
    rw [filter_key_of_find_none _ _ _ hsel]
  have hresp := castVote_response userId bookId Intent.like io db hio hnd
  rw [castVote_like, hdb] at hresp
  have htot : selectTotals (likeWrites db userId bookId) bookId = none :=
    selectTotals_of_no_book _ bookId (by rw [hbooks]; exact hbook)
  rw [htot] at hresp
  refine ⟨by rw [hdb, hbooks], by rw [hdb, hlikes], hresp, ?_⟩
  have hrep := castVote_status userId bookId Intent.like io2
    (likeHandler userId bookId io db).db hio2
  rw [castVote_like] at hrep
  rw [hrep, if_pos]
  have := selectAction_castVote_same userId bookId Intent.like io db hio
  rw [castVote_like] at this
  exact this

/-- C27, at a concrete input: user 1 likes the book id 7, which has no row in
`votedDb`. -/
theorem like_on_missing_book_witness :
    (NoStorageError StorageErrors.none ∧ (∀ bk ∈ votedDb.books, bk.id ≠ 7) ∧
      ¬ HasVote votedDb 1 7) ∧
    (likeHandler 1 7 StorageErrors.none votedDb).db.books = votedDb.books ∧
    (likeHandler 1 7 StorageErrors.none votedDb).db.likes =
      votedDb.likes ++ [{ userId := 1, bookId := 7, action := "like" }] ∧
    (likeHandler 1 7 StorageErrors.none votedDb).response =
      { status := 200, body := Body.json Option.none } ∧
    (likeHandler 1 7 StorageErrors.none
      (likeHandler 1 7 StorageErrors.none votedDb).db).response.status = 400 :=
  ⟨by decide,
    like_on_missing_book votedDb 1 7 StorageErrors.none StorageErrors.none
      (by decide) (by decide) (by decide) (by decide)⟩

/-! ## Algebra of votes -/

/-- Moving the counters of two books commutes. -/
theorem bumpBook_comm (b1 x1 y1 b2 x2 y2 : Int) (bk : Book) :
    bumpBook b1 x1 y1 (bumpBook b2 x2 y2 bk) = bumpBook b2 x2 y2 (bumpBook b1 x1 y1 bk) := by
  rcases bk with ⟨id, title, author, description, genres, cover, file, summary, likes, dislikes⟩
  by_cases h1 : id = b1
  · by_cases h2 : id = b2
    · subst h1
      subst h2
      simp [bumpBook, add_right_comm]
    · subst h1
      simp [bumpBook, h2]
  · by_cases h2 : id = b2
    · subst h2
      simp [bumpBook, h1]
    · simp [bumpBook, h1, h2]

/-- Moving the counters of a book twice adds the moves. -/
theorem bumpBook_bumpBook (b x1 y1 x2 y2 : Int) (bk : Book) :
    bumpBook b x2 y2 (bumpBook b x1 y1 bk) = bumpBook b (x1 + x2) (y1 + y2) bk := by
  rcases bk with ⟨id, title, author, description, genres, cover, file, summary, likes, dislikes⟩
  by_cases h1 : id = b
  · subst h1
    simp [bumpBook, add_assoc]
  · simp [bumpBook, h1]

/-- Moving the counters by nothing keeps the row. -/
theorem bumpBook_zero (b : Int) (bk : Book) : bumpBook b 0 0 bk = bk := by
  rcases bk with ⟨id, title, author, description, genres, cover, file, summary, likes, dislikes⟩
  unfold bumpBook
  by_cases h1 : id = b <;> simp [h1]

/-- The rows of `books` after the writes of the like handler. -/
theorem likeWrites_books_eq (db : Database) (u b : Int) :
    (likeWrites db u b).books =
      db.books.map (bumpBook b 1 (if selectAction db u b = some "dislike" then -1 else 0)) := by
  unfold likeWrites
  rw [insertOrReplace_books]
  by_cases hd : selectAction db u b = some "dislike"
  · rw [if_pos hd, if_pos hd]
    simp only [updateLikes, updateDislikes, List.map_map]
    apply List.map_congr_left
    intro bk _
    unfold bumpBook
    by_cases hid : bk.id = b <;> simp [hid]
  · rw [if_neg hd, if_neg hd]
    simp only [updateLikes]
    apply List.map_congr_left
    intro bk _
    unfold bumpBook
    by_cases hid : bk.id = b <;> simp [hid]

/-- The rows of `books` after the writes of the dislike handler. -/
theorem dislikeWrites_books_eq (db : Database) (u b : Int) :
    (dislikeWrites db u b).books =
      db.books.map (bumpBook b (if selectAction db u b = some "like" then -1 else 0) 1) := by
  unfold dislikeWrites
  rw [insertOrReplace_books]
  by_cases hd : selectAction db u b = some "like"
  · rw [if_pos hd, if_pos hd]
    simp only [updateLikes, updateDislikes, List.map_map]
    apply List.map_congr_left
    intro bk _
    unfold bumpBook
    by_cases hid : bk.id = b <;> simp [hid]
  · rw [if_neg hd, if_neg hd]
    simp only [updateDislikes]
    apply List.map_congr_left
    intro bk _
    unfold bumpBook
    by_cases hid : bk.id = b <;> simp [hid]

/-- The ledger after the writes of the like handler. -/
theorem likeWrites_likes_eq (db : Database) (u b : Int) :
    (likeWrites db u b).likes = insertOrReplaceRows db.likes u b "like" := by
  unfold likeWrites
  rw [insertOrReplace_likes, updateLikes_likes]
  split <;> rfl

/-- The ledger after the writes of the dislike handler. -/
theorem dislikeWrites_likes_eq (db : Database) (u b : Int) :
    (dislikeWrites db u b).likes = insertOrReplaceRows db.likes u b "dislike" := by
  unfold dislikeWrites
  rw [insertOrReplace_likes, updateDislikes_likes]
  split <;> rfl

/-- The rows of `books` after a vote that met no storage error: the counters
of the voted book moved by the delta table. -/
theorem castVote_books_eq (u b : Int) (intent : Intent) (io : StorageErrors) (db : Database)
    (h : NoStorageError io) :
    (castVote u b intent io db).db.books =
      db.books.map (bumpBook b (voteDeltas (selectAction db u b) intent).1
        (voteDeltas (selectAction db u b) intent).2) := by
  rw [castVote_db u b intent io db h]
  unfold voteDeltas
  by_cases hdup : selectAction db u b = some intent.action
  · rw [if_pos hdup, if_pos hdup]
    conv_lhs => rw [← List.map_id db.books]
    apply List.map_congr_left
    intro bk _
    simp [bumpBook_zero]
  · rw [if_neg hdup, if_neg hdup]
    cases intent
    · exact likeWrites_books_eq db u b
    · exact dislikeWrites_books_eq db u b

/-- The ledger after a vote that met no storage error. -/
theorem castVote_likes_eq (u b : Int) (intent : Intent) (io : StorageErrors) (db : Database)
    (h : NoStorageError io) :
    (castVote u b intent io db).db.likes =
      if selectAction db u b = some intent.action then db.likes
      else insertOrReplaceRows db.likes u b intent.action := by
  rw [castVote_db u b intent io db h]
  by_cases hdup : selectAction db u b = some intent.action
  · rw [if_pos hdup, if_pos hdup]
  · rw [if_neg hdup, if_neg hdup]
    cases intent
    · exact likeWrites_likes_eq db u b
    · exact dislikeWrites_likes_eq db u b

/-- A vote does not change what the SELECT of another pair returns. -/
theorem selectAction_castVote_other (u b : Int) (intent : Intent) (io : StorageErrors)
    (db : Database) (u2 b2 : Int) (hne : (u2, b2) ≠ (u, b)) :
    selectAction (castVote u b intent io db).db u2 b2 = selectAction db u2 b2 := by
  cases intent with
  | like =>
    rw [castVote_like]
    rcases likeHandler_db u b io db with e | ⟨_, e⟩
    · rw [e]
    · rw [e]
      exact selectAction_likeWrites_other db u b u2 b2 hne
  | dislike =>
    rw [castVote_dislike]
    rcases dislikeHandler_db u b io db with e | ⟨_, e⟩
    · rw [e]
    · rw [e]
      exact selectAction_dislikeWrites_other db u b u2 b2 hne

/-- Two states whose ledgers hold the same rows give the same answer to every
SELECT on the ledger. -/
theorem selectAction_of_perm (db1 db2 : Database) (h : db1.likes.Perm db2.likes)
    (u b : Int) : selectAction db1 u b = selectAction db2 u b := by
  apply Option.ext
  intro a
  simp only [Option.mem_def]
  rw [selectAction_eq_some_iff, selectAction_eq_some_iff]
  constructor
  · rintro ⟨v, hv, hrest⟩
    exact ⟨v, h.mem_iff.1 hv, hrest⟩
  · rintro ⟨v, hv, hrest⟩
    exact ⟨v, h.mem_iff.2 hv, hrest⟩

/-- INSERT OR REPLACE of two different pairs gives the same rows in either
order. -/
theorem insertOrReplaceRows_comm (rows : List Vote) (u1 b1 : Int) (a1 : String)
    (u2 b2 : Int) (a2 : String) (hne : (u1, b1) ≠ (u2, b2)) :
    (insertOrReplaceRows (insertOrReplaceRows rows u1 b1 a1) u2 b2 a2).Perm
      (insertOrReplaceRows (insertOrReplaceRows rows u2 b2 a2) u1 b1 a1) := by
  unfold insertOrReplaceRows
  have h12 : List.filter (fun v : Vote => decide (v.key ≠ (u2, b2)))
      [({ userId := u1, bookId := b1, action := a1 } : Vote)] =
      [{ userId := u1, bookId := b1, action := a1 }] := by
    simp [Vote.key]
    rw [← not_and_or]
    rintro ⟨e1, e2⟩
    exact hne (by rw [e1, e2])
  have h21 : List.filter (fun v : Vote => decide (v.key ≠ (u1, b1)))
      [({ userId := u2, bookId := b2, action := a2 } : Vote)] =
      [{ userId := u2, bookId := b2, action := a2 }] := by
    simp [Vote.key]
    rw [← not_and_or]
    rintro ⟨e1, e2⟩
    exact hne (by rw [e1, e2])
  rw [List.filter_append, List.filter_append, h12, h21, List.append_assoc, List.append_assoc,
    List.filter_comm]
  exact List.Perm.append_left _ (List.Perm.swap _ _ [])

/-- A second INSERT OR REPLACE of the same pair overrides the first. -/
theorem insertOrReplaceRows_twice (rows : List Vote) (u b : Int) (a1 a2 : String) :
    insertOrReplaceRows (insertOrReplaceRows rows u b a1) u b a2 =
      insertOrReplaceRows rows u b a2 := by
  unfold insertOrReplaceRows
  rw [List.filter_append, List.filter_filter]
  have hnew : List.filter (fun v : Vote => decide (v.key ≠ (u, b)))
      [({ userId := u, bookId := b, action := a1 } : Vote)] = [] := by
    simp [Vote.key]
  rw [hnew, List.append_nil]
  congr 1
  apply List.filter_congr
  intro v _
  simp

/-- The rows of a pair whose SELECT returns an action are that one row. -/
theorem votesOf_of_selectAction (db : Database) (u b : Int) (a : String)
    (h : selectAction db u b = some a) :
    votesOf db u b = [{ userId := u, bookId := b, action := a }] := by
  obtain ⟨v, hv, hu, hb, ha⟩ := (selectAction_eq_some_iff db u b a).1 h
  have hmem : v ∈ votesOf db u b := by
    unfold votesOf
    rw [List.mem_filter]
    exact ⟨hv, by simp [hu, hb]⟩
  have hlen := votesOf_length_le_one db u b
  have hv2 : v = { userId := u, bookId := b, action := a } := by
    rcases v with ⟨vu, vb, va⟩
    simp only at hu hb ha
    rw [hu, hb, ha]
  cases hl : votesOf db u b with
  | nil => rw [hl] at hmem; cases hmem
  | cons x rest =>
    rw [hl] at hmem hlen
    cases rest with
    | nil =>
      rw [List.mem_singleton] at hmem
      rw [← hmem, hv2]
    | cons y rest2 => simp at hlen

/-- INSERT OR REPLACE of the action a pair already has keeps the rows of the
ledger, up to their order. -/
theorem insertOrReplaceRows_of_selectAction (db : Database) (u b : Int) (a : String)
    (h : selectAction db u b = some a) :
    (insertOrReplaceRows db.likes u b a).Perm db.likes := by
  unfold insertOrReplaceRows
  have hsplit := List.filter_append_perm (fun v : Vote => decide (v.key ≠ (u, b))) db.likes
  have hrest : db.likes.filter (fun v => !decide (v.key ≠ (u, b))) = votesOf db u b := by
    unfold votesOf
    apply List.filter_congr
    intro v _
    by_cases hv : v.userId = u ∧ v.bookId = b
    · simp [Vote.key, hv]
    · simp only [Vote.key, ne_eq, Prod.mk.injEq, hv, not_false_eq_true, decide_True,
        Bool.not_true, decide_False]
  rw [hrest, votesOf_of_selectAction db u b a h] at hsplit
  exact hsplit

/-- The deltas of a switch away and of the switch back cancel. -/
theorem voteDeltas_round_trip (intent : Intent) :
    (voteDeltas (some intent.action) intent.opposite).1 +
        (voteDeltas (some intent.opposite.action) intent).1 = 0 ∧
    (voteDeltas (some intent.action) intent.opposite).2 +
        (voteDeltas (some intent.opposite.action) intent).2 = 0 := by
  cases intent <;> decide

/-- A switch to the other action followed by the switch back: both votes are
accepted, every row of `books` is as it was and the ledger holds the rows it
held. -/
theorem round_trip (db : Database) (u b : Int) (intent : Intent) (io1 io2 : StorageErrors)
    (h1 : NoStorageError io1) (h2 : NoStorageError io2)
    (hrow : selectAction db u b = some intent.action) :
    (castVote u b intent.opposite io1 db).response.status = 200 ∧
    (castVote u b intent io2 (castVote u b intent.opposite io1 db).db).response.status = 200 ∧
    (castVote u b intent io2 (castVote u b intent.opposite io1 db).db).db.books = db.books ∧
    (castVote u b intent io2 (castVote u b intent.opposite io1 db).db).db.likes.Perm
      db.likes := by
  have hopp : intent.opposite.action ≠ intent.action := by cases intent <;> decide
  have hnd1 : selectAction db u b ≠ some intent.opposite.action := by
    rw [hrow]
    intro e
    exact hopp (Option.some.inj e).symm
  have hsel1 := selectAction_castVote_same u b intent.opposite io1 db h1
  have hnd2 : selectAction (castVote u b intent.opposite io1 db).db u b ≠
      some intent.action := by
    rw [hsel1]
    intro e
    exact hopp (Option.some.inj e)
  refine ⟨?_, ?_, ?_, ?_⟩
  · rw [castVote_status _ _ _ _ _ h1, if_neg hnd1]
  · rw [castVote_status _ _ _ _ _ h2, if_neg hnd2]
  · rw [castVote_books_eq _ _ _ _ _ h2, castVote_books_eq _ _ _ _ _ h1, hsel1, hrow,
      List.map_map]
    conv_rhs => rw [← List.map_id db.books]
    apply List.map_congr_left
    intro bk _
    have hz := voteDeltas_round_trip intent
    simp only [Function.comp, id]
    rw [bumpBook_bumpBook, hz.1, hz.2, bumpBook_zero]
  · rw [castVote_likes_eq _ _ _ _ _ h2, if_neg hnd2, castVote_likes_eq _ _ _ _ _ h1,
      if_neg hnd1, insertOrReplaceRows_twice]
    exact insertOrReplaceRows_of_selectAction db u b intent.action hrow

/-- C25. Switching away and back is a round trip: when the ledger entry of a
user for a book is like, a dislike by the user followed by a like by the user
(no storage error) are both answered 200, and afterwards every row of `books`,
hence the likes and dislikes of every book, is as it was, the ledger holds the
rows it held and the ledger entry of every pair is the original one;
symmetrically when the entry is dislike. -/
theorem switch_round_trip (db : Database) (userId bookId : Int) (io1 io2 : StorageErrors)
    (h1 : NoStorageError io1) (h2 : NoStorageError io2) :
    (selectAction db userId bookId = some "like" →
      (castVote userId bookId Intent.dislike io1 db).response.status = 200 ∧
      (castVote userId bookId Intent.like io2
        (castVote userId bookId Intent.dislike io1 db).db).response.status = 200 ∧
      (castVote userId bookId Intent.like io2
        (castVote userId bookId Intent.dislike io1 db).db).db.books = db.books ∧
      (castVote userId bookId Intent.like io2
        (castVote userId bookId Intent.dislike io1 db).db).db.likes.Perm db.likes ∧
      ∀ u2 b2 : Int, selectAction (castVote userId bookId Intent.like io2
        (castVote userId bookId Intent.dislike io1 db).db).db u2 b2 = selectAction db u2 b2) ∧
    (selectAction db userId bookId = some "dislike" →
      (castVote userId bookId Intent.like io1 db).response.status = 200 ∧
      (castVote userId bookId Intent.dislike io2
        (castVote userId bookId Intent.like io1 db).db).response.status = 200 ∧
      (castVote userId bookId Intent.dislike io2
        (castVote userId bookId Intent.like io1 db).db).db.books = db.books ∧
      (castVote userId bookId Intent.dislike io2
        (castVote userId bookId Intent.like io1 db).db).db.likes.Perm db.likes ∧
      ∀ u2 b2 : Int, selectAction (castVote userId bookId Intent.dislike io2
        (castVote userId bookId Intent.like io1 db).db).db u2 b2 = selectAction db u2 b2) := by
  constructor
  · intro hrow
    have h := round_trip db userId bookId Intent.like io1 io2 h1 h2 hrow
    exact ⟨h.1, h.2.1, h.2.2.1, h.2.2.2, selectAction_of_perm _ _ h.2.2.2⟩
  · intro hrow
    have h := round_trip db userId bookId Intent.dislike io1 io2 h1 h2 hrow
    exact ⟨h.1, h.2.1, h.2.2.1, h.2.2.2, selectAction_of_perm _ _ h.2.2.2⟩

/-- C25, at a concrete input: in `votedDb` user 1 likes book 1, switches to
dislike and back. -/
theorem switch_round_trip_witness :
    (NoStorageError StorageErrors.none ∧ selectAction votedDb 1 1 = some "like") ∧
    (castVote 1 1 Intent.dislike StorageErrors.none votedDb).response.status = 200 ∧
    (castVote 1 1 Intent.like StorageErrors.none
      (castVote 1 1 Intent.dislike StorageErrors.none votedDb).db).response.status = 200 ∧
    (castVote 1 1 Intent.like StorageErrors.none
      (castVote 1 1 Intent.dislike StorageErrors.none votedDb).db).db.books = votedDb.books :=
  have h := (switch_round_trip votedDb 1 1 StorageErrors.none StorageErrors.none
    (by decide) (by decide)).1 (by decide)
  ⟨by decide, h.1, h.2.1, h.2.2.1⟩

/-- The status of the answer depends on the state only through the ledger
entry of the voter. -/
theorem castVote_status_congr (u b : Int) (intent : Intent) (io : StorageErrors)
    (db db2 : Database) (h : selectAction db2 u b = selectAction db u b) :
    (castVote u b intent io db2).response.status =
      (castVote u b intent io db).response.status := by
  cases intent
  · simp only [castVote, likeHandler, h]
    split_ifs <;> first | rfl | (cases io.commit <;> rfl)
  · simp only [castVote, dislikeHandler, h]
    split_ifs <;> first | rfl | (cases io.commit <;> rfl)

/-- A vote whose first SELECT fails, or whose COMMIT fails with the
transaction rolled back, leaves every state as it is. -/
theorem castVote_db_of_kept (u b : Int) (intent : Intent) (io : StorageErrors)
    (h : io.selectVote = true ∨ io.commit = CommitOutcome.failedRolledBack) (db : Database) :
    (castVote u b intent io db).db = db := by
  cases intent
  · simp only [castVote, likeHandler]
    rcases h with h | h
    · simp [h]
    · rw [h]
      split_ifs <;> rfl
  · simp only [castVote, dislikeHandler]
    rcases h with h | h
    · simp [h]
    · rw [h]
      split_ifs <;> rfl

/-- Any other vote leaves the state that the vote without storage error
leaves. -/
theorem castVote_db_of_written (u b : Int) (intent : Intent) (io : StorageErrors)
    (h : ¬ (io.selectVote = true ∨ io.commit = CommitOutcome.failedRolledBack))
    (db : Database) :
    (castVote u b intent io db).db = (castVote u b intent StorageErrors.none db).db := by
  rw [not_or] at h
  obtain ⟨h1, h2⟩ := h
  have h1f : io.selectVote = false := by simpa using h1
  cases intent
  · simp only [castVote, likeHandler, h1f, StorageErrors.none]
    cases hc : io.commit with
    | failedRolledBack => exact absurd hc h2
    | failedOpen => split_ifs <;> rfl
    | ok => split_ifs <;> rfl
  · simp only [castVote, dislikeHandler, h1f, StorageErrors.none]
    cases hc : io.commit with
    | failedRolledBack => exact absurd hc h2
    | failedOpen => split_ifs <;> rfl
    | ok => split_ifs <;> rfl

/-- Two votes of different pairs that meet no storage error leave the same
rows of `books` and the same ledger rows in either order. -/
theorem votes_commute_rows (db : Database) (u1 b1 : Int) (i1 : Intent) (u2 b2 : Int)
    (i2 : Intent) (io1 io2 : StorageErrors) (h1 : NoStorageError io1)
    (h2 : NoStorageError io2) (hne : (u1, b1) ≠ (u2, b2)) :
    (castVote u2 b2 i2 io2 (castVote u1 b1 i1 io1 db).db).db.books =
      (castVote u1 b1 i1 io1 (castVote u2 b2 i2 io2 db).db).db.books ∧
    (castVote u2 b2 i2 io2 (castVote u1 b1 i1 io1 db).db).db.likes.Perm
      (castVote u1 b1 i1 io1 (castVote u2 b2 i2 io2 db).db).db.likes := by
  have hs1 : selectAction (castVote u2 b2 i2 io2 db).db u1 b1 = selectAction db u1 b1 :=
    selectAction_castVote_other u2 b2 i2 io2 db u1 b1 hne
  have hs2 : selectAction (castVote u1 b1 i1 io1 db).db u2 b2 = selectAction db u2 b2 :=
    selectAction_castVote_other u1 b1 i1 io1 db u2 b2 (fun e => hne e.symm)
  have hperm : (castVote u2 b2 i2 io2 (castVote u1 b1 i1 io1 db).db).db.likes.Perm
      (castVote u1 b1 i1 io1 (castVote u2 b2 i2 io2 db).db).db.likes := by
    have e12 : (castVote u2 b2 i2 io2 (castVote u1 b1 i1 io1 db).db).db.likes =
        if selectAction db u2 b2 = some i2.action then
          (if selectAction db u1 b1 = some i1.action then db.likes
            else insertOrReplaceRows db.likes u1 b1 i1.action)
        else insertOrReplaceRows
          (if selectAction db u1 b1 = some i1.action then db.likes
            else insertOrReplaceRows db.likes u1 b1 i1.action) u2 b2 i2.action := by
      rw [castVote_likes_eq u2 b2 i2 io2 _ h2, hs2, castVote_likes_eq u1 b1 i1 io1 db h1]
    have e21 : (castVote u1 b1 i1 io1 (castVote u2 b2 i2 io2 db).db).db.likes =
        if selectAction db u1 b1 = some i1.action then
          (if selectAction db u2 b2 = some i2.action then db.likes
            else insertOrReplaceRows db.likes u2 b2 i2.action)
        else insertOrReplaceRows
          (if selectAction db u2 b2 = some i2.action then db.likes
            else insertOrReplaceRows db.likes u2 b2 i2.action) u1 b1 i1.action := by
      rw [castVote_likes_eq u1 b1 i1 io1 _ h1, hs1, castVote_likes_eq u2 b2 i2 io2 db h2]
    rw [e12, e21]
    by_cases hd1 : selectAction db u1 b1 = some i1.action <;>
      by_cases hd2 : selectAction db u2 b2 = some i2.action
    · simp only [hd1, hd2, if_true]
      exact List.Perm.refl _
    · simp only [hd1, hd2, if_true, if_false]
      exact List.Perm.refl _
    · simp only [hd1, hd2, if_true, if_false]
      exact List.Perm.refl _
    · simp only [hd1, hd2, if_false]
      exact insertOrReplaceRows_comm db.likes u1 b1 i1.action u2 b2 i2.action hne
  refine ⟨?_, hperm⟩
  rw [castVote_books_eq u2 b2 i2 io2 _ h2, hs2, castVote_books_eq u1 b1 i1 io1 db h1,
    castVote_books_eq u1 b1 i1 io1 _ h1, hs1, castVote_books_eq u2 b2 i2 io2 db h2,
    List.map_map, List.map_map]
  apply List.map_congr_left
  intro bk _
  simp only [Function.comp]
  exact bumpBook_comm _ _ _ _ _ _ bk

theorem noStorageError_none : NoStorageError StorageErrors.none := by
  decide

/-- C26. Sequential votes of different pairs commute: for every state, two
vote requests on different (user, book) pairs and every outcome of their
storage callbacks, each request gets the same status whether it runs first or
second, and the two orders end with the same rows of `books` (the same likes
and dislikes for every book), the same ledger rows and the same ledger entry
for every pair. -/
theorem votes_commute (db : Database) (u1 b1 : Int) (i1 : Intent) (u2 b2 : Int)
    (i2 : Intent) (io1 io2 : StorageErrors) (hne : (u1, b1) ≠ (u2, b2)) :
    (castVote u1 b1 i1 io1 (castVote u2 b2 i2 io2 db).db).response.status =
      (castVote u1 b1 i1 io1 db).response.status ∧
    (castVote u2 b2 i2 io2 (castVote u1 b1 i1 io1 db).db).response.status =
      (castVote u2 b2 i2 io2 db).response.status ∧
    (castVote u2 b2 i2 io2 (castVote u1 b1 i1 io1 db).db).db.books =
      (castVote u1 b1 i1 io1 (castVote u2 b2 i2 io2 db).db).db.books ∧
    (castVote u2 b2 i2 io2 (castVote u1 b1 i1 io1 db).db).db.likes.Perm
      (castVote u1 b1 i1 io1 (castVote u2 b2 i2 io2 db).db).db.likes ∧
    ∀ u b : Int,
      selectAction (castVote u2 b2 i2 io2 (castVote u1 b1 i1 io1 db).db).db u b =
        selectAction (castVote u1 b1 i1 io1 (castVote u2 b2 i2 io2 db).db).db u b := by
  have hs1 : selectAction (castVote u2 b2 i2 io2 db).db u1 b1 = selectAction db u1 b1 :=
    selectAction_castVote_other u2 b2 i2 io2 db u1 b1 hne
  have hs2 : selectAction (castVote u1 b1 i1 io1 db).db u2 b2 = selectAction db u2 b2 :=
    selectAction_castVote_other u1 b1 i1 io1 db u2 b2 (fun e => hne e.symm)
  have hrows : (castVote u2 b2 i2 io2 (castVote u1 b1 i1 io1 db).db).db.books =
        (castVote u1 b1 i1 io1 (castVote u2 b2 i2 io2 db).db).db.books ∧
      (castVote u2 b2 i2 io2 (castVote u1 b1 i1 io1 db).db).db.likes.Perm
        (castVote u1 b1 i1 io1 (castVote u2 b2 i2 io2 db).db).db.likes := by
    by_cases k1 : io1.selectVote = true ∨ io1.commit = CommitOutcome.failedRolledBack
    · rw [castVote_db_of_kept u1 b1 i1 io1 k1, castVote_db_of_kept u1 b1 i1 io1 k1]
      exact ⟨rfl, List.Perm.refl _⟩
    · by_cases k2 : io2.selectVote = true ∨ io2.commit = CommitOutcome.failedRolledBack
      · rw [castVote_db_of_kept u2 b2 i2 io2 k2, castVote_db_of_kept u2 b2 i2 io2 k2]
        exact ⟨rfl, List.Perm.refl _⟩
      · rw [castVote_db_of_written u2 b2 i2 io2 k2, castVote_db_of_written u1 b1 i1 io1 k1,
          castVote_db_of_written u1 b1 i1 io1 k1, castVote_db_of_written u2 b2 i2 io2 k2]
        exact votes_commute_rows db u1 b1 i1 u2 b2 i2 StorageErrors.none StorageErrors.none
          noStorageError_none noStorageError_none hne
  exact ⟨castVote_status_congr u1 b1 i1 io1 db _ hs1, castVote_status_congr u2 b2 i2 io2 db _ hs2,
    hrows.1, hrows.2, fun u b => selectAction_of_perm _ _ hrows.2 u b⟩

/-- C26, at a concrete input: on the fresh book 1, user 1 likes and user 2
dislikes. -/
theorem votes_commute_witness :
    ((1 : Int), (1 : Int)) ≠ (2, 1) ∧
    (castVote 2 1 Intent.dislike StorageErrors.none
      (castVote 1 1 Intent.like StorageErrors.none freshDb).db).db.books =
      (castVote 1 1 Intent.like StorageErrors.none
        (castVote 2 1 Intent.dislike StorageErrors.none freshDb).db).db.books ∧
    (castVote 2 1 Intent.dislike StorageErrors.none
      (castVote 1 1 Intent.like StorageErrors.none freshDb).db).db.likes.Perm
      (castVote 1 1 Intent.like StorageErrors.none
        (castVote 2 1 Intent.dislike StorageErrors.none freshDb).db).db.likes :=
  have h := votes_commute freshDb 1 1 Intent.like 2 1 Intent.dislike StorageErrors.none
    StorageErrors.none (by decide)
  ⟨by decide, h.2.2.1, h.2.2.2.1⟩

/-! ## The dislike handler as the mirror image of the like handler -/

/-- Two states with the same rows in both tables are the same state. -/
theorem Database.ext_rows (db1 db2 : Database) (hb : db1.books = db2.books)
    (hl : db1.likes = db2.likes) : db1 = db2 := by
  rcases db1 with ⟨b1, l1, p1⟩
  rcases db2 with ⟨b2, l2, p2⟩
  simp only at hb hl
  subst hb
  subst hl
  rfl

theorem swapAction_like : swapAction "like" = "dislike" := by decide

theorem swapAction_dislike : swapAction "dislike" = "like" := by decide

/-- Exchanging the actions twice gives the action back. -/
theorem swapAction_swapAction (a : String) : swapAction (swapAction a) = a := by
  unfold swapAction
  by_cases h1 : a = "like"
  · simp [h1]
  · by_cases h2 : a = "dislike"
    · simp [h2]
    · simp [h1, h2]

theorem swapAction_eq_like_iff (a : String) : swapAction a = "like" ↔ a = "dislike" := by
  constructor
  · intro h
    have := congrArg swapAction h
    rw [swapAction_swapAction, swapAction_like] at this
    exact this
  · intro h
    rw [h, swapAction_dislike]

theorem swapAction_eq_dislike_iff (a : String) : swapAction a = "dislike" ↔ a = "like" := by
  constructor
  · intro h
    have := congrArg swapAction h
    rw [swapAction_swapAction, swapAction_dislike] at this
    exact this
  · intro h
    rw [h, swapAction_like]

/-- The mirror image of the mirror image is the state itself. -/
theorem swapDb_swapDb (db : Database) : swapDb (swapDb db) = db := by
  apply Database.ext_rows
  · simp only [swapDb, List.map_map]
    conv_rhs => rw [← List.map_id db.books]
    apply List.map_congr_left
    intro bk _
    rfl
  · simp only [swapDb, List.map_map]
    conv_rhs => rw [← List.map_id db.likes]
    apply List.map_congr_left
    intro v _
    simp [swapVote, swapAction_swapAction]

/-- The SELECT on the mirrored ledger returns the exchanged action. -/
theorem selectAction_swapDb (db : Database) (u b : Int) :
    selectAction (swapDb db) u b = (selectAction db u b).map swapAction := by
  unfold selectAction swapDb
  simp only
  generalize db.likes = rows
  induction rows with
  | nil => rfl
  | cons v rest ih =>
    by_cases hv : v.userId = u ∧ v.bookId = b
    · simp [List.find?_cons, swapVote, hv]
    · simp only [List.map_cons, List.find?_cons, swapVote, hv, decide_False]
      exact ih

/-- The SELECT on the mirrored `books` returns the exchanged totals. -/
theorem selectTotals_swapDb (db : Database) (b : Int) :
    selectTotals (swapDb db) b = (selectTotals db b).map swapTotals := by
  unfold selectTotals swapDb
  simp only
  rw [find_bookId_map swapBook (fun _ => rfl)]
  cases db.books.find? (fun bk => decide (bk.id = b)) <;> rfl

/-- The UPDATE of likes on the mirrored state is the mirror image of the
UPDATE of dislikes. -/
theorem updateLikes_swapDb (db : Database) (delta b : Int) :
    updateLikes (swapDb db) delta b = swapDb (updateDislikes db delta b) := by
  apply Database.ext_rows
  · simp only [updateLikes, updateDislikes, swapDb, List.map_map]
    apply List.map_congr_left
    intro bk _
    by_cases hid : bk.id = b <;> simp [swapBook, hid]
  · rfl

/-- The UPDATE of dislikes on the mirrored state is the mirror image of the
UPDATE of likes. -/
theorem updateDislikes_swapDb (db : Database) (delta b : Int) :
    updateDislikes (swapDb db) delta b = swapDb (updateLikes db delta b) := by
  apply Database.ext_rows
  · simp only [updateLikes, updateDislikes, swapDb, List.map_map]
    apply List.map_congr_left
    intro bk _
    by_cases hid : bk.id = b <;> simp [swapBook, hid]
  · rfl

/-- INSERT OR REPLACE on the mirrored state is the mirror image of INSERT OR
REPLACE with the exchanged action. -/
theorem insertOrReplace_swapDb (db : Database) (u b : Int) (a : String) :
    insertOrReplace (swapDb db) u b a = swapDb (insertOrReplace db u b (swapAction a)) := by
  apply Database.ext_rows
  · rfl
  · simp only [insertOrReplace_likes, swapDb, insertOrReplaceRows, List.map_append,
      List.map_cons, List.map_nil, swapVote, swapAction_swapAction]
    congr 1
    rw [List.filter_map]
    rfl

/-- Exchanging the totals twice gives the totals back. -/
theorem swapTotals_comp : swapTotals ∘ swapTotals = id := by
  funext t
  rfl

/-- C24. The dislike handler is the mirror image of the like handler: for
every state, user, book and storage outcome, running the dislike handler on
the state gives the mirror image of what the like handler gives on the mirror
image of the state, where mirroring exchanges the likes and dislikes of every
book, the actions like and dislike of every ledger row, the two fields of the
returned totals and the texts of the two handlers, and keeps the status. -/
theorem dislike_mirrors_like (db : Database) (userId bookId : Int) (io : StorageErrors) :
    dislikeHandler userId bookId io db =
      swapResult (likeHandler userId bookId io (swapDb db)) := by
  have hsel := selectAction_swapDb db userId bookId
  unfold dislikeHandler likeHandler
  by_cases h1 : io.selectVote = true
  · simp [h1, swapResult, swapDb_swapDb, swapResponse, swapBody, swapMessage]
  · by_cases h2 : selectAction db userId bookId = some "dislike"
    · have h2s : selectAction (swapDb db) userId bookId = some "like" := by
        rw [hsel, h2]
        rfl
      simp [h1, h2, h2s, swapResult, swapDb_swapDb, swapResponse, swapBody, swapMessage]
    · have h2s : selectAction (swapDb db) userId bookId ≠ some "like" := by
        rw [hsel]
        intro e
        rw [Option.map_eq_some'] at e
        obtain ⟨a, ha, hswap⟩ := e
        rw [swapAction_eq_like_iff] at hswap
        exact h2 (by rw [ha, hswap])
      by_cases h3 : selectAction db userId bookId = some "like"
      · have h3s : selectAction (swapDb db) userId bookId = some "dislike" := by
          rw [hsel, h3]
          rfl
        cases hc : io.commit <;> by_cases h4 : io.selectBook = true <;>
          simp [h1, h2, h3, h2s, h3s, hc, h4, swapResult, swapDb_swapDb, swapResponse,
            swapBody, swapMessage, updateLikes_swapDb, updateDislikes_swapDb,
            insertOrReplace_swapDb, swapAction_like, selectTotals_swapDb, swapTotals_comp]
      · have h3s : selectAction (swapDb db) userId bookId ≠ some "dislike" := by
          rw [hsel]
          intro e
          rw [Option.map_eq_some'] at e
          obtain ⟨a, ha, hswap⟩ := e
          rw [swapAction_eq_dislike_iff] at hswap
          exact h3 (by rw [ha, hswap])
        cases hc : io.commit <;> by_cases h4 : io.selectBook = true <;>
          simp [h1, h2, h3, h2s, h3s, hc, h4, swapResult, swapDb_swapDb, swapResponse,
            swapBody, swapMessage, updateLikes_swapDb, updateDislikes_swapDb,
            insertOrReplace_swapDb, swapAction_like, selectTotals_swapDb, swapTotals_comp]

/-! ## The chatbot -/

theorem roundHalfEven_le (k : ℚ) : (roundHalfEven k : ℚ) ≤ k + 1 / 2 := by
  have hf := Int.floor_le k
  unfold roundHalfEven
  split_ifs with h1 h2 h3
  · linarith
  · push_cast
    linarith
  · linarith
  · push_cast
    have : k - (Int.floor k : ℚ) = 1 / 2 := le_antisymm (not_lt.1 h2) (not_lt.1 h1)
    linarith

theorem roundHalfEven_intCast (n : ℤ) : roundHalfEven (n : ℚ) = n := by
  simp [roundHalfEven]

theorem ulp_pos (q : ℚ) : 0 < ulp q := by
  unfold ulp
  positivity


theorem log_eq_of_bounds (q : ℚ) (e : ℤ) (hq : 0 < q) (h1 : (2 : ℚ) ^ e ≤ q)
    (h2 : q < (2 : ℚ) ^ (e + 1)) : Int.log 2 q = e := by
  have hb : 1 < 2 := by norm_num
  have a : e ≤ Int.log 2 q := (Int.zpow_le_iff_le_log hb hq).1 (by exact_mod_cast h1)
  have b : Int.log 2 q < e + 1 := (Int.lt_zpow_iff_log_lt hb hq).1 (by exact_mod_cast h2)
  omega

/-- Rounding to a double moves a positive value up by at most half a unit in
the last place. -/
theorem toDouble_le (q : ℚ) : toDouble q ≤ q + ulp q / 2 := by
  have hu := ulp_pos q
  have h := roundHalfEven_le (q / ulp q)
  unfold toDouble
  calc (roundHalfEven (q / ulp q) : ℚ) * ulp q ≤ (q / ulp q + 1 / 2) * ulp q :=
        mul_le_mul_of_nonneg_right h hu.le
    _ = q + ulp q / 2 := by
        field_simp
        ring

/-- Half a unit in the last place of a positive value is at most the value
times 2^-53, or 2^-1075 for a subnormal one. -/
theorem ulp_half_le (q : ℚ) (hq : 0 < q) :
    ulp q / 2 ≤ q * (2 : ℚ) ^ (-53 : ℤ) ∨ ulp q / 2 = (2 : ℚ) ^ (-1075 : ℤ) := by
  have hlog : ((2 : ℕ) : ℚ) ^ Int.log 2 q ≤ q := Int.zpow_log_le_self (by norm_num) hq
  have h2 : ((2 : ℕ) : ℚ) = 2 := by norm_num
  rw [h2] at hlog
  unfold ulp
  by_cases he : -1022 ≤ Int.log 2 q
  · left
    rw [max_eq_left he]
    have : (2 : ℚ) ^ (Int.log 2 q - 52) / 2 = (2 : ℚ) ^ Int.log 2 q * (2 : ℚ) ^ (-53 : ℤ) := by
      rw [← zpow_add₀ (by norm_num : (2 : ℚ) ≠ 0), div_eq_iff (by norm_num : (2 : ℚ) ≠ 0)]
      nth_rewrite 3 [← zpow_one (2 : ℚ)]
      rw [← zpow_add₀ (by norm_num : (2 : ℚ) ≠ 0)]
      congr 1
      ring
    rw [this]
    exact mul_le_mul_of_nonneg_right hlog (by positivity)
  · right
    rw [max_eq_right (by omega)]
    rw [div_eq_iff (by norm_num : (2 : ℚ) ≠ 0)]
    nth_rewrite 3 [← zpow_one (2 : ℚ)]
    rw [← zpow_add₀ (by norm_num : (2 : ℚ) ≠ 0)]
    norm_num

/-- A double below 1 is at most 1 - 2^-53. -/
theorem isDouble_le (r : ℚ) (hd : IsDouble r) (h1 : r < 1) :
    r ≤ 1 - (2 : ℚ) ^ (-53 : ℤ) := by
  by_cases hhalf : r < 1 / 2
  · have h53 : (2 : ℚ) ^ (-53 : ℤ) ≤ 1 / 2 := by norm_num
    generalize (2 : ℚ) ^ (-53 : ℤ) = e at h53 ⊢
    linarith
  · have hr : 0 < r := by linarith
    have hlog : Int.log 2 r = -1 := by
      apply log_eq_of_bounds r (-1) hr
      · norm_num
        linarith
      · norm_num
        exact h1
    have hulp : ulp r = (2 : ℚ) ^ (-53 : ℤ) := by
      unfold ulp
      rw [hlog]
      norm_num
    unfold IsDouble toDouble at hd
    rw [hulp] at hd
    have hj : ((roundHalfEven (r / (2 : ℚ) ^ (-53 : ℤ)) : ℤ) : ℚ) < ((2 ^ 53 : ℤ) : ℚ) := by
      have hpos : (0 : ℚ) < (2 : ℚ) ^ (-53 : ℤ) := by positivity
      have : (roundHalfEven (r / (2 : ℚ) ^ (-53 : ℤ)) : ℚ) * (2 : ℚ) ^ (-53 : ℤ) <
          ((2 ^ 53 : ℤ) : ℚ) * (2 : ℚ) ^ (-53 : ℤ) := by
        rw [hd]
        have : ((2 ^ 53 : ℤ) : ℚ) * (2 : ℚ) ^ (-53 : ℤ) = 1 := by norm_num
        rw [this]
        exact h1
      exact lt_of_mul_lt_mul_right this hpos.le
    have hj2 : roundHalfEven (r / (2 : ℚ) ^ (-53 : ℤ)) ≤ 2 ^ 53 - 1 := by
      have : roundHalfEven (r / (2 : ℚ) ^ (-53 : ℤ)) < 2 ^ 53 := by exact_mod_cast hj
      omega
    have hj3 : (roundHalfEven (r / (2 : ℚ) ^ (-53 : ℤ)) : ℚ) ≤ 2 ^ 53 - 1 := by
      exact_mod_cast hj2
    rw [← hd]
    have hpos : (0 : ℚ) < (2 : ℚ) ^ (-53 : ℤ) := by positivity
    calc (roundHalfEven (r / (2 : ℚ) ^ (-53 : ℤ)) : ℚ) * (2 : ℚ) ^ (-53 : ℤ)
        ≤ (2 ^ 53 - 1) * (2 : ℚ) ^ (-53 : ℤ) := mul_le_mul_of_nonneg_right hj3 hpos.le
      _ = 1 - (2 : ℚ) ^ (-53 : ℤ) := by norm_num

theorem toDouble_zero : toDouble 0 = 0 := by
  simp [toDouble, roundHalfEven]

/-- For a draw in [0, 1) of the Number type the index
`Math.floor(r * length)`, computed in the Number type, is inside a list of
that length. -/
theorem randomIndex_lt (n : Nat) (r : ℚ) (hd : IsDouble r) (h0 : 0 ≤ r) (h1 : r < 1)
    (hn : 0 < n) : randomIndex n r < n := by
  have hn1 : (1 : ℚ) ≤ (n : ℚ) := by exact_mod_cast hn
  have hlt : toDouble (r * (n : ℚ)) < (n : ℚ) := by
    rcases eq_or_lt_of_le h0 with hz | hpos
    · rw [← hz, zero_mul, toDouble_zero]
      linarith
    · have hp : 0 < r * (n : ℚ) := by positivity
      have hr := isDouble_le r hd h1
      have hle := toDouble_le (r * (n : ℚ))
      have hprod : r * (n : ℚ) ≤ (1 - (2 : ℚ) ^ (-53 : ℤ)) * (n : ℚ) :=
        mul_le_mul_of_nonneg_right hr (by linarith)
      have e53 : (0 : ℚ) < (2 : ℚ) ^ (-53 : ℤ) := by positivity
      have hsmall : (2 : ℚ) ^ (-1075 : ℤ) < (2 : ℚ) ^ (-53 : ℤ) :=
        zpow_lt_zpow_right₀ (by norm_num) (by norm_num)
      rcases ulp_half_le (r * (n : ℚ)) hp with h | h
      · generalize (2 : ℚ) ^ (-53 : ℤ) = e at h hprod e53
        have hstep : r * (n : ℚ) * (1 + e) ≤ (1 - e) * (n : ℚ) * (1 + e) :=
          mul_le_mul_of_nonneg_right hprod (by linarith)
        have hring : (1 - e) * (n : ℚ) * (1 + e) = (n : ℚ) - (n : ℚ) * e * e := by ring
        have hsq : 0 < (n : ℚ) * e * e := by positivity
        linarith
      · rw [h] at hle
        generalize (2 : ℚ) ^ (-53 : ℤ) = e at hprod e53 hsmall
        generalize (2 : ℚ) ^ (-1075 : ℤ) = d at hle hsmall
        have hen : e ≤ e * (n : ℚ) := le_mul_of_one_le_right e53.le hn1
        linarith
  unfold randomIndex
  have hfl : Int.floor (toDouble (r * (n : ℚ))) < (n : ℤ) := by
    rw [Int.floor_lt]
    exact_mod_cast hlt
  omega

theorem oneThird_isDouble : IsDouble oneThird := by
  have hlog : Int.log 2 oneThird = -2 := by
    apply log_eq_of_bounds _ _ (by norm_num [oneThird]) <;> norm_num [oneThird]
  unfold IsDouble toDouble ulp
  rw [hlog]
  have : oneThird / (2 : ℚ) ^ (max (-2 : ℤ) (-1022) - 52) = ((6004799503160661 : ℤ) : ℚ) := by
    norm_num [oneThird]
  rw [this, roundHalfEven_intCast]
  norm_num [oneThird]

theorem randomIndex_oneThird : randomIndex 3 oneThird = 1 := by
  have hlog : Int.log 2 (oneThird * ((3 : ℕ) : ℚ)) = -1 := by
    apply log_eq_of_bounds _ _ (by norm_num [oneThird]) <;> norm_num [oneThird]
  have hk : oneThird * ((3 : ℕ) : ℚ) / (2 : ℚ) ^ (max (-1 : ℤ) (-1022) - 52) =
      9007199254740991 + 1 / 2 := by
    norm_num [oneThird]
  have hround : roundHalfEven (9007199254740991 + 1 / 2) = 9007199254740992 := by
    have hfloor : Int.floor ((9007199254740991 : ℚ) + 1 / 2) = 9007199254740991 := by
      rw [Int.floor_eq_iff]
      constructor <;> norm_num
    unfold roundHalfEven
    rw [hfloor]
    norm_num
  unfold randomIndex toDouble ulp
  rw [hlog, hk, hround]
  norm_num

/-- For a draw in [0, 1) the element picked from a non-empty list exists and
belongs to the list. -/
theorem pick_mem (list : List String) (r : ℚ) (hd : IsDouble r) (h0 : 0 ≤ r) (h1 : r < 1)
    (hne : 0 < list.length) :
    ∃ x, pick list r = some x ∧ x ∈ list := by
  have hlt := randomIndex_lt list.length r hd h0 h1 hne
  refine ⟨list[randomIndex list.length r], ?_, List.getElem_mem hlt⟩
  unfold pick
  exact List.getElem?_eq_getElem hlt

/-- The draw 0 picks the first element. -/
theorem pick_zero (list : List String) : pick list 0 = list[0]? := by
  simp [pick, randomIndex, toDouble, roundHalfEven]

/-- What `getSmartResponse` returns, by the first category whose pattern
matches. -/
theorem getSmartResponse_eq_find (toLowerCase : String → String) (message : String) (r : ℚ) :
    getSmartResponse toLowerCase message r =
      (categories.find? (fun c => c.1.test (jsTrim (toLowerCase message)))).bind
        (fun c => pick c.2 r) := by
  unfold getSmartResponse categories
  simp only [List.find?_cons, List.find?_nil]
  by_cases h1 : greetingPattern.test (jsTrim (toLowerCase message)) = true
  · simp [h1]
  · by_cases h2 : recommendationPattern.test (jsTrim (toLowerCase message)) = true
    · simp [h1, h2]
    · by_cases h3 : searchPattern.test (jsTrim (toLowerCase message)) = true
      · simp [h1, h2, h3]
      · by_cases h4 : downloadPattern.test (jsTrim (toLowerCase message)) = true
        · simp [h1, h2, h3, h4]
        · by_cases h5 : genrePattern.test (jsTrim (toLowerCase message)) = true
          · simp [h1, h2, h3, h4, h5]
          · by_cases h6 : helpPattern.test (jsTrim (toLowerCase message)) = true
            · simp [h1, h2, h3, h4, h5, h6]
            · simp [h1, h2, h3, h4, h5, h6]

/-- Every category has at least one response. -/
theorem categories_nonempty : ∀ c ∈ categories, 0 < c.2.length := by
  decide

/-- C21. With the draw r explicit, a value of the Number type in [0, 1),
`getSmartResponse` returns null if and only if none of the six patterns
matches the lower-cased, trimmed message; otherwise the category it answers
from is the first one, in the order greeting, recommendation, search,
download, genres, help, whose pattern matches: the index computed in the
Number type is inside the response list of that category and the result is
the element of the list at that index.  The greeting pattern is the one
tested at the start of the message only. -/
theorem getSmartResponse_spec (toLowerCase : String → String) (message : String) (r : ℚ)
    (hd : IsDouble r) (h0 : 0 ≤ r) (h1 : r < 1) :
    (getSmartResponse toLowerCase message r = none ↔
      ∀ c ∈ categories, c.1.test (jsTrim (toLowerCase message)) = false) ∧
    (∀ c : Pattern × List String,
      categories.find? (fun c => c.1.test (jsTrim (toLowerCase message))) = some c →
      randomIndex c.2.length r < c.2.length ∧
      getSmartResponse toLowerCase message r = c.2[randomIndex c.2.length r]? ∧
      ∃ reply ∈ c.2, getSmartResponse toLowerCase message r = some reply) ∧
    categories.map (fun c => c.1) =
      [greetingPattern, recommendationPattern, searchPattern, downloadPattern,
        genrePattern, helpPattern] ∧
    categories.map (fun c => c.1.anchored) = [true, false, false, false, false, false] := by
  have hfind := getSmartResponse_eq_find toLowerCase message r
  refine ⟨?_, ?_, rfl, rfl⟩
  · rw [hfind]
    constructor
    · intro hnone
      cases hf : categories.find? (fun c => c.1.test (jsTrim (toLowerCase message))) with
      | none =>
        intro c hc
        have := List.find?_eq_none.1 hf c hc
        simpa using this
      | some c =>
        rw [hf] at hnone
        have hc := List.mem_of_find?_eq_some hf
        obtain ⟨x, hx, _⟩ := pick_mem c.2 r hd h0 h1 (categories_nonempty c hc)
        simp [hx] at hnone
    · intro hall
      have hf : categories.find? (fun c => c.1.test (jsTrim (toLowerCase message))) = none := by
        rw [List.find?_eq_none]
        intro c hc
        simp [hall c hc]
      rw [hf]
      rfl
  · intro c hc
    have hmem := List.mem_of_find?_eq_some hc
    have hlt := randomIndex_lt c.2.length r hd h0 h1 (categories_nonempty c hmem)
    have hres : getSmartResponse toLowerCase message r = c.2[randomIndex c.2.length r]? := by
      rw [hfind, hc]
      rfl
    refine ⟨hlt, hres, c.2[randomIndex c.2.length r], List.getElem_mem hlt, ?_⟩
    rw [hres]
    exact List.getElem?_eq_getElem hlt

/-- C21, at concrete inputs: the message `Hello` with the draw
0.3333333333333333 is answered from the greeting list, the first category
whose pattern matches, with its second element: the product of the draw and
the length 3 is 1 in the Number type. -/
theorem getSmartResponse_spec_witness :
    (IsDouble oneThird ∧ (0 : ℚ) ≤ oneThird ∧ oneThird < 1) ∧
    categories.find? (fun c => c.1.test (jsTrim (asciiLower "Hello"))) =
      some (greetingPattern, libraryResponses.greeting) ∧
    getSmartResponse asciiLower "Hello" oneThird =
      some "Hi there! Welcome to Des2 Library. What kind of books interest you?" :=
  have hfind : categories.find? (fun c => c.1.test (jsTrim (asciiLower "Hello"))) =
      some (greetingPattern, libraryResponses.greeting) := by decide
  have h0 : (0 : ℚ) ≤ oneThird := by norm_num [oneThird]
  have h1 : oneThird < 1 := by norm_num [oneThird]
  have hidx : randomIndex (greetingPattern, libraryResponses.greeting).2.length oneThird = 1 :=
    randomIndex_oneThird
  ⟨⟨oneThird_isDouble, h0, h1⟩, hfind,
    ((getSmartResponse_spec asciiLower "Hello" oneThird oneThird_isDouble h0 h1).2.1 _
      hfind).2.1.trans (by rw [hidx]; rfl)⟩

/-- A string has length 0 exactly when it is empty. -/
theorem jsLength_eq_zero_iff (s : String) : jsLength s = 0 ↔ s = "" := by
  rcases s with ⟨cs⟩
  unfold jsLength
  cases cs with
  | nil => simp
  | cons c rest =>
    simp only [List.map_cons, List.sum_cons]
    constructor
    · intro h
      split at h <;> omega
    · intro h
      exact absurd (congrArg String.data h) (by simp)

/-- The first test of the chat handler fails exactly for the messages that are
empty after trimming. -/
theorem invalid_iff_trim_empty (s : String) :
    (s = "" ∨ jsLength (jsTrim s) = 0) ↔ jsTrim s = "" := by
  rw [jsLength_eq_zero_iff]
  constructor
  · rintro (h | h)
    · rw [h]
      decide
    · exact h
  · intro h
    exact Or.inr h

/-- Every fallback response is a non-empty text. -/
theorem fallbackResponses_nonempty : ∀ x ∈ fallbackResponses, x ≠ "" := by
  decide

/-- For a draw in [0, 1) the fallback answer is 200 with a non-empty
reply. -/
theorem fallbackResult_reply (env : ChatEnv) (aiCalled : Bool) (h0 : 0 ≤ env.random)
    (h1 : env.random < 1) :
    (fallbackResult env aiCalled).status = 200 ∧
    ∃ reply, (fallbackResult env aiCalled).reply = some reply ∧ reply ≠ "" := by
  obtain ⟨x, hx, hmem⟩ := pick_mem fallbackResponses env.random env.randomIsNumber h0 h1
    (by decide)
  exact ⟨rfl, x, hx, fallbackResponses_nonempty x hmem⟩

/-- A truthy value of `getSmartResponse` is a non-empty text. -/
theorem isTruthy_iff (value : Option String) :
    isTruthy value = true ↔ ∃ reply, value = some reply ∧ reply ≠ "" := by
  cases value with
  | none => simp [isTruthy]
  | some text => simp [isTruthy]

/-- Every message that passes the first test is answered 200 with a non-empty
reply. -/
theorem postChat_valid_reply (env : ChatEnv) (s : String) (h0 : 0 ≤ env.random)
    (h1 : env.random < 1) (hvalid : jsTrim s ≠ "") :
    (postChat env (MessageField.text s)).status = 200 ∧
    ∃ reply, (postChat env (MessageField.text s)).reply = some reply ∧ reply ≠ "" := by
  have hcond : ¬ (s = "" ∨ jsLength (jsTrim s) = 0) := by
    rw [invalid_iff_trim_empty]
    exact hvalid
  unfold postChat
  simp only [hcond, if_false]
  by_cases hlong : jsLength s > 500
  · simp [hlong]
  · simp only [hlong, if_false]
    by_cases hsmart : isTruthy (getSmartResponse env.toLowerCase s env.random) = true
    · simp only [hsmart, if_true]
      exact ⟨by first | rfl | trivial, (isTruthy_iff _).1 hsmart⟩
    · simp only [hsmart, Bool.false_eq_true, if_false]
      by_cases hkey : env.apiKeySet = true
      · simp only [hkey, Bool.not_true, Bool.false_eq_true, if_false]
        cases hgen : env.generated with
        | none => exact fallbackResult_reply env true h0 h1
        | some generated =>
          simp only
          by_cases hlen : jsLength (cleanReply generated) > 10
          · simp only [hlen, if_true]
            refine ⟨by first | rfl | trivial, _, rfl, ?_⟩
            intro hempty
            rw [hempty] at hlen
            revert hlen
            decide
          · simp only [hlen, if_false]
            exact fallbackResult_reply env true h0 h1
      · simp only [hkey, Bool.not_false, if_true]
        exact fallbackResult_reply env false h0 h1

/-- C22. `POST /chat` answers with status 400, and then with the reply
`Please send a valid message.`, if and only if `req.body.message` is missing,
is not a string, or is empty after trimming white space; every other message
is answered with status 200 and a non-empty text as reply (the draw of
`Math.random()` being in [0, 1)). -/
theorem postChat_validation (env : ChatEnv) (message : MessageField)
    (h0 : 0 ≤ env.random) (h1 : env.random < 1) :
    ((postChat env message).status = 400 ↔
      message = MessageField.missing ∨ message = MessageField.notString ∨
        ∃ s, message = MessageField.text s ∧ jsTrim s = "") ∧
    ((postChat env message).status = 400 →
      (postChat env message).reply = some "Please send a valid message.") ∧
    (¬ (message = MessageField.missing ∨ message = MessageField.notString ∨
        ∃ s, message = MessageField.text s ∧ jsTrim s = "") →
      (postChat env message).status = 200 ∧
      ∃ reply, (postChat env message).reply = some reply ∧ reply ≠ "") := by
  cases message with
  | missing => simp [postChat]
  | notString => simp [postChat]
  | text s =>
    by_cases hvalid : jsTrim s = ""
    · have hcond : s = "" ∨ jsLength (jsTrim s) = 0 := (invalid_iff_trim_empty s).2 hvalid
      have hres : postChat env (MessageField.text s) =
          { status := 400, reply := some "Please send a valid message.", matched := false,
            aiCalled := false } := by
        unfold postChat
        simp only [hcond, if_true]
      rw [hres]
      exact ⟨⟨fun _ => Or.inr (Or.inr ⟨s, rfl, hvalid⟩), fun _ => rfl⟩, fun _ => rfl,
        fun hn => absurd (Or.inr (Or.inr ⟨s, rfl, hvalid⟩)) hn⟩
    · have h := postChat_valid_reply env s h0 h1 hvalid
      refine ⟨?_, ?_, fun _ => h⟩
      · simp [h.1, hvalid]
      · intro h400
        rw [h.1] at h400
        exact absurd h400 (by decide)

/-- C22, at concrete inputs: a message of blanks is answered 400, the message
`zzz` is answered 200 with a non-empty reply. -/
theorem postChat_validation_witness :
    ((0 : ℚ) ≤ sampleEnv.random ∧ sampleEnv.random < 1) ∧
    (postChat sampleEnv (MessageField.text "   ")).status = 400 ∧
    ((postChat sampleEnv (MessageField.text "zzz")).status = 200 ∧
      ∃ reply, (postChat sampleEnv (MessageField.text "zzz")).reply = some reply ∧
        reply ≠ "") :=
  have hr : (0 : ℚ) ≤ sampleEnv.random ∧ sampleEnv.random < 1 := by
    simp [sampleEnv]
  ⟨hr,
    (postChat_validation sampleEnv (MessageField.text "   ") hr.1 hr.2).1.2
      (Or.inr (Or.inr ⟨"   ", rfl, by decide⟩)),
    (postChat_validation sampleEnv (MessageField.text "zzz") hr.1 hr.2).2.2 (by
      rintro (h | h | ⟨s, hs, htrim⟩)
      · cases h
      · cases h
      · cases hs
        revert htrim
        decide)⟩

/-- The length test of the chat handler: a valid message is passed to
`getSmartResponse` exactly when its length is at most 500; a longer one gets
the too-long reply and reaches neither the patterns nor the AI service. -/
theorem postChat_length_guard (env : ChatEnv) (s : String) (hvalid : jsTrim s ≠ "") :
    ((postChat env (MessageField.text s)).matched = true ↔ jsLength s ≤ 500) ∧
    (500 < jsLength s →
      postChat env (MessageField.text s) =
        { status := 200
          reply := some "Your message is too long. Please keep it under 500 characters."
          matched := false, aiCalled := false }) := by
  have hcond : ¬ (s = "" ∨ jsLength (jsTrim s) = 0) := by
    rw [invalid_iff_trim_empty]
    exact hvalid
  unfold postChat
  simp only [hcond, if_false]
  by_cases hlong : jsLength s > 500
  · have hle : ¬ jsLength s ≤ 500 := by omega
    simp [hlong, hle]
  · have hle : jsLength s ≤ 500 := by omega
    simp only [hlong, if_false, hle, iff_true]
    refine ⟨?_, fun h => False.elim h⟩
    by_cases hsmart : isTruthy (getSmartResponse env.toLowerCase s env.random) = true
    · simp [hsmart]
    · by_cases hkey : env.apiKeySet = true
      · cases hgen : env.generated with
        | none => simp [hsmart, hkey, fallbackResult]
        | some generated =>
          by_cases hlen : jsLength (cleanReply generated) > 10
          · simp [hsmart, hkey, hlen]
          · simp [hsmart, hkey, hlen, fallbackResult]
      · simp [hsmart, hkey, fallbackResult]

set_option maxRecDepth 100000 in
/-- The 500-character sample message is valid, has length 500 and starts
with a greeting. -/
theorem message500_facts :
    jsLength message500 = 500 ∧ jsTrim message500 ≠ "" ∧
    greetingPattern.test (jsTrim (asciiLower message500)) = true := by
  decide

/-- C23, at the failing input: a message of exactly 500 characters (`hello`
and 495 exclamation marks) is not answered with the too-long reply; it is
passed to `getSmartResponse` and answered from the greeting list. -/
theorem chat_accepts_500_characters :
    jsLength message500 = 500 ∧
    (postChat sampleEnv (MessageField.text message500)).matched = true ∧
    (postChat sampleEnv (MessageField.text message500)).reply =
      some "Hello! I'm LibBot, your Des2 Library assistant. How can I help you find books today?" ∧
    (postChat sampleEnv (MessageField.text message500)).reply ≠
      some "Your message is too long. Please keep it under 500 characters." := by
  obtain ⟨hlen, hvalid, hgreet⟩ := message500_facts
  have hsmart : getSmartResponse sampleEnv.toLowerCase message500 sampleEnv.random =
      some "Hello! I'm LibBot, your Des2 Library assistant. How can I help you find books today?" := by
    have hg : greetingPattern.test (jsTrim (sampleEnv.toLowerCase message500)) = true := hgreet
    unfold getSmartResponse
    simp only [hg, if_true]
    exact pick_zero _
  have hcond : ¬ (message500 = "" ∨ jsLength (jsTrim message500) = 0) := by
    rw [invalid_iff_trim_empty]
    exact hvalid
  have hres : postChat sampleEnv (MessageField.text message500) =
      { status := 200
        reply := some "Hello! I'm LibBot, your Des2 Library assistant. How can I help you find books today?"
        matched := true, aiCalled := false } := by
    unfold postChat
    simp only [hcond, if_false, hlen, gt_iff_lt, lt_irrefl, hsmart]
    rfl
  rw [hres]
  exact ⟨hlen, rfl, rfl, by decide⟩


/-! ## The newsletter subscription -/

theorem splitLines_ne_nil (cs : List Char) : splitLines cs ≠ [] := by
  cases cs with
  | nil => simp [splitLines]
  | cons c cs =>
    unfold splitLines
    split_ifs
    · simp
    · split <;> simp

/-- Lines of a text around a line feed: the lines before, then the lines
after. -/
theorem splitLines_append_lf (a b : List Char) (c : Char) (hc : c.toNat = 10) :
    splitLines (a ++ c :: b) = splitLines a ++ splitLines b := by
  induction a with
  | nil => simp [splitLines, hc]
  | cons x a ih =>
    by_cases hx : x.toNat = 10
    · simp [splitLines, hx, ih]
    · have hne := splitLines_ne_nil a
      cases hsa : splitLines a with
      | nil => exact absurd hsa hne
      | cons line rest =>
        simp [splitLines, hx, ih, hsa]

theorem splitLines_of_lineFree (a : List Char) (h : ∀ c ∈ a, c.toNat ≠ 10) :
    splitLines a = [a] := by
  induction a with
  | nil => simp [splitLines]
  | cons x a ih =>
    have hx : x.toNat ≠ 10 := h x (List.mem_cons_self _ _)
    have ha : splitLines a = [a] := ih (fun c hc => h c (List.mem_cons_of_mem _ hc))
    simp [splitLines, hx, ha]

theorem splitLines_snoc_lf (a : List Char) :
    splitLines (a ++ [Char.ofNat 10]) = splitLines a ++ [[]] := by
  have h := splitLines_append_lf a [] (Char.ofNat 10) (by decide)
  simpa [splitLines] using h

theorem subscribersOf_none : subscribersOf Option.none = [] := rfl

theorem subscribersOf_empty : subscribersOf (some "") = [] := by
  simp [subscribersOf, splitLines]

/-- Appending a line to a terminated content adds the non-empty lines of the
appended text after the subscribers already there. -/
theorem subscribersOf_append (content e : String)
    (h : content = "" ∨ ∃ init : List Char, content.data = init ++ [Char.ofNat 10]) :
    subscribersOf (some (content ++ (e ++ "\n"))) =
      subscribersOf (some content) ++ subscribersOf (some e) := by
  have hlf : ("\n" : String).data = [Char.ofNat 10] := by decide
  rcases h with h | ⟨init, h⟩
  · subst h
    simp only [subscribersOf, String.data_append, hlf, String.empty_append]
    rw [splitLines_snoc_lf]
    simp [splitLines]
  · simp only [subscribersOf, String.data_append, hlf, h]
    rw [List.append_assoc, List.singleton_append, splitLines_append_lf _ _ _ (by decide),
      splitLines_snoc_lf, splitLines_snoc_lf]
    simp

theorem subscribersOf_line (e : String) (he : e ≠ "") (hlf : LineFree e) :
    subscribersOf (some e) = [e] := by
  have hdata : e.data ≠ [] := by
    intro h
    apply he
    cases e
    simp_all
  simp only [subscribersOf]
  rw [splitLines_of_lineFree _ hlf]
  simp [hdata]

theorem terminated_some (content : String) (h : Terminated (some content)) :
    content = "" ∨ ∃ init : List Char, content.data = init ++ [Char.ofNat 10] := by
  rcases h with h | h
  · exact Or.inl h
  · exact Or.inr (List.getLast?_eq_some_iff.1 h)

theorem subscribersOf_appendFile (file : Option String) (e : String) (h : Terminated file) :
    subscribersOf (appendFile file (e ++ "\n")) = subscribersOf file ++ subscribersOf (some e) := by
  cases file with
  | none =>
    have := subscribersOf_append "" e (Or.inl rfl)
    simpa [appendFile, subscribersOf_none, subscribersOf_empty] using this
  | some content =>
    exact subscribersOf_append content e (terminated_some content h)

theorem appendFile_terminated (file : Option String) (e : String) :
    Terminated (appendFile file (e ++ "\n")) := by
  have hlf : ("\n" : String).data = [Char.ofNat 10] := by decide
  cases file with
  | none =>
    exact Or.inr (List.getLast?_eq_some_iff.2 ⟨e.data, by simp [String.data_append, hlf]⟩)
  | some old =>
    exact Or.inr (List.getLast?_eq_some_iff.2
      ⟨old.data ++ e.data, by simp [String.data_append, hlf]⟩)

theorem terminated_none : Terminated Option.none := trivial

theorem terminated_empty : Terminated (some "") := Or.inl rfl

theorem subscribeHandler_text (address : String) (file : Option String) :
    subscribeHandler (EmailField.text address) file =
      if address = "" then
        { file := file, response := { status := 400, body := Body.text "Email is required" } }
      else if address ∈ subscribersOf file then
        { file := file
          response := { status := 400, body := Body.text "Email is already subscribed" } }
      else
        { file := appendFile file (address ++ "\n")
          response := { status := 200, body := Body.text "Subscribed successfully" } } := rfl

theorem subscribeHandler_terminated (email : EmailField) (file : Option String)
    (h : Terminated file) : Terminated (subscribeHandler email file).file := by
  cases email with
  | missing => exact h
  | text address =>
    rw [subscribeHandler_text]
    split_ifs
    · exact h
    · exact h
    · exact appendFile_terminated _ _
  | other rendered => exact appendFile_terminated _ _

/-- A request never removes a subscriber. -/
theorem subscribeHandler_keeps (email : EmailField) (file : Option String)
    (h : Terminated file) (x : String) (hx : x ∈ subscribersOf file) :
    x ∈ subscribersOf (subscribeHandler email file).file := by
  cases email with
  | missing => exact hx
  | text address =>
    rw [subscribeHandler_text]
    split_ifs
    · exact hx
    · exact hx
    · show x ∈ subscribersOf (appendFile file (address ++ "\n"))
      rw [subscribersOf_appendFile _ _ h]
      exact List.mem_append_left _ hx
  | other rendered =>
    show x ∈ subscribersOf (appendFile file (rendered ++ "\n"))
    rw [subscribersOf_appendFile _ _ h]
    exact List.mem_append_left _ hx

theorem subscribeAll_terminated (emails : List EmailField) (file : Option String)
    (h : Terminated file) : Terminated (subscribeAll emails file) := by
  induction emails generalizing file with
  | nil => exact h
  | cons email rest ih =>
    exact ih _ (subscribeHandler_terminated email file h)

theorem subscribeAll_keeps (emails : List EmailField) (file : Option String)
    (h : Terminated file) (x : String) (hx : x ∈ subscribersOf file) :
    x ∈ subscribersOf (subscribeAll emails file) := by
  induction emails generalizing file with
  | nil => exact hx
  | cons email rest ih =>
    exact ih _ (subscribeHandler_terminated email file h)
      (subscribeHandler_keeps email file h x hx)

/-- Every request with an address without line feed leaves the address among
the subscribers. -/
theorem subscribeHandler_subscribed (e : String) (he : e ≠ "") (hlf : LineFree e)
    (file : Option String) (h : Terminated file) :
    e ∈ subscribersOf (subscribeHandler (EmailField.text e) file).file := by
  rw [subscribeHandler_text]
  simp only [he, if_false]
  split_ifs with hmem
  · exact hmem
  · show e ∈ subscribersOf (appendFile file (e ++ "\n"))
    rw [subscribersOf_appendFile _ _ h, subscribersOf_line e he hlf]
    simp

/-- Uniqueness for addresses without line feed: from an absent, empty or
terminated file, after a request with such an address every later request with
it is answered 400 and leaves the file as it is. -/
theorem subscribe_line_free_unique (e : String) (he : e ≠ "") (hlf : LineFree e)
    (file : Option String) (h : Terminated file) (before later : List EmailField) :
    subscribeHandler (EmailField.text e)
        (subscribeAll (before ++ EmailField.text e :: later) file) =
      { file := subscribeAll (before ++ EmailField.text e :: later) file
        response := { status := 400, body := Body.text "Email is already subscribed" } } := by
  have hsplit : subscribeAll (before ++ EmailField.text e :: later) file =
      subscribeAll later
        (subscribeHandler (EmailField.text e) (subscribeAll before file)).file := by
    simp [subscribeAll, List.foldl_append]
  have hT := subscribeAll_terminated before file h
  have hmem : e ∈ subscribersOf (subscribeAll (before ++ EmailField.text e :: later) file) := by
    rw [hsplit]
    exact subscribeAll_keeps later _ (subscribeHandler_terminated _ _ hT) e
      (subscribeHandler_subscribed e he hlf _ hT)
  rw [subscribeHandler_text]
  simp only [he, if_false, hmem, if_true]

/-- The file lists no address twice while every request carries a string
without line feed. -/
theorem subscribers_nodup (emails : List String) (hlf : ∀ e ∈ emails, LineFree e)
    (file : Option String) (h : Terminated file) (hn : (subscribersOf file).Nodup) :
    (subscribersOf (subscribeAll (emails.map EmailField.text) file)).Nodup := by
  induction emails generalizing file with
  | nil => exact hn
  | cons e rest ih =>
    have hrest : ∀ x ∈ rest, LineFree x := fun x hx => hlf x (List.mem_cons_of_mem _ hx)
    refine ih hrest _ (subscribeHandler_terminated _ file h) ?_
    show (subscribersOf (subscribeHandler (EmailField.text e) file).file).Nodup
    rw [subscribeHandler_text]
    split_ifs with hempty hmem
    · exact hn
    · exact hn
    · show (subscribersOf (appendFile file (e ++ "\n"))).Nodup
      rw [subscribersOf_appendFile _ _ h,
        subscribersOf_line e hempty (hlf e (List.mem_cons_self _ _))]
      exact List.Nodup.append hn (List.nodup_singleton e) (by simpa using hmem)

/-- A missing or empty email is answered 400 and leaves the file as it is. -/
theorem subscribe_email_required (file : Option String) :
    subscribeHandler EmailField.missing file =
        { file := file, response := { status := 400, body := Body.text "Email is required" } } ∧
      subscribeHandler (EmailField.text "") file =
        { file := file, response := { status := 400, body := Body.text "Email is required" } } := by
  constructor
  · rfl
  · simp [subscribeHandler]

/-- C28. Evaluation of `POST /subscribe` at an address with a line feed,
starting from an absent subscribers file: the first request of the logged-in
user is answered "Subscribed successfully", and the second request with the
same address is answered "Subscribed successfully" again, not 400; it appends
the address once more, so that the file lists each of its two lines twice. -/
theorem subscribe_same_email_twice :
    postSubscribe sampleRequest twoLineEmail Option.none =
        { file := some "ann@example.com\nbob@example.com\n"
          response := { status := 200, body := Body.text "Subscribed successfully" } } ∧
      postSubscribe sampleRequest twoLineEmail (some "ann@example.com\nbob@example.com\n") =
        { file := some "ann@example.com\nbob@example.com\nann@example.com\nbob@example.com\n"
          response := { status := 200, body := Body.text "Subscribed successfully" } } ∧
      subscribersOf (some "ann@example.com\nbob@example.com\nann@example.com\nbob@example.com\n") =
        ["ann@example.com", "bob@example.com", "ann@example.com", "bob@example.com"] := by
  decide


/-! ## The book list -/

theorem matchesPage_no_genre (title author : String) :
    matchesPage title author "" = matchesTitleAuthor title author := by
  funext bk
  simp [matchesPage]

theorem limitOffset_length_le (rows : List Book) (limit offset : Int) (h : 0 ≤ limit) :
    ((limitOffset rows limit offset).length : Int) ≤ limit := by
  have hlt : ¬ limit < 0 := not_lt.mpr h
  simp only [limitOffset, hlt, if_false, List.length_take]
  have hmin : min limit.toNat (List.drop offset.toNat rows).length ≤ limit.toNat :=
    Nat.min_le_left _ _
  omega

/-- What a successful answer holds: the page is cut by LIMIT and OFFSET from the
books that match title, author and (when given) genre, each with the admin
flag of the request; the total counts the books that match title and author. -/
theorem getBooks_json (req : Request) (query : BooksQuery) (db : Database)
    (books : List (Book × Bool)) (total : Nat)
    (h : getBooks req query false false db = BooksReply.json books total) :
    books.map Prod.fst =
        limitOffset
          (db.books.filter
            (matchesPage (orEmpty query.title) (orEmpty query.author) (orEmpty query.genre)))
          (orDefault query.limit 10)
          ((orDefault query.page 1 - 1) * orDefault query.limit 10) ∧
      total =
        (db.books.filter
          (matchesTitleAuthor (orEmpty query.title) (orEmpty query.author))).length := by
  unfold getBooks at h
  split at h
  · cases h
  · simp only [Bool.false_eq_true, if_false, BooksReply.json.injEq] at h
    obtain ⟨hb, ht⟩ := h
    subst hb
    subst ht
    simp [List.map_map, Function.comp_def]

/-- Without a genre filter the total is the number of books that match the
filters of the page. -/
theorem getBooks_total_no_genre (req : Request) (query : BooksQuery) (db : Database)
    (books : List (Book × Bool)) (total : Nat) (hgenre : orEmpty query.genre = "")
    (h : getBooks req query false false db = BooksReply.json books total) :
    total =
      (db.books.filter
        (matchesPage (orEmpty query.title) (orEmpty query.author) (orEmpty query.genre))).length := by
  rw [hgenre, matchesPage_no_genre]
  exact (getBooks_json req query db books total h).2

/-- Absent or unparsable `page` and `limit` count as 1 and 10. -/
theorem orDefault_none : orDefault Option.none 1 = 1 ∧ orDefault Option.none 10 = 10 := by
  decide

/-- C29. Evaluation of `GET /books` at the query that the client sends for the
genre "Mystery" (no title, no author, page 1, limit 10) on a catalogue of two
science-fiction books: no book matches the filters of the page and the page is
empty, but the total in the response is 2, the count of the books that match
title and author only, from which the client computes 1 page. -/
theorem books_total_ignores_genre :
    getBooks anonymousRequest (clientQuery "" "" "Mystery" 1) false false votedDb =
        BooksReply.json [] 2 ∧
      (votedDb.books.filter (matchesPage "" "" "Mystery")).length = 0 ∧
      totalPages 2 clientLimit = 1 := by
  decide


/-! ## The order of the statements of a request -/

/-- In program order, on a connection just opened, a vote request is the
handler without storage error: the same rows, seen and committed, no
transaction left open, the same response, and the process goes on. -/
theorem orderedVote_eq_castVote (db : Database) (userId bookId : Int) (intent : Intent) :
    (orderedVote userId bookId intent (Connection.opened db)).conn.view =
        (castVote userId bookId intent StorageErrors.none db).db ∧
      (orderedVote userId bookId intent (Connection.opened db)).conn.disk =
        (castVote userId bookId intent StorageErrors.none db).db ∧
      (orderedVote userId bookId intent (Connection.opened db)).conn.inTransaction = false ∧
      (orderedVote userId bookId intent (Connection.opened db)).response =
        some (castVote userId bookId intent StorageErrors.none db).response ∧
      (orderedVote userId bookId intent (Connection.opened db)).alive = true := by
  cases intent
  · by_cases h1 : selectAction db userId bookId = some "like"
    · simp [orderedVote, scheduledVote, Connection.opened, castVote, likeHandler,
        StorageErrors.none, Intent.action, Intent.duplicateText, h1]
    · by_cases h2 : selectAction db userId bookId = some "dislike" <;>
        simp [orderedVote, scheduledVote, issuedStatements, voteStatements, likeStatements,
          Connection.opened, castVote, likeHandler, StorageErrors.none, Intent.action,
          runStmt, Stmt.exec, h1, h2]
  · by_cases h1 : selectAction db userId bookId = some "dislike"
    · simp [orderedVote, scheduledVote, Connection.opened, castVote, dislikeHandler,
        StorageErrors.none, Intent.action, Intent.duplicateText, h1]
    · by_cases h2 : selectAction db userId bookId = some "like" <;>
        simp [orderedVote, scheduledVote, issuedStatements, voteStatements, dislikeStatements,
          Connection.opened, castVote, dislikeHandler, StorageErrors.none, Intent.action,
          runStmt, Stmt.exec, h1, h2]

/-- C1. Evaluation at a failing order: on the consistent fresh database
(book 1 at likes 0, dislikes 0, empty ledger) user 1 likes book 1 and the
library runs INSERT OR REPLACE and COMMIT before BEGIN.  The INSERT is
committed alone, COMMIT fails for want of a transaction and the request is
answered 500, then BEGIN opens a transaction that nothing commits and the
UPDATE runs inside it.  The committed rows are book 1 at likes 0 with the
ledger row (1, 1, like): they are not consistent.  The next vote request runs
BEGIN inside the open transaction, which ends the process, and the next
process finds these rows. -/
theorem partial_commit_breaks_consistency :
    Consistent freshDb ∧
    [Stmt.insertOrReplace 1 1 "like", Stmt.commit, Stmt.beginTransaction,
        Stmt.updateLikes 1 1, Stmt.selectBook 1].Perm
      (issuedStatements 1 1 Intent.like freshDb) ∧
    (scheduledVote 1 1 Intent.like
        [Stmt.insertOrReplace 1 1 "like", Stmt.commit, Stmt.beginTransaction,
          Stmt.updateLikes 1 1, Stmt.selectBook 1]
        (Connection.opened freshDb)).response =
      some { status := 500, body := Body.text "Failed to like book" } ∧
    selectTotals (scheduledVote 1 1 Intent.like
        [Stmt.insertOrReplace 1 1 "like", Stmt.commit, Stmt.beginTransaction,
          Stmt.updateLikes 1 1, Stmt.selectBook 1]
        (Connection.opened freshDb)).conn.disk 1 = some { likes := 0, dislikes := 0 } ∧
    (scheduledVote 1 1 Intent.like
        [Stmt.insertOrReplace 1 1 "like", Stmt.commit, Stmt.beginTransaction,
          Stmt.updateLikes 1 1, Stmt.selectBook 1]
        (Connection.opened freshDb)).conn.disk.likes =
      [{ userId := 1, bookId := 1, action := "like" }] ∧
    ¬ Consistent (scheduledVote 1 1 Intent.like
        [Stmt.insertOrReplace 1 1 "like", Stmt.commit, Stmt.beginTransaction,
          Stmt.updateLikes 1 1, Stmt.selectBook 1]
        (Connection.opened freshDb)).conn.disk ∧
    (orderedVote 2 1 Intent.like
        (scheduledVote 1 1 Intent.like
          [Stmt.insertOrReplace 1 1 "like", Stmt.commit, Stmt.beginTransaction,
            Stmt.updateLikes 1 1, Stmt.selectBook 1]
          (Connection.opened freshDb)).conn).alive = false ∧
    ¬ Consistent (orderedVote 2 1 Intent.like
        (scheduledVote 1 1 Intent.like
          [Stmt.insertOrReplace 1 1 "like", Stmt.commit, Stmt.beginTransaction,
            Stmt.updateLikes 1 1, Stmt.selectBook 1]
          (Connection.opened freshDb)).conn).conn.view := by
  decide

/-- C6. Evaluation of the first request of Scenario A at a failing order: on
the fresh book 1 (likes 0, dislikes 0, empty ledger) user 1 likes and the
library runs COMMIT before BEGIN.  COMMIT fails for want of a transaction and
the request is answered 500 with `Failed to like book`, not with likes 1,
dislikes 0. -/
theorem scenario_A_first_like_fails :
    selectTotals freshDb 1 = some { likes := 0, dislikes := 0 } ∧
    freshDb.likes = [] ∧
    [Stmt.commit, Stmt.beginTransaction, Stmt.updateLikes 1 1,
        Stmt.insertOrReplace 1 1 "like", Stmt.selectBook 1].Perm
      (issuedStatements 1 1 Intent.like freshDb) ∧
    (scheduledVote 1 1 Intent.like
        [Stmt.commit, Stmt.beginTransaction, Stmt.updateLikes 1 1,
          Stmt.insertOrReplace 1 1 "like", Stmt.selectBook 1]
        (Connection.opened freshDb)).response =
      some { status := 500, body := Body.text "Failed to like book" } ∧
    (scheduledVote 1 1 Intent.like
        [Stmt.commit, Stmt.beginTransaction, Stmt.updateLikes 1 1,
          Stmt.insertOrReplace 1 1 "like", Stmt.selectBook 1]
        (Connection.opened freshDb)).response ≠
      some { status := 200, body := Body.json (some { likes := 1, dislikes := 0 }) } := by
  decide

/-- C17. Evaluation at a failing sequence of requests, from the fresh book 1
(likes 0, dislikes 0, empty ledger).  User 1 likes, in program order.  User 1
dislikes and the library runs the UPDATE of likes and COMMIT before BEGIN:
the decrement of likes is committed alone and the rest stays in a transaction
that nothing commits.  User 2 likes: BEGIN inside the open transaction ends
the process, and the next process finds likes 0 with the ledger row
(1, 1, like).  User 1 dislikes, in program order: the answer is 200 with
likes -1, dislikes 1, and book 1 has likes -1. -/
theorem counter_negative_after_partial_commit :
    Initial freshDb ∧
    [Stmt.updateLikes (-1) 1, Stmt.commit, Stmt.beginTransaction, Stmt.updateDislikes 1 1,
        Stmt.insertOrReplace 1 1 "dislike", Stmt.selectBook 1].Perm
      (issuedStatements 1 1 Intent.dislike
        (orderedVote 1 1 Intent.like (Connection.opened freshDb)).conn.view) ∧
    (orderedVote 2 1 Intent.like
      (scheduledVote 1 1 Intent.dislike
        [Stmt.updateLikes (-1) 1, Stmt.commit, Stmt.beginTransaction, Stmt.updateDislikes 1 1,
          Stmt.insertOrReplace 1 1 "dislike", Stmt.selectBook 1]
        (orderedVote 1 1 Intent.like (Connection.opened freshDb)).conn).conn).alive = false ∧
    (orderedVote 1 1 Intent.dislike
      (orderedVote 2 1 Intent.like
        (scheduledVote 1 1 Intent.dislike
          [Stmt.updateLikes (-1) 1, Stmt.commit, Stmt.beginTransaction,
            Stmt.updateDislikes 1 1, Stmt.insertOrReplace 1 1 "dislike", Stmt.selectBook 1]
          (orderedVote 1 1 Intent.like (Connection.opened freshDb)).conn).conn).conn).response =
      some { status := 200, body := Body.json (some { likes := -1, dislikes := 1 }) } ∧
    selectTotals (orderedVote 1 1 Intent.dislike
      (orderedVote 2 1 Intent.like
        (scheduledVote 1 1 Intent.dislike
          [Stmt.updateLikes (-1) 1, Stmt.commit, Stmt.beginTransaction,
            Stmt.updateDislikes 1 1, Stmt.insertOrReplace 1 1 "dislike", Stmt.selectBook 1]
          (orderedVote 1 1 Intent.like (Connection.opened freshDb)).conn).conn).conn).conn.disk 1 =
      some { likes := -1, dislikes := 1 } := by
  decide

end Des2Library
